import Mathlib

/-!
Verification development for the credential-rotator usage subsystem:
a shallow embedding of the window manager, tracking engine, limit engine,
and selection engine, followed by theorems about the documented behaviour.

Python floats are modelled as rationals (`ℚ`), Python ints as `Int`,
`time.time()` is passed explicitly as a `now : ℚ` parameter, and Python
dicts are modelled as insertion-ordered association lists.
-/

set_option allowUnsafeReducibility true

attribute [local semireducible] Rat.add Rat.mul Rat.sub Rat.neg Rat.div Rat.inv Rat.ofScientific Rat.blt

namespace Rotator

/-- Insertion-ordered association list standing in for a Python dict. -/
abbrev Dict (κ α : Type) := List (κ × α)

/-- `d.get(k)` on a Python dict: first (unique) binding for `k`. -/
def dget {κ α : Type} [DecidableEq κ] (d : Dict κ α) (k : κ) : Option α :=
  match d with
  | [] => none
  | (k', v) :: rest => if k' = k then some v else dget rest k

/-- `d[k] = v` on a Python dict: update in place, else append. -/
def dinsert {κ α : Type} [DecidableEq κ] (d : Dict κ α) (k : κ) (v : α) : Dict κ α :=
  match d with
  | [] => [(k, v)]
  | (k', v') :: rest => if k' = k then (k', v) :: rest else (k', v') :: dinsert rest k v

/-- `del d[k]` on a Python dict (no-op when the key is absent). -/
def derase {κ α : Type} [DecidableEq κ] (d : Dict κ α) (k : κ) : Dict κ α :=
  match d with
  | [] => []
  | (k', v') :: rest => if k' = k then rest else (k', v') :: derase rest k

/-- `list(d.keys())` on a Python dict. -/
def dkeys {κ α : Type} (d : Dict κ α) : List κ := d.map Prod.fst

/-- Python `x or y` for an optional int in option position: `None` and `0` are falsy. -/
def py_or_int (x : Option Int) (y : Option Int) : Option Int :=
  match x with
  | some v => if v = 0 then y else some v
  | none => y

/-- Python `x or y` for an optional float against a float default: `None` and `0.0` are falsy. -/
def py_or_rat (x : Option ℚ) (y : ℚ) : ℚ :=
  match x with
  | some v => if v = 0 then y else v
  | none => y

/-- Python `int(q)` on a float: truncation toward zero. -/
def py_int_of_float (q : ℚ) : Int :=
  if 0 ≤ q then ⌊q⌋ else ⌈q⌉

-- =========================================================================
-- Enums (usage/types.py, usage/config.py)
-- =========================================================================

/-- Sentinel tracking key used by fair cycle in credential tracking mode. -/
def FAIR_CYCLE_GLOBAL_KEY : String := "_credential_"

/-- How a usage window resets. -/
inductive ResetMode where
  | ROLLING
  | FIXED_DAILY
  | CALENDAR_WEEKLY
  | CALENDAR_MONTHLY
  | API_AUTHORITATIVE
deriving DecidableEq, Repr

/-- Result of a limit check. -/
inductive LimitResult where
  | ALLOWED
  | BLOCKED_WINDOW
  | BLOCKED_COOLDOWN
  | BLOCKED_FAIR_CYCLE
  | BLOCKED_CUSTOM_CAP
  | BLOCKED_CONCURRENT
deriving DecidableEq, Repr

/-- How credentials are rotated. -/
inductive RotationMode where
  | BALANCED
  | SEQUENTIAL
deriving DecidableEq, Repr

/-- How fair cycle tracks exhaustion. -/
inductive TrackingMode where
  | MODEL_GROUP
  | CREDENTIAL
deriving DecidableEq, Repr

/-- How custom cap cooldowns are calculated. -/
inductive CooldownMode where
  | QUOTA_RESET
  | OFFSET
  | FIXED
deriving DecidableEq, Repr

/-- How custom cap max_requests values are interpreted. -/
inductive CapMode where
  | ABSOLUTE
  | OFFSET
  | PERCENTAGE
deriving DecidableEq, Repr

-- =========================================================================
-- Data model (usage/types.py)
-- =========================================================================

/-- Statistics for a single time-based usage window. -/
structure WindowStats where
  name : String
  request_count : Int := 0
  success_count : Int := 0
  failure_count : Int := 0
  prompt_tokens : Int := 0
  completion_tokens : Int := 0
  thinking_tokens : Int := 0
  output_tokens : Int := 0
  prompt_tokens_cache_read : Int := 0
  prompt_tokens_cache_write : Int := 0
  total_tokens : Int := 0
  approx_cost : ℚ := 0
  started_at : Option ℚ := none
  reset_at : Option ℚ := none
  limit : Option Int := none
  max_recorded_requests : Option Int := none
  max_recorded_at : Option ℚ := none
  first_used_at : Option ℚ := none
  last_used_at : Option ℚ := none
deriving DecidableEq, Repr

/-- All-time totals for a model, group, or credential. -/
structure TotalStats where
  request_count : Int := 0
  success_count : Int := 0
  failure_count : Int := 0
  prompt_tokens : Int := 0
  completion_tokens : Int := 0
  thinking_tokens : Int := 0
  output_tokens : Int := 0
  prompt_tokens_cache_read : Int := 0
  prompt_tokens_cache_write : Int := 0
  total_tokens : Int := 0
  approx_cost : ℚ := 0
  first_used_at : Option ℚ := none
  last_used_at : Option ℚ := none
deriving DecidableEq, Repr

/-- Stats for a single model (own usage only). -/
structure ModelStats where
  windows : Dict String WindowStats := []
  totals : TotalStats := {}
deriving DecidableEq, Repr

/-- Stats for a quota group (shared usage). -/
structure GroupStats where
  windows : Dict String WindowStats := []
  totals : TotalStats := {}
deriving DecidableEq, Repr

/-- Information about a cooldown period. -/
structure CooldownInfo where
  reason : String
  «until» : ℚ
  started_at : ℚ
  source : String := "system"
  model_or_group : Option String := none
  backoff_count : Int := 0
deriving DecidableEq, Repr

/-- Fair cycle state for a credential. -/
structure FairCycleState where
  exhausted : Bool := false
  exhausted_at : Option ℚ := none
  exhausted_reason : Option String := none
  cycle_request_count : Int := 0
  model_or_group : Option String := none
deriving DecidableEq, Repr

/-- Global fair cycle state for a provider. -/
structure GlobalFairCycleState where
  cycle_start : ℚ := 0
  all_exhausted_at : Option ℚ := none
  cycle_count : Int := 0
deriving DecidableEq, Repr

/-- All data for a single usage update. -/
structure UsageUpdate where
  request_count : Int := 1
  success : Bool := true
  prompt_tokens : Int := 0
  completion_tokens : Int := 0
  thinking_tokens : Int := 0
  prompt_tokens_cache_read : Int := 0
  prompt_tokens_cache_write : Int := 0
  approx_cost : ℚ := 0
deriving DecidableEq, Repr

-- =========================================================================
-- Configuration (usage/config.py)
-- =========================================================================

/-- Definition of a usage tracking window. -/
structure WindowDefinition where
  name : String
  duration_seconds : Option Int
  reset_mode : ResetMode
  is_primary : Bool := false
  applies_to : String := "model"
deriving DecidableEq, Repr

/-- Fair cycle rotation configuration; `enabled = none` means "derive at load time". -/
structure FairCycleConfig where
  enabled : Option Bool := none
  tracking_mode : TrackingMode := TrackingMode.MODEL_GROUP
  cross_tier : Bool := false
  duration : Int := 3600
  quota_threshold : ℚ := 1
  reset_cooldown_threshold : Int := 300
deriving DecidableEq, Repr

/-- Python truthiness of the tri-state `enabled` field: `None` and `False` are falsy. -/
def FairCycleConfig.isEnabled (c : FairCycleConfig) : Bool := c.enabled = some true

/-- Custom cap configuration for a tier/model combination. -/
structure CustomCapConfig where
  tier_key : String
  model_or_group : String
  max_requests : Int
  max_requests_mode : CapMode := CapMode.ABSOLUTE
  cooldown_mode : CooldownMode := CooldownMode.QUOTA_RESET
  cooldown_value : Int := 0
deriving DecidableEq, Repr

/-- Complete usage configuration for a provider (fields the core engines read). -/
structure ProviderUsageConfig where
  rotation_mode : RotationMode := RotationMode.BALANCED
  rotation_tolerance : ℚ := 3
  sequential_fallback_multiplier : Int := 1
  fair_cycle : FairCycleConfig := {}
  custom_caps : List CustomCapConfig := []
  exhaustion_cooldown_threshold : Int := 1800
  window_limits_enabled : Bool := false
  windows : List WindowDefinition := []
deriving DecidableEq, Repr

-- =========================================================================
-- Credential state (usage/types.py)
-- =========================================================================

/-- Complete state for a single credential. -/
structure CredentialState where
  stable_id : String
  provider : String
  accessor : String
  priority : Int := 999
  window_definitions : List WindowDefinition := []
  model_usage : Dict String ModelStats := []
  group_usage : Dict String GroupStats := []
  totals : TotalStats := {}
  cooldowns : Dict String CooldownInfo := []
  fair_cycle : Dict String FairCycleState := []
  active_requests : Int := 0
  max_concurrent : Option Int := none
  created_at : Option ℚ := none
  last_updated : Option ℚ := none
deriving DecidableEq, Repr

/-- `CredentialState.is_fair_cycle_exhausted`. -/
def CredentialState.is_fair_cycle_exhausted (s : CredentialState) (model_or_group : String) : Bool :=
  match dget s.fair_cycle model_or_group with
  | some st => st.exhausted
  | none => false

/-- Result of checking all limits for a credential. -/
structure LimitCheckResult where
  allowed : Bool
  result : LimitResult := LimitResult.ALLOWED
  reason : Option String := none
  blocked_until : Option ℚ := none
deriving DecidableEq, Repr

/-- `LimitCheckResult.ok`. -/
def LimitCheckResult.ok : LimitCheckResult :=
  { allowed := true, result := LimitResult.ALLOWED }

/-- `LimitCheckResult.blocked`. -/
def LimitCheckResult.blocked (result : LimitResult) (reason : String)
    (blocked_until : Option ℚ := none) : LimitCheckResult :=
  { allowed := false, result := result, reason := some reason, blocked_until := blocked_until }

-- =========================================================================
-- Calendar arithmetic (UTC; models datetime.fromtimestamp(_, timezone.utc))
-- =========================================================================

/-- Day number (days since the Unix epoch) containing timestamp `t`. -/
def days_of (t : ℚ) : Int := ⌊t / 86400⌋

/-- Seconds elapsed since UTC midnight at timestamp `t`. -/
def seconds_of_day (t : ℚ) : ℚ := t - 86400 * (days_of t : ℚ)

/-- UTC hour (0-23) at timestamp `t`. -/
def hour_of (t : ℚ) : Int := ⌊seconds_of_day t / 3600⌋

/-- Python `datetime.weekday()`: Monday = 0 .. Sunday = 6; the epoch day was a Thursday. -/
def weekday_of (t : ℚ) : Int := (days_of t + 3) % 7

/-- Proleptic Gregorian (year, month, day) of a day number (civil-from-days). -/
def civil_from_days (z0 : Int) : Int × Int × Int :=
  let z := z0 + 719468
  let era := (if 0 ≤ z then z else z - 146096).tdiv 146097
  let doe := z - era * 146097
  let yoe := (doe - doe.tdiv 1460 + doe.tdiv 36524 - doe.tdiv 146096).tdiv 365
  let y := yoe + era * 400
  let doy := doe - (365 * yoe + yoe.tdiv 4 - yoe.tdiv 100)
  let mp := (5 * doy + 2).tdiv 153
  let d := doy - (153 * mp + 2).tdiv 5 + 1
  let m := if mp < 10 then mp + 3 else mp - 9
  (if m ≤ 2 then y + 1 else y, m, d)

/-- Day number of a proleptic Gregorian (year, month, day) (days-from-civil). -/
def days_from_civil (y0 m d : Int) : Int :=
  let y := if m ≤ 2 then y0 - 1 else y0
  let era := (if 0 ≤ y then y else y - 399).tdiv 400
  let yoe := y - era * 400
  let mp := if 2 < m then m - 3 else m + 9
  let doy := (153 * mp + 2).tdiv 5 + d - 1
  let doe := yoe * 365 + yoe.tdiv 4 - yoe.tdiv 100 + doy
  era * 146097 + doe - 719468

-- =========================================================================
-- Window manager (usage/tracking/windows.py)
-- =========================================================================

/-- Window manager: named window definitions plus the daily UTC reset time. -/
structure WindowManager where
  definitions : Dict String WindowDefinition
  daily_reset_hour : Int := 3
  daily_reset_minute : Int := 0
deriving Repr

/-- Build the `definitions` dict from a definition list (`{w.name: w for w in defs}`). -/
def make_definitions (defs : List WindowDefinition) : Dict String WindowDefinition :=
  defs.foldl (fun acc w => dinsert acc w.name w) []

/-- `WindowManager._past_daily_reset`. -/
def WindowManager.past_daily_reset (wm : WindowManager) (started_at now : ℚ) : Bool :=
  let d := days_of started_at
  let reset0 : ℚ := (d : ℚ) * 86400 + (wm.daily_reset_hour : ℚ) * 3600 + (wm.daily_reset_minute : ℚ) * 60
  let reset := if reset0 ≤ started_at then reset0 + 86400 else reset0
  reset ≤ now

/-- `WindowManager._next_daily_reset`. -/
def WindowManager.next_daily_reset (wm : WindowManager) (from_time : ℚ) : ℚ :=
  let d := days_of from_time
  let reset0 : ℚ := (d : ℚ) * 86400 + (wm.daily_reset_hour : ℚ) * 3600 + (wm.daily_reset_minute : ℚ) * 60
  if reset0 ≤ from_time then reset0 + 86400 else reset0

/-- `WindowManager._past_weekly_reset` (Sunday 03:00 UTC). -/
def WindowManager.past_weekly_reset (_wm : WindowManager) (started_at now : ℚ) : Bool :=
  let d := days_of started_at
  let dus0 := (6 - weekday_of started_at) % 7
  let dus := if dus0 = 0 ∧ 3 ≤ hour_of started_at then 7 else dus0
  let reset : ℚ := ((d + dus : Int) : ℚ) * 86400 + 3 * 3600
  reset ≤ now

/-- `WindowManager._next_weekly_reset`. -/
def WindowManager.next_weekly_reset (_wm : WindowManager) (from_time : ℚ) : ℚ :=
  let d := days_of from_time
  let dus0 := (6 - weekday_of from_time) % 7
  let dus := if dus0 = 0 ∧ 3 ≤ hour_of from_time then 7 else dus0
  ((d + dus : Int) : ℚ) * 86400 + 3 * 3600

/-- `WindowManager._past_monthly_reset` (1st of next month, 03:00 UTC). -/
def WindowManager.past_monthly_reset (_wm : WindowManager) (started_at now : ℚ) : Bool :=
  let c := civil_from_days (days_of started_at)
  let y := c.1
  let m := c.2.1
  let next := if m = 12 then (y + 1, (1 : Int)) else (y, m + 1)
  let reset : ℚ := (days_from_civil next.1 next.2 1 : ℚ) * 86400 + 3 * 3600
  reset ≤ now

/-- `WindowManager._next_monthly_reset`. -/
def WindowManager.next_monthly_reset (_wm : WindowManager) (from_time : ℚ) : ℚ :=
  let c := civil_from_days (days_of from_time)
  let y := c.1
  let m := c.2.1
  let next := if m = 12 then (y + 1, (1 : Int)) else (y, m + 1)
  (days_from_civil next.1 next.2 1 : ℚ) * 86400 + 3 * 3600

/-- `WindowManager._should_reset`. -/
def WindowManager.should_reset (wm : WindowManager) (w : WindowStats)
    (definition : WindowDefinition) (now : ℚ) : Bool :=
  match w.reset_at with
  | some r => r ≤ now
  | none =>
    match w.started_at with
    | none => false
    | some started =>
      match definition.reset_mode with
      | ResetMode.ROLLING =>
        match definition.duration_seconds with
        | none => false
        | some ds => started + (ds : ℚ) ≤ now
      | ResetMode.FIXED_DAILY => wm.past_daily_reset started now
      | ResetMode.CALENDAR_WEEKLY => wm.past_weekly_reset started now
      | ResetMode.CALENDAR_MONTHLY => wm.past_monthly_reset started now
      | ResetMode.API_AUTHORITATIVE => false

/-- `WindowManager._calculate_reset_time`. -/
def WindowManager.calculate_reset_time (wm : WindowManager)
    (definition : WindowDefinition) (start_time : ℚ) : Option ℚ :=
  match definition.reset_mode with
  | ResetMode.ROLLING =>
    match definition.duration_seconds with
    | none => none
    | some ds => some (start_time + (ds : ℚ))
  | ResetMode.FIXED_DAILY => some (wm.next_daily_reset start_time)
  | ResetMode.CALENDAR_WEEKLY => some (wm.next_weekly_reset start_time)
  | ResetMode.CALENDAR_MONTHLY => some (wm.next_monthly_reset start_time)
  | ResetMode.API_AUTHORITATIVE => none

/-- `WindowManager.get_active_window`. -/
def WindowManager.get_active_window (wm : WindowManager)
    (windows : Dict String WindowStats) (window_name : String) (now : ℚ) : Option WindowStats :=
  match dget windows window_name with
  | none => none
  | some w =>
    match dget wm.definitions window_name with
    | none => some w
    | some definition => if wm.should_reset w definition now then none else some w

/-- `WindowManager.get_or_create_window`: returns the active window and the updated dict. -/
def WindowManager.get_or_create_window (wm : WindowManager)
    (windows : Dict String WindowStats) (window_name : String)
    (limit : Option Int) (now : ℚ) : WindowStats × Dict String WindowStats :=
  match wm.get_active_window windows window_name now with
  | some w => (w, windows)
  | none =>
    let old_fields : Option Int × Option ℚ × Option Int :=
      match dget windows window_name with
      | none => (none, none, none)
      | some ow =>
        let old_recorded_max := (ow.max_recorded_requests).getD 0
        if old_recorded_max < ow.request_count then
          (some ow.request_count, some (py_or_rat ow.last_used_at now), ow.limit)
        else if 0 < old_recorded_max then
          (ow.max_recorded_requests, ow.max_recorded_at, ow.limit)
        else
          (none, none, ow.limit)
    let new_window : WindowStats :=
      { name := window_name
        started_at := none
        reset_at := none
        limit := py_or_int limit old_fields.2.2
        max_recorded_requests := old_fields.1
        max_recorded_at := old_fields.2.1 }
    (new_window, dinsert windows window_name new_window)

/-- The iteration inside `WindowManager.get_primary_window`. -/
def primary_window_scan (wm : WindowManager) (windows : Dict String WindowStats)
    (now : ℚ) : Dict String WindowDefinition → Option WindowStats
  | [] => none
  | (name, definition) :: rest =>
    if definition.is_primary then wm.get_active_window windows name now
    else primary_window_scan wm windows now rest

/-- `WindowManager.get_primary_window`: first primary definition in dict order. -/
def WindowManager.get_primary_window (wm : WindowManager)
    (windows : Dict String WindowStats) (now : ℚ) : Option WindowStats :=
  primary_window_scan wm windows now wm.definitions

/-- The iteration inside `WindowManager.get_primary_definition`. -/
def primary_def_scan : Dict String WindowDefinition → Option WindowDefinition
  | [] => none
  | (_, definition) :: rest =>
    if definition.is_primary then some definition else primary_def_scan rest

/-- `WindowManager.get_primary_definition`. -/
def WindowManager.get_primary_definition (wm : WindowManager) : Option WindowDefinition :=
  primary_def_scan wm.definitions

-- =========================================================================
-- Tracking engine (usage/tracking/engine.py)
-- =========================================================================

/-- Rate-limit information already parsed out of response headers; a field is
`none` when the header is absent or its `int`/`float` parse failed. -/
structure ResponseHeaders where
  x_ratelimit_remaining : Option Int := none
  x_ratelimit_reset : Option ℚ := none
  x_ratelimit_limit : Option Int := none
deriving DecidableEq, Repr

/-- `TrackingEngine._resolve_fair_cycle_key`. -/
def resolve_fair_cycle_key (cfg : ProviderUsageConfig) (group_key : String) : String :=
  if cfg.fair_cycle.tracking_mode = TrackingMode.CREDENTIAL then FAIR_CYCLE_GLOBAL_KEY
  else group_key

/-- `TrackingEngine._apply_to_window`. -/
def apply_to_window (wm : WindowManager) (w : WindowStats) (update : UsageUpdate)
    (now : ℚ) (total_tokens output_tokens : Int)
    (window_def : Option WindowDefinition) : WindowStats :=
  let w := { w with
    request_count := w.request_count + update.request_count
    success_count := if update.success then w.success_count + update.request_count else w.success_count
    failure_count := if update.success then w.failure_count else w.failure_count + update.request_count
    prompt_tokens := w.prompt_tokens + update.prompt_tokens
    completion_tokens := w.completion_tokens + update.completion_tokens
    thinking_tokens := w.thinking_tokens + update.thinking_tokens
    output_tokens := w.output_tokens + output_tokens
    prompt_tokens_cache_read := w.prompt_tokens_cache_read + update.prompt_tokens_cache_read
    prompt_tokens_cache_write := w.prompt_tokens_cache_write + update.prompt_tokens_cache_write
    total_tokens := w.total_tokens + total_tokens
    approx_cost := w.approx_cost + update.approx_cost
    last_used_at := some now
    first_used_at := if w.first_used_at = none then some now else w.first_used_at }
  let w :=
    if w.started_at = none then
      let w := { w with started_at := some now }
      let effective_def :=
        match window_def with
        | some d => some d
        | none => dget wm.definitions w.name
      match effective_def with
      | some d =>
        if w.reset_at = none then { w with reset_at := wm.calculate_reset_time d now } else w
      | none => w
    else w
  match w.max_recorded_requests with
  | none => { w with max_recorded_requests := some w.request_count, max_recorded_at := some now }
  | some m =>
    if m < w.request_count then
      { w with max_recorded_requests := some w.request_count, max_recorded_at := some now }
    else w

/-- `TrackingEngine._apply_to_windows`: the update is applied through
`get_or_create_window`, whose result object is aliased into the dict. -/
def apply_to_windows (wm : WindowManager) (windows : Dict String WindowStats)
    (update : UsageUpdate) (now : ℚ) (total_tokens output_tokens : Int)
    (defs : List WindowDefinition) : Dict String WindowStats :=
  defs.foldl
    (fun ws window_def =>
      let wpair := wm.get_or_create_window ws window_def.name none now
      let w := apply_to_window wm wpair.1 update now total_tokens output_tokens (some window_def)
      dinsert wpair.2 window_def.name w)
    windows

/-- `TrackingEngine._apply_to_totals`. -/
def apply_to_totals (totals : TotalStats) (update : UsageUpdate) (now : ℚ)
    (total_tokens output_tokens : Int) : TotalStats :=
  { totals with
    request_count := totals.request_count + update.request_count
    success_count := if update.success then totals.success_count + update.request_count else totals.success_count
    failure_count := if update.success then totals.failure_count else totals.failure_count + update.request_count
    prompt_tokens := totals.prompt_tokens + update.prompt_tokens
    completion_tokens := totals.completion_tokens + update.completion_tokens
    thinking_tokens := totals.thinking_tokens + update.thinking_tokens
    output_tokens := totals.output_tokens + output_tokens
    prompt_tokens_cache_read := totals.prompt_tokens_cache_read + update.prompt_tokens_cache_read
    prompt_tokens_cache_write := totals.prompt_tokens_cache_write + update.prompt_tokens_cache_write
    total_tokens := totals.total_tokens + total_tokens
    approx_cost := totals.approx_cost + update.approx_cost
    last_used_at := some now
    first_used_at := if totals.first_used_at = none then some now else totals.first_used_at }

/-- `TrackingEngine._sync_window_timing_from_group`: group windows are
authoritative for `started_at` and `reset_at`. -/
def sync_window_timing_from_group (model_windows group_windows : Dict String WindowStats) :
    Dict String WindowStats :=
  group_windows.foldl
    (fun mws entry =>
      match dget mws entry.1 with
      | some mw =>
        dinsert mws entry.1 ({ mw with started_at := entry.2.started_at, reset_at := entry.2.reset_at })
      | none => mws)
    model_windows

/-- `TrackingEngine._mark_exhausted` (idempotent when already exhausted). -/
def mark_exhausted (state : CredentialState) (model_or_group : String)
    (reason : String) (now : ℚ) : CredentialState :=
  match dget state.fair_cycle model_or_group with
  | some fc =>
    if fc.exhausted then state
    else
      let fc' := { fc with exhausted := true, exhausted_at := some now, exhausted_reason := some reason }
      { state with fair_cycle := dinsert state.fair_cycle model_or_group fc' }
  | none =>
    let fc' : FairCycleState :=
      { exhausted := true, exhausted_at := some now, exhausted_reason := some reason
        cycle_request_count := 0, model_or_group := some model_or_group }
    { state with fair_cycle := dinsert state.fair_cycle model_or_group fc' }

/-- `TrackingEngine._apply_cooldown` (the lock-free core of `apply_cooldown`). -/
def apply_cooldown (cfg : ProviderUsageConfig) (state : CredentialState) (reason : String)
    (duration : Option ℚ := none) («until» : Option ℚ := none)
    (model_or_group : Option String := none) (source : String := "system")
    (now : ℚ := 0) : CredentialState :=
  let cooldown_until? : Option ℚ :=
    match «until» with
    | some u => some u
    | none =>
      match duration with
      | some d => some (now + d)
      | none => none
  match cooldown_until? with
  | none => state
  | some cooldown_until =>
    let key := model_or_group.getD "_global_"
    let existing := dget state.cooldowns key
    let preserved : Int × String × String × ℚ :=
      match existing with
      | some ex =>
        if now < ex.«until» then (ex.backoff_count + 1, ex.reason, ex.source, ex.started_at)
        else (0, reason, source, now)
      | none => (0, reason, source, now)
    let info : CooldownInfo :=
      { reason := preserved.2.1, «until» := cooldown_until, started_at := preserved.2.2.2
        source := preserved.2.2.1, model_or_group := model_or_group
        backoff_count := preserved.1 }
    let state1 := { state with cooldowns := dinsert state.cooldowns key info }
    let cooldown_duration := cooldown_until - now
    if (cfg.exhaustion_cooldown_threshold : ℚ) ≤ cooldown_duration then
      if cfg.fair_cycle.isEnabled ∧ model_or_group.isSome then
        let fair_cycle_key := resolve_fair_cycle_key cfg (model_or_group.getD "")
        mark_exhausted state1 fair_cycle_key ("cooldown_" ++ preserved.2.1) now
      else state1
    else state1

/-- `TrackingEngine.clear_cooldown`. -/
def clear_cooldown (state : CredentialState) (model_or_group : Option String) : CredentialState :=
  let key := model_or_group.getD "_global_"
  { state with cooldowns := derase state.cooldowns key }

/-- `TrackingEngine._update_from_headers` / `_apply_header_updates`. -/
def apply_header_updates (w : WindowStats) (limit : Option Int) (reset : Option ℚ)
    (now : ℚ) : WindowStats :=
  let w :=
    match limit with
    | some l => { w with limit := some l }
    | none => w
  match reset with
  | some r =>
    let reset_float := if r < 1000000000 then now + r else r
    { w with reset_at := some reset_float }
  | none => w

/-- The group-window stage of `TrackingEngine._update_from_headers`. -/
def headers_update_group (_wm : WindowManager) (state : CredentialState)
    (headers : ResponseHeaders) (primary_def : WindowDefinition) (g : String)
    (now : ℚ) : CredentialState :=
  match dget state.group_usage g with
  | some group_stats =>
    match dget group_stats.windows primary_def.name with
    | some w =>
      let w := apply_header_updates w headers.x_ratelimit_limit headers.x_ratelimit_reset now
      let gs' := { group_stats with windows := dinsert group_stats.windows primary_def.name w }
      { state with group_usage := dinsert state.group_usage g gs' }
    | none => state
  | none => state

/-- The model-window stage of `TrackingEngine._update_from_headers`. -/
def headers_update_model (_wm : WindowManager) (state : CredentialState)
    (headers : ResponseHeaders) (primary_def : WindowDefinition) (model : String)
    (now : ℚ) : CredentialState :=
  match dget state.model_usage model with
  | some model_stats =>
    match dget model_stats.windows primary_def.name with
    | some w =>
      let w := apply_header_updates w headers.x_ratelimit_limit headers.x_ratelimit_reset now
      let ms' := { model_stats with windows := dinsert model_stats.windows primary_def.name w }
      { state with model_usage := dinsert state.model_usage model ms' }
    | none => state
  | none => state

/-- `TrackingEngine._update_from_headers`. -/
def update_from_headers (wm : WindowManager) (state : CredentialState)
    (headers : ResponseHeaders) (model : String) (group : Option String)
    (now : ℚ) : CredentialState :=
  match wm.get_primary_definition with
  | none => state
  | some primary_def =>
    let state :=
      match group with
      | some g => headers_update_group wm state headers primary_def g now
      | none => state
    headers_update_model wm state headers primary_def model now

/-- Steps 1-4 of `TrackingEngine.record_usage`: window and total updates for
the model and group scopes, the group-to-model timing sync, credential
totals, and the fair-cycle request count. -/
def record_usage_core (cfg : ProviderUsageConfig) (wm : WindowManager)
    (state : CredentialState) (model : String) (update : UsageUpdate)
    (group : Option String) (now : ℚ) : CredentialState :=
  let fair_cycle_key := resolve_fair_cycle_key cfg (group.getD model)
  let output_tokens := update.completion_tokens + update.thinking_tokens
  let total_tokens :=
    update.prompt_tokens + update.completion_tokens + update.thinking_tokens
      + update.prompt_tokens_cache_read + update.prompt_tokens_cache_write
  let defs := if state.window_definitions.isEmpty then cfg.windows else state.window_definitions
  -- 1. model stats
  let model_stats := (dget state.model_usage model).getD {}
  let model_stats :=
    { model_stats with
      windows := apply_to_windows wm model_stats.windows update now total_tokens output_tokens defs }
  let model_stats :=
    { model_stats with totals := apply_to_totals model_stats.totals update now total_tokens output_tokens }
  let state := { state with model_usage := dinsert state.model_usage model model_stats }
  -- 2. group stats and timing sync
  let state :=
    match group with
    | some g =>
      let group_stats := (dget state.group_usage g).getD {}
      let group_stats :=
        { group_stats with
          windows := apply_to_windows wm group_stats.windows update now total_tokens output_tokens defs }
      let group_stats :=
        { group_stats with totals := apply_to_totals group_stats.totals update now total_tokens output_tokens }
      let state := { state with group_usage := dinsert state.group_usage g group_stats }
      let model_stats := (dget state.model_usage model).getD {}
      let model_stats :=
        { model_stats with windows := sync_window_timing_from_group model_stats.windows group_stats.windows }
      { state with model_usage := dinsert state.model_usage model model_stats }
    | none => state
  -- 3. credential totals
  let state := { state with totals := apply_to_totals state.totals update now total_tokens output_tokens }
  -- 4. fair cycle request count
  let state :=
    if cfg.fair_cycle.isEnabled then
      let fc := (dget state.fair_cycle fair_cycle_key).getD { model_or_group := some fair_cycle_key }
      let fc' := { fc with cycle_request_count := fc.cycle_request_count + update.request_count }
      { state with fair_cycle := dinsert state.fair_cycle fair_cycle_key fc' }
    else state
  state

/-- `TrackingEngine.record_usage` (the body under the engine lock; `now` is the
single `time.time()` reading for the call). -/
def record_usage (cfg : ProviderUsageConfig) (wm : WindowManager)
    (state : CredentialState) (model : String) (update : UsageUpdate)
    (group : Option String := none) (response_headers : Option ResponseHeaders := none)
    (now : ℚ := 0) : CredentialState :=
  let state := record_usage_core cfg wm state model update group now
  -- 5. response headers
  let state :=
    match response_headers with
    | some headers => update_from_headers wm state headers model group now
    | none => state
  { state with last_updated := some now }

-- =========================================================================
-- Limit checkers (usage/limits/*.py)
-- =========================================================================

/-- `ConcurrentLimitChecker.check`. -/
def concurrent_check (state : CredentialState) : LimitCheckResult :=
  match state.max_concurrent with
  | none => LimitCheckResult.ok
  | some mc =>
    if mc ≤ state.active_requests then
      LimitCheckResult.blocked LimitResult.BLOCKED_CONCURRENT "At max concurrent" none
    else LimitCheckResult.ok

/-- The key loop of `CooldownChecker.check`, ending at the `_global_` lookup. -/
def cooldown_scan (state : CredentialState) (now : ℚ) : List String → LimitCheckResult
  | [] =>
    match dget state.cooldowns "_global_" with
    | some gc =>
      if now < gc.«until» then
        LimitCheckResult.blocked LimitResult.BLOCKED_COOLDOWN
          ("Global cooldown: " ++ gc.reason) (some gc.«until»)
      else LimitCheckResult.ok
    | none => LimitCheckResult.ok
  | key :: rest =>
    match dget state.cooldowns key with
    | some cd =>
      if now < cd.«until» then
        LimitCheckResult.blocked LimitResult.BLOCKED_COOLDOWN
          ("Cooldown for " ++ key ++ ": " ++ cd.reason) (some cd.«until»)
      else cooldown_scan state now rest
    | none => cooldown_scan state now rest

/-- `CooldownChecker.check`. -/
def cooldown_check (state : CredentialState) (model : String)
    (quota_group : Option String) (now : ℚ) : LimitCheckResult :=
  let group_key := quota_group.getD model
  let keys_to_check :=
    (if group_key ≠ "" then [group_key] else [])
      ++ (match quota_group with
          | some g => if g ≠ model then [model] else []
          | none => [])
  cooldown_scan state now keys_to_check

/-- The definition loop of `WindowLimitChecker.check`. -/
def window_limit_scan (wm : WindowManager) (state : CredentialState) (model group_key : String)
    (now : ℚ) : Dict String WindowDefinition → LimitCheckResult
  | [] => LimitCheckResult.ok
  | (_, definition) :: rest =>
    let windows? : Option (Dict String WindowStats) :=
      if definition.applies_to = "model" then (dget state.model_usage model).map (·.windows)
      else if definition.applies_to = "group" then (dget state.group_usage group_key).map (·.windows)
      else none
    match windows? with
    | none => window_limit_scan wm state model group_key now rest
    | some windows =>
      match dget windows definition.name with
      | none => window_limit_scan wm state model group_key now rest
      | some w =>
        match w.limit with
        | none => window_limit_scan wm state model group_key now rest
        | some _ =>
          match wm.get_active_window windows definition.name now with
          | none => window_limit_scan wm state model group_key now rest
          | some active =>
            match active.limit with
            | none => window_limit_scan wm state model group_key now rest
            | some l =>
              if l ≤ active.request_count then
                LimitCheckResult.blocked LimitResult.BLOCKED_WINDOW
                  ("Window " ++ definition.name ++ " exhausted") active.reset_at
              else window_limit_scan wm state model group_key now rest

/-- `WindowLimitChecker.check`. -/
def window_limit_check (wm : WindowManager) (state : CredentialState) (model : String)
    (quota_group : Option String) (now : ℚ) : LimitCheckResult :=
  window_limit_scan wm state model (quota_group.getD model) now wm.definitions

-- Custom caps (usage/limits/custom_caps.py)

/-- Scope constant `SCOPE_MODEL`. -/
def SCOPE_MODEL : String := "model"

/-- Scope constant `SCOPE_GROUP`. -/
def SCOPE_GROUP : String := "group"

/-- Lookup in `CustomCapChecker._cap_index` (dict built from the cap list, later wins). -/
def cap_index_get (caps : List CustomCapConfig) (tier_key model_or_group : String) :
    Option CustomCapConfig :=
  caps.foldl
    (fun acc c =>
      if c.tier_key = tier_key ∧ c.model_or_group = model_or_group then some c else acc)
    none

/-- `CustomCapChecker._find_all_caps`. -/
def find_all_caps (caps : List CustomCapConfig) (priority_key model : String)
    (quota_group : Option String) : List (CustomCapConfig × String × String) :=
  let model_cap :=
    match cap_index_get caps priority_key model with
    | some c => some c
    | none => cap_index_get caps "default" model
  let base :=
    match model_cap with
    | some c => [(c, SCOPE_MODEL, model)]
    | none => []
  match quota_group with
  | some g =>
    if g ≠ model then
      let group_cap :=
        match cap_index_get caps priority_key g with
        | some c => some c
        | none => cap_index_get caps "default" g
      match group_cap with
      | some c => base ++ [(c, SCOPE_GROUP, g)]
      | none => base
    else base
  | none => base

/-- `CustomCapChecker._resolve_max_requests` (always clamps to ≥ 0). -/
def resolve_max_requests (cap : CustomCapConfig) (window_limit : Option Int) : Int :=
  if cap.max_requests_mode = CapMode.ABSOLUTE then max 0 cap.max_requests
  else
    match window_limit with
    | none =>
      if cap.max_requests_mode = CapMode.OFFSET then max 0 |cap.max_requests|
      else 1000
    | some l =>
      if cap.max_requests_mode = CapMode.OFFSET then max 0 (l + cap.max_requests)
      else if cap.max_requests_mode = CapMode.PERCENTAGE then
        max 0 (py_int_of_float ((l : ℚ) * (cap.max_requests : ℚ) / 100))
      else max 0 cap.max_requests

/-- `CustomCapChecker._calculate_cooldown_until`. -/
def calculate_cooldown_until (cap : CustomCapConfig) (w : WindowStats) (now : ℚ) : Option ℚ :=
  let natural_reset := w.reset_at
  match cap.cooldown_mode with
  | CooldownMode.QUOTA_RESET => natural_reset
  | CooldownMode.OFFSET =>
    -- Python truthiness: a reset time of exactly 0.0 takes the fallback branch.
    match natural_reset with
    | some nr =>
      if nr = 0 then some (now + (|cap.cooldown_value| : ℚ))
      else some (max (nr + (cap.cooldown_value : ℚ)) nr)
    | none => some (now + (|cap.cooldown_value| : ℚ))
  | CooldownMode.FIXED => some (now + (cap.cooldown_value : ℚ))

/-- `CustomCapChecker._check_single_cap`. -/
def check_single_cap (wm : WindowManager) (state : CredentialState) (cap : CustomCapConfig)
    (scope scope_key : String) (now : ℚ) : LimitCheckResult :=
  let windows? : Option (Dict String WindowStats) :=
    if scope = SCOPE_GROUP then (dget state.group_usage scope_key).map (·.windows)
    else (dget state.model_usage scope_key).map (·.windows)
  match windows? with
  | none => LimitCheckResult.ok
  | some windows =>
    match wm.get_primary_window windows now with
    | none => LimitCheckResult.ok
    | some primary_window =>
      let current_usage := primary_window.request_count
      let max_requests := resolve_max_requests cap primary_window.limit
      if max_requests ≤ current_usage then
        let cooldown_until := calculate_cooldown_until cap primary_window now
        let scope_desc := if scope = SCOPE_MODEL then "model" else "group"
        LimitCheckResult.blocked LimitResult.BLOCKED_CUSTOM_CAP
          ("Custom cap for " ++ scope_desc ++ " " ++ scope_key ++ " exceeded") cooldown_until
      else LimitCheckResult.ok

/-- The cap loop of `CustomCapChecker.check`: first blocked cap wins. -/
def caps_scan (wm : WindowManager) (state : CredentialState) (now : ℚ) :
    List (CustomCapConfig × String × String) → LimitCheckResult
  | [] => LimitCheckResult.ok
  | (cap, scope, scope_key) :: rest =>
    let result := check_single_cap wm state cap scope scope_key now
    if result.allowed then caps_scan wm state now rest else result

/-- `CustomCapChecker.check`. -/
def custom_cap_check (caps : List CustomCapConfig) (wm : WindowManager)
    (state : CredentialState) (model : String) (quota_group : Option String)
    (now : ℚ) : LimitCheckResult :=
  if caps.isEmpty then LimitCheckResult.ok
  else
    match wm.get_primary_definition with
    | none => LimitCheckResult.ok
    | some _ =>
      let all_caps := find_all_caps caps (toString state.priority) model quota_group
      if all_caps.isEmpty then LimitCheckResult.ok
      else caps_scan wm state now all_caps

-- Fair cycle checker (usage/limits/fair_cycle.py)

/-- Global fair-cycle state store: provider → tracking key → state. -/
abbrev FCGlobal := Dict String (Dict String GlobalFairCycleState)

/-- `FairCycleChecker._resolve_tracking_key`. -/
def resolve_tracking_key (cfg : FairCycleConfig) (model : String)
    (quota_group : Option String) : String :=
  if cfg.tracking_mode = TrackingMode.CREDENTIAL then FAIR_CYCLE_GLOBAL_KEY
  else quota_group.getD model

/-- `FairCycleChecker._get_global_state` (creates the record when missing). -/
def get_global_state (gs : FCGlobal) (provider group_key : String) (now : ℚ) :
    GlobalFairCycleState × FCGlobal :=
  let provider_map := (dget gs provider).getD []
  match dget provider_map group_key with
  | some g => (g, gs)
  | none =>
    let g : GlobalFairCycleState := { cycle_start := now }
    (g, dinsert gs provider (dinsert provider_map group_key g))

/-- `FairCycleChecker._should_reset_cycle`. -/
def should_reset_cycle (cfg : FairCycleConfig) (g : GlobalFairCycleState) (now : ℚ) : Bool :=
  g.cycle_start + (cfg.duration : ℚ) ≤ now

/-- `FairCycleChecker._get_quota_limit` (smallest applicable window limit). -/
def get_quota_limit (wm : WindowManager) (state : CredentialState) (model : String)
    (quota_group : Option String) (now : ℚ) : Option Int :=
  match wm.get_primary_definition with
  | none => none
  | some primary_def =>
    let windows? : Option (Dict String WindowStats) :=
      match quota_group with
      | some g =>
        match dget state.group_usage g with
        | some group_stats => some group_stats.windows
        | none => (dget state.model_usage model).map (·.windows)
      | none => (dget state.model_usage model).map (·.windows)
    match windows? with
    | none => none
    | some windows =>
      let primary_limit : Option Int :=
        match wm.get_active_window windows primary_def.name now with
        | some pw => if (pw.limit).getD 0 ≠ 0 then pw.limit else none
        | none => none
      match primary_limit with
      | some l => some l
      | none =>
        windows.foldl
          (fun acc entry =>
            match entry.2.limit with
            | some l =>
              match acc with
              | none => some l
              | some s => if l < s then some l else acc
            | none => acc)
          none

/-- The quota-threshold promotion step of `FairCycleChecker.check`: a
non-exhausted record whose `cycle_request_count` has reached
`int(limit * quota_threshold)` is marked exhausted in-band. -/
def fair_cycle_promote (cfg : FairCycleConfig) (wm : WindowManager)
    (state : CredentialState) (model : String) (quota_group : Option String)
    (group_key : String) (now : ℚ) : CredentialState :=
  match dget state.fair_cycle group_key with
  | some fc =>
    if fc.exhausted then state
    else
      match get_quota_limit wm state model quota_group now with
      | some quota_limit =>
        let threshold := py_int_of_float ((quota_limit : ℚ) * cfg.quota_threshold)
        if threshold ≤ fc.cycle_request_count then
          let fc' := { fc with exhausted := true, exhausted_at := some now
                               exhausted_reason := some "quota_threshold" }
          { state with fair_cycle := dinsert state.fair_cycle group_key fc' }
        else state
      | none => state
  | none => state

/-- The tail of `FairCycleChecker.check` once exhaustion is known: allow when
not exhausted or when the cycle duration has expired, else block. -/
def fair_cycle_decide (cfg : FairCycleConfig) (gs : FCGlobal)
    (state : CredentialState) (group_key : String) (exhausted : Bool) (now : ℚ) :
    LimitCheckResult × CredentialState × FCGlobal :=
  if exhausted = false then (LimitCheckResult.ok, state, gs)
  else
    let gpair := get_global_state gs state.provider group_key now
    if should_reset_cycle cfg gpair.1 now then (LimitCheckResult.ok, state, gpair.2)
    else
      (LimitCheckResult.blocked LimitResult.BLOCKED_FAIR_CYCLE
        ("Fair cycle: exhausted for " ++ group_key) none, state, gpair.2)

/-- `FairCycleChecker.check`: may promote the credential to exhausted in-band and
may create the global cycle record, so it returns the updated state and store. -/
def fair_cycle_check (cfg : FairCycleConfig) (wm : WindowManager)
    (state : CredentialState) (model : String) (quota_group : Option String)
    (gs : FCGlobal) (now : ℚ) : LimitCheckResult × CredentialState × FCGlobal :=
  if ¬ cfg.isEnabled then (LimitCheckResult.ok, state, gs)
  else
    let group_key := resolve_tracking_key cfg model quota_group
    let state := fair_cycle_promote cfg wm state model quota_group group_key now
    let exhausted :=
      match dget state.fair_cycle group_key with
      | some fc => fc.exhausted
      | none => false
    fair_cycle_decide cfg gs state group_key exhausted now

-- Limit engine (usage/limits/engine.py)

/-- `LimitEngine.check_all`: checkers run in the fixed order concurrent,
cooldowns, window limits (only when enabled), custom caps, fair cycle;
the first blocking result is returned and later checkers are not run. -/
def check_all (cfg : ProviderUsageConfig) (wm : WindowManager)
    (state : CredentialState) (model : String) (quota_group : Option String)
    (gs : FCGlobal) (now : ℚ) : LimitCheckResult × CredentialState × FCGlobal :=
  let r1 := concurrent_check state
  if ¬ r1.allowed then (r1, state, gs)
  else
    let r2 := cooldown_check state model quota_group now
    if ¬ r2.allowed then (r2, state, gs)
    else
      let tail : Unit → LimitCheckResult × CredentialState × FCGlobal := fun _ =>
        let r4 := custom_cap_check cfg.custom_caps wm state model quota_group now
        if ¬ r4.allowed then (r4, state, gs)
        else fair_cycle_check cfg.fair_cycle wm state model quota_group gs now
      if cfg.window_limits_enabled then
        let r3 := window_limit_check wm state model quota_group now
        if ¬ r3.allowed then (r3, state, gs) else tail ()
      else tail ()

/-- The verdicts of the engine's checkers, in the order `LimitEngine.__init__`
registers them: concurrent, cooldowns, window limits (present only when
`window_limits_enabled`), custom caps, fair cycle. -/
def checker_sequence (cfg : ProviderUsageConfig) (wm : WindowManager)
    (state : CredentialState) (model : String) (quota_group : Option String)
    (gs : FCGlobal) (now : ℚ) : List LimitCheckResult :=
  [concurrent_check state, cooldown_check state model quota_group now]
    ++ (if cfg.window_limits_enabled then
          [window_limit_check wm state model quota_group now]
        else [])
    ++ [custom_cap_check cfg.custom_caps wm state model quota_group now,
        (fair_cycle_check cfg.fair_cycle wm state model quota_group gs now).1]

-- =========================================================================
-- Rotation strategies (usage/selection/strategies/*.py)
-- =========================================================================

/-- Outcome of the random module for one strategy invocation: `u` models the
value drawn by `random.uniform(0, total)` and `idx` the index drawn by
`random.choice` on the zero-total fallback path. -/
structure RandomDraw where
  u : ℚ := 0
  idx : Nat := 0
deriving DecidableEq, Repr

/-- Context passed to rotation strategies during credential selection. -/
structure SelectionContext where
  provider : String
  model : String
  quota_group : Option String
  candidates : List String
  priorities : Dict String Int
  usage_counts : Dict String Int
  rotation_mode : RotationMode
  rotation_tolerance : ℚ
  deadline : ℚ
deriving DecidableEq, Repr

/-- `BalancedStrategy._group_by_priority`. -/
def group_by_priority (candidates : List String) (priorities : Dict String Int) :
    Dict Int (List String) :=
  candidates.foldl
    (fun groups sid =>
      let priority := (dget priorities sid).getD 999
      match dget groups priority with
      | some l => dinsert groups priority (l ++ [sid])
      | none => dinsert groups priority [sid])
    []

/-- Ascending insertion of an integer into a sorted list (for Python `sorted`). -/
def insert_sorted (x : Int) : List Int → List Int
  | [] => [x]
  | y :: ys => if x ≤ y then x :: y :: ys else y :: insert_sorted x ys

/-- Python `sorted` on a list of distinct integer keys. -/
def sort_ints : List Int → List Int
  | [] => []
  | x :: xs => insert_sorted x (sort_ints xs)

/-- `BalancedStrategy._calculate_weights`:
`w = (max_usage - usage) + tolerance + 1`, floored at 0.1. -/
def calculate_weights (tolerance : ℚ) (candidates : List String)
    (usage_counts : Dict String Int) : List ℚ :=
  match candidates with
  | [] => []
  | _ =>
    let usages := candidates.map (fun sid => (dget usage_counts sid).getD 0)
    let max_usage : Int :=
      match usages with
      | [] => 0
      | h :: t => t.foldl max h
    usages.map (fun usage => max (((max_usage - usage : Int) : ℚ) + tolerance + 1) 0.1)

/-- Cumulative walk of `BalancedStrategy._weighted_random_choice`. -/
def wrc_walk (r : ℚ) (last : Option String) : ℚ → List (String × ℚ) → Option String
  | _, [] => last
  | cumulative, (candidate, weight) :: rest =>
    let cumulative := cumulative + weight
    if r ≤ cumulative then some candidate else wrc_walk r last cumulative rest

/-- `BalancedStrategy._weighted_random_choice`. -/
def weighted_random_choice (draw : RandomDraw) (candidates : List String)
    (weights : List ℚ) : Option String :=
  match candidates with
  | [] => none
  | [c] => some c
  | _ =>
    let total := weights.foldl (· + ·) 0
    if total ≤ 0 then candidates.get? (draw.idx % candidates.length)
    else wrc_walk draw.u candidates.getLast? 0 (candidates.zip weights)

/-- The tier loop in `BalancedStrategy.select`; Python `if selected:` treats an
empty-string id as falsy. -/
def balanced_loop (tolerance : ℚ) (draw : RandomDraw) (groups : Dict Int (List String))
    (usage_counts : Dict String Int) : List Int → Option String
  | [] => none
  | priority :: rest =>
    let candidates := (dget groups priority).getD []
    if candidates.isEmpty then balanced_loop tolerance draw groups usage_counts rest
    else
      let weights := calculate_weights tolerance candidates usage_counts
      match weighted_random_choice draw candidates weights with
      | some selected =>
        if selected ≠ "" then some selected
        else balanced_loop tolerance draw groups usage_counts rest
      | none => balanced_loop tolerance draw groups usage_counts rest

/-- `BalancedStrategy.select`. -/
def balanced_select (tolerance : ℚ) (draw : RandomDraw)
    (context : SelectionContext) : Option String :=
  match context.candidates with
  | [] => none
  | [c] => some c
  | _ =>
    let groups := group_by_priority context.candidates context.priorities
    let keys := sort_ints (dkeys groups)
    match balanced_loop tolerance draw groups context.usage_counts keys with
    | some s => some s
    | none => context.candidates.head?

/-- The `(priority, -usage, -recency)` sort key of `SequentialStrategy._select_by_priority`. -/
def seq_sort_key (priorities : Dict String Int) (usage_counts : Dict String Int)
    (states : Dict String CredentialState) (c : String) : Int × Int × ℚ :=
  let priority := (dget priorities c).getD 999
  let usage := -((dget usage_counts c).getD 0)
  let last_used : ℚ :=
    match dget states c with
    | some state => -((state.totals.last_used_at).getD 0)
    | none => 0
  (priority, usage, last_used)

/-- Strict lexicographic order on the sequential sort key. -/
def seq_key_lt (a b : Int × Int × ℚ) : Bool :=
  if a.1 ≠ b.1 then a.1 < b.1
  else if a.2.1 ≠ b.2.1 then a.2.1 < b.2.1
  else a.2.2 < b.2.2

/-- `SequentialStrategy._select_by_priority`: the head of the stable sort by
`seq_sort_key`, i.e. the earliest candidate with minimal key. -/
def select_by_priority (candidates : List String) (priorities : Dict String Int)
    (usage_counts : Dict String Int) (states : Dict String CredentialState) :
    Option String :=
  match candidates with
  | [] => none
  | h :: t =>
    let key := seq_sort_key priorities usage_counts states
    some (t.foldl (fun best c => if seq_key_lt (key c) (key best) then c else best) h)

/-- `SequentialStrategy.select`: threads the sticky `_current` map explicitly. -/
def sequential_select (current : Dict (String × String) String)
    (context : SelectionContext) (states : Dict String CredentialState) :
    Option String × Dict (String × String) String :=
  match context.candidates with
  | [] => (none, current)
  | [c] => (some c, current)
  | _ =>
    let key := (context.provider, context.quota_group.getD context.model)
    let sticky : Option String :=
      match dget current key with
      | some cur => if cur ≠ "" ∧ context.candidates.contains cur then some cur else none
      | none => none
    match sticky with
    | some cur => (some cur, current)
    | none =>
      let selected := select_by_priority context.candidates context.priorities context.usage_counts states
      let current' :=
        match selected with
        | some s => if s ≠ "" then dinsert current key s else current
        | none => current
      (selected, current')

-- =========================================================================
-- Selection engine (usage/selection/engine.py)
-- =========================================================================

/-- The mutable state a `SelectionEngine.select` call can touch: the credential
states, the fair-cycle global store, and the sequential sticky map. -/
structure SelectionState where
  states : Dict String CredentialState
  fc_global : FCGlobal := []
  seq_current : Dict (String × String) String := []
deriving DecidableEq, Repr

/-- `SelectionEngine._get_usage_count`. -/
def get_usage_count (wm : WindowManager) (state : CredentialState) (model : String)
    (quota_group : Option String) (now : ℚ) : Int :=
  match wm.get_primary_definition with
  | none => state.totals.request_count
  | some primary_def =>
    let windows? : Option (Dict String WindowStats) :=
      if primary_def.applies_to = "model" then (dget state.model_usage model).map (·.windows)
      else if primary_def.applies_to = "group" then
        (dget state.group_usage (quota_group.getD model)).map (·.windows)
      else none
    match windows? with
    | some windows =>
      if windows.isEmpty then state.totals.request_count
      else
        match wm.get_active_window windows primary_def.name now with
        | some w => w.request_count
        | none => state.totals.request_count
    | none => state.totals.request_count

/-- One credential step of `SelectionEngine._get_shortest_cooldown`. -/
def shortest_cooldown_step (group_key : String) (now : ℚ)
    (acc : Option String × Option ℚ) (state : CredentialState) :
    Option String × Option ℚ :=
  let consider := fun (acc : Option String × Option ℚ) (cd : CooldownInfo) =>
    if now < cd.«until» then
      let remaining := cd.«until» - now
      match acc.2 with
      | none => (some state.stable_id, some remaining)
      | some s => if remaining < s then (some state.stable_id, some remaining) else acc
    else acc
  let acc :=
    match dget state.cooldowns group_key with
    | some cd => consider acc cd
    | none => acc
  match dget state.cooldowns "_global_" with
  | some gc => consider acc gc
  | none => acc

/-- `SelectionEngine._get_shortest_cooldown`; `none` stands for `float("inf")`. -/
def get_shortest_cooldown (cfg : FairCycleConfig) (states : List CredentialState)
    (group_key : String) (now : ℚ) : Bool × Option String × Option ℚ :=
  let res := states.foldl (shortest_cooldown_step group_key now) (none, none)
  match res.2 with
  | some s =>
    if s < (cfg.reset_cooldown_threshold : ℚ) then (true, res.1, some s)
    else (false, none, some s)
  | none => (false, none, none)

/-- `FairCycleChecker._all_exhausted_in_group`. -/
def all_exhausted_in_group (states : List CredentialState) (group_key : String) : Bool :=
  states.all (fun s => s.is_fair_cycle_exhausted group_key)

/-- `FairCycleChecker.check_all_exhausted`. -/
def check_all_exhausted (cfg : FairCycleConfig) (all_states : List CredentialState)
    (group_key : String) (priorities : Dict String Int) : Bool :=
  if ¬ priorities.isEmpty ∧ ¬ cfg.cross_tier then
    let priority_groups : Dict Int (List CredentialState) :=
      all_states.foldl
        (fun groups s =>
          let p := (dget priorities s.stable_id).getD 999
          match dget groups p with
          | some l => dinsert groups p (l ++ [s])
          | none => dinsert groups p [s])
        []
    priority_groups.all (fun entry => all_exhausted_in_group entry.2 group_key)
  else all_exhausted_in_group all_states group_key

/-- `FairCycleChecker.reset_cycle`, acting on the ids of the passed states:
clears each credential's record at `group_key` and bumps the global cycle. -/
def reset_cycle (states_dict : Dict String CredentialState) (gs : FCGlobal)
    (provider group_key : String) (ids : List String) (now : ℚ) :
    Dict String CredentialState × FCGlobal :=
  let states' :=
    ids.foldl
      (fun sd sid =>
        match dget sd sid with
        | some st =>
          match dget st.fair_cycle group_key with
          | some fc =>
            let fc' := { fc with exhausted := false, exhausted_at := none
                                 exhausted_reason := none, cycle_request_count := 0 }
            dinsert sd sid ({ st with fair_cycle := dinsert st.fair_cycle group_key fc' })
          | none => sd
        | none => sd)
      states_dict
  let gpair := get_global_state gs provider group_key now
  let g' := { gpair.1 with cycle_start := now, all_exhausted_at := none
                           cycle_count := gpair.1.cycle_count + 1 }
  (states', dinsert gpair.2 provider (dinsert ((dget gpair.2 provider).getD []) group_key g'))

/-- The candidate scan at the top of `SelectionEngine._try_fair_cycle_reset`:
returns `none` in the first component when some credential is allowed (the
Python early `return False`), else the fair-cycle-blocked count; state
mutations made by the checks are kept either way. -/
def tfcr_scan (cfg : ProviderUsageConfig) (wm : WindowManager) (model : String)
    (quota_group : Option String) (now : ℚ) :
    List String → Dict String CredentialState → FCGlobal → Int →
    Option Int × Dict String CredentialState × FCGlobal
  | [], sd, gs, count => (some count, sd, gs)
  | sid :: rest, sd, gs, count =>
    match dget sd sid with
    | none => tfcr_scan cfg wm model quota_group now rest sd gs count
    | some state =>
      let r := check_all cfg wm state model quota_group gs now
      let sd := dinsert sd sid r.2.1
      let gs := r.2.2
      if r.1.allowed then (none, sd, gs)
      else
        let count :=
          if r.1.result = LimitResult.BLOCKED_FAIR_CYCLE then count + 1 else count
        tfcr_scan cfg wm model quota_group now rest sd gs count

/-- `SelectionEngine._try_fair_cycle_reset`. -/
def try_fair_cycle_reset (cfg : ProviderUsageConfig) (wm : WindowManager)
    (provider model : String) (quota_group : Option String)
    (sd0 : Dict String CredentialState) (gs0 : FCGlobal)
    (candidates : List String) (priorities : Option (Dict String Int)) (now : ℚ) :
    Bool × Dict String CredentialState × FCGlobal :=
  let group_key := quota_group.getD model
  let tracking_key := resolve_tracking_key cfg.fair_cycle model quota_group
  let scanned := tfcr_scan cfg wm model quota_group now candidates sd0 gs0 0
  let sd := scanned.2.1
  let gs := scanned.2.2
  match scanned.1 with
  | none => (false, sd, gs)
  | some fair_cycle_blocked_count =>
    if fair_cycle_blocked_count = 0 then (false, sd, gs)
    else
      let candidate_states := candidates.filterMap (dget sd)
      let priority_map : Dict String Int :=
        match priorities with
        | some p =>
          if p.isEmpty then candidate_states.map (fun s => (s.stable_id, s.priority)) else p
        | none => candidate_states.map (fun s => (s.stable_id, s.priority))
      if cfg.fair_cycle.cross_tier then
        if check_all_exhausted cfg.fair_cycle candidate_states tracking_key priority_map then
          let sc := get_shortest_cooldown cfg.fair_cycle candidate_states group_key now
          if sc.1 then (false, sd, gs)
          else
            let rpair := reset_cycle sd gs provider tracking_key candidates now
            (true, rpair.1, rpair.2)
        else (false, sd, gs)
      else
        let tier_groups : Dict Int (List String) :=
          candidate_states.foldl
            (fun groups s =>
              match dget groups s.priority with
              | some l => dinsert groups s.priority (l ++ [s.stable_id])
              | none => dinsert groups s.priority [s.stable_id])
            []
        tier_groups.foldl
          (fun acc tier =>
            let tier_states := tier.2.filterMap (dget acc.2.1)
            let all_tier_exhausted := tier_states.all (·.is_fair_cycle_exhausted tracking_key)
            if all_tier_exhausted then
              let sc := get_shortest_cooldown cfg.fair_cycle tier_states group_key now
              if sc.1 then acc
              else
                let rpair := reset_cycle acc.2.1 acc.2.2 provider tracking_key tier.2 now
                (true, rpair.1, rpair.2)
            else acc)
          (false, sd, gs)

/-- The availability filter in step 2 of `SelectionEngine.select`, threading
the mutations each `check_all` may make. -/
def select_filter (cfg : ProviderUsageConfig) (wm : WindowManager) (model : String)
    (quota_group : Option String) (now : ℚ) :
    List String → Dict String CredentialState → FCGlobal → List String →
    List String × Dict String CredentialState × FCGlobal
  | [], sd, gs, available => (available, sd, gs)
  | sid :: rest, sd, gs, available =>
    match dget sd sid with
    | none => select_filter cfg wm model quota_group now rest sd gs available
    | some state =>
      let r := check_all cfg wm state model quota_group gs now
      let sd := dinsert sd sid r.2.1
      let gs := r.2.2
      let available := if r.1.allowed then available ++ [sid] else available
      select_filter cfg wm model quota_group now rest sd gs available

/-- `SelectionEngine.select`. The `fuel` bounds the reset-retry recursion; the
Python code recurses at most once per performed reset. -/
def select (cfg : ProviderUsageConfig) (wm : WindowManager) :
    Nat → String → String → SelectionState → Option String → List String →
    Option (Dict String Int) → ℚ → RandomDraw → ℚ → Option String × SelectionState
  | 0, _, _, st, _, _, _, _, _, _ => (none, st)
  | Nat.succ fuel, provider, model, st, quota_group, exclude, priorities, deadline, draw, now =>
    let candidates := (dkeys st.states).filter (fun sid => ¬ exclude.contains sid)
    if candidates.isEmpty then (none, st)
    else
      let filtered := select_filter cfg wm model quota_group now candidates st.states st.fc_global []
      let available := filtered.1
      let sd := filtered.2.1
      let gs := filtered.2.2
      if available.isEmpty then
        if cfg.fair_cycle.isEnabled then
          let tried := try_fair_cycle_reset cfg wm provider model quota_group sd gs candidates priorities now
          let st' := { st with states := tried.2.1, fc_global := tried.2.2 }
          if tried.1 then
            select cfg wm fuel provider model st' quota_group exclude priorities deadline draw now
          else (none, st')
        else (none, { st with states := sd, fc_global := gs })
      else
        let st := { st with states := sd, fc_global := gs }
        let usage_counts : Dict String Int :=
          available.foldl
            (fun uc sid =>
              match dget sd sid with
              | some s => dinsert uc sid (get_usage_count wm s model quota_group now)
              | none => uc)
            []
        let priorities' : Dict String Int :=
          match priorities with
          | some p => p
          | none =>
            available.foldl
              (fun pm sid =>
                match dget sd sid with
                | some s => dinsert pm sid s.priority
                | none => pm)
              []
        let context : SelectionContext :=
          { provider := provider, model := model, quota_group := quota_group
            candidates := available, priorities := priorities'
            usage_counts := usage_counts, rotation_mode := cfg.rotation_mode
            rotation_tolerance := cfg.rotation_tolerance
            deadline := py_or_rat (some deadline) (now + 120) }
        if cfg.rotation_mode = RotationMode.SEQUENTIAL then
          let spair := sequential_select st.seq_current context sd
          (spair.1, { st with seq_current := spair.2 })
        else
          (balanced_select cfg.rotation_tolerance draw context, st)

/-- Two window maps agree on `started_at` and `reset_at` for every window
name present in both. -/
def timing_synced (mws gws : Dict String WindowStats) : Prop :=
  ∀ name mw gw, dget mws name = some mw → dget gws name = some gw →
    mw.started_at = gw.started_at ∧ mw.reset_at = gw.reset_at

-- =========================================================================
-- Concrete instances used by witnesses and counterexamples
-- =========================================================================

/-- A rolling, group-scoped primary window definition (like a 5-hour quota window). -/
def wdef5h : WindowDefinition :=
  { name := "5h", duration_seconds := some 18000, reset_mode := ResetMode.ROLLING
    is_primary := true, applies_to := "group" }

/-- Window manager over the single `5h` definition. -/
def wm5h : WindowManager := { definitions := make_definitions [wdef5h] }

/-- Cooldown fixture: applied at time 0, running until 100. -/
def ex_cooldown : CooldownInfo :=
  { reason := "rate_limit", «until» := 100, started_at := 0, source := "error"
    model_or_group := some "g", backoff_count := 0 }

/-- Credential fixture with an active cooldown at key `g`. -/
def state_with_cooldown : CredentialState :=
  { stable_id := "A", provider := "prov", accessor := "A", priority := 1
    cooldowns := [("g", ex_cooldown)] }

/-- An expired predecessor window: first used at 0, 5 requests recorded,
high-water mark 5, rolling reset due at 18000. -/
def prev5h : WindowStats :=
  { name := "5h", request_count := 5, success_count := 5, started_at := some 0
    reset_at := some 18000, limit := some 200, max_recorded_requests := some 5
    max_recorded_at := some 2, first_used_at := some 0, last_used_at := some 2 }

/-- A custom cap whose `max_requests` is a negative literal in ABSOLUTE mode. -/
def cap_abs_neg : CustomCapConfig :=
  { tier_key := "default", model_or_group := "m", max_requests := -130
    max_requests_mode := CapMode.ABSOLUTE }

/-- The spec's S4 cap: OFFSET −50 on group `G`, QUOTA_RESET cooldown. -/
def cap_offset50 : CustomCapConfig :=
  { tier_key := "default", model_or_group := "G", max_requests := -50
    max_requests_mode := CapMode.OFFSET, cooldown_mode := CooldownMode.QUOTA_RESET }

/-- An active primary window with limit 200 and 150 recorded requests. -/
def pw150 : WindowStats :=
  { name := "5h", request_count := 150, success_count := 150
    started_at := some 0, reset_at := some 18000, limit := some 200 }

/-- Group stats fixture holding `pw150`. -/
def gstats150 : GroupStats := { windows := [("5h", pw150)] }

/-- Credential fixture for the custom-cap scenario. -/
def state_cap : CredentialState :=
  { stable_id := "A", provider := "prov", accessor := "A", priority := 1
    group_usage := [("G", gstats150)] }

/-- Usage config for the C5 scenario: one rolling group-scoped window. -/
def cfgC5 : ProviderUsageConfig := { windows := [wdef5h] }

/-- Fresh credential fixture. -/
def stC5 : CredentialState := { stable_id := "A", provider := "prov", accessor := "A" }

-- =========================================================================
-- Association-list (Python dict) lemmas
-- =========================================================================

theorem dget_dinsert_self {α : Type} (d : Dict String α) (k : String) (v : α) :
    dget (dinsert d k v) k = some v := by
  induction d with
  | nil => simp [dinsert, dget]
  | cons e rest ih =>
    obtain ⟨a, b⟩ := e
    by_cases h : a = k
    · simp [dinsert, dget, h]
    · simp [dinsert, dget, h, ih]

theorem dget_dinsert_ne {α : Type} (d : Dict String α) (k k' : String) (v : α)
    (h : k' ≠ k) : dget (dinsert d k v) k' = dget d k' := by
  induction d with
  | nil => simp [dinsert, dget, Ne.symm h]
  | cons e rest ih =>
    obtain ⟨a, b⟩ := e
    by_cases ha : a = k
    · have hak : ¬ a = k' := by rw [ha]; exact Ne.symm h
      simp [dinsert, dget, ha, hak, Ne.symm h]
    · by_cases hak : a = k'
      · simp [dinsert, dget, ha, hak, h]
      · simp [dinsert, dget, ha, hak, ih]

theorem dinsert_self {α : Type} (d : Dict String α) (k : String) (v : α)
    (h : dget d k = some v) : dinsert d k v = d := by
  induction d with
  | nil => simp [dget] at h
  | cons e rest ih =>
    obtain ⟨a, b⟩ := e
    by_cases ha : a = k
    · simp [dget, ha] at h
      simp [dinsert, ha, h]
    · simp [dget, ha] at h
      simp [dinsert, ha, ih h]

theorem dkeys_dinsert_of_mem {α : Type} (d : Dict String α) (k : String) (v v' : α)
    (h : dget d k = some v') : dkeys (dinsert d k v) = dkeys d := by
  induction d with
  | nil => simp [dget] at h
  | cons e rest ih =>
    obtain ⟨a, b⟩ := e
    by_cases ha : a = k
    · simp [dinsert, ha, dkeys]
    · simp [dget, ha] at h
      simp [dinsert, ha, dkeys] at ih ⊢
      exact ih h

theorem dget_cons_ne {α : Type} (a : String) (b : α) (rest : Dict String α)
    (k : String) (h : a ≠ k) : dget ((a, b) :: rest) k = dget rest k := by
  simp [dget, h]

/-- `dinsert` either rewrites an existing binding (keys unchanged) or appends
a fresh key at the end. -/
theorem dkeys_dinsert_cases {α : Type} (d : Dict String α) (k : String) (v : α) :
    dkeys (dinsert d k v) = dkeys d
    ∨ (k ∉ dkeys d ∧ dkeys (dinsert d k v) = dkeys d ++ [k]) := by
  induction d with
  | nil =>
    right
    exact ⟨by simp [dkeys], rfl⟩
  | cons e rest ih =>
    obtain ⟨a, b⟩ := e
    by_cases ha : a = k
    · left
      simp [dinsert, ha, dkeys]
    · have e1 : dinsert ((a, b) :: rest) k v = (a, b) :: dinsert rest k v := by
        simp [dinsert, ha]
      rcases ih with h | ⟨hnot, h⟩
      · left
        rw [e1]
        show a :: dkeys (dinsert rest k v) = a :: dkeys rest
        rw [h]
      · right
        constructor
        · intro hmem
          rcases List.mem_cons.mp hmem with hh | hh
          · exact ha hh.symm
          · exact hnot hh
        · rw [e1]
          show a :: dkeys (dinsert rest k v) = (a :: dkeys rest) ++ [k]
          rw [h]
          rfl

theorem nodup_dinsert {α : Type} (d : Dict String α) (k : String) (v : α)
    (h : (dkeys d).Nodup) : (dkeys (dinsert d k v)).Nodup := by
  rcases dkeys_dinsert_cases d k v with heq | ⟨hnot, heq⟩
  · rw [heq]
    exact h
  · rw [heq]
    rw [List.nodup_append]
    exact ⟨h, List.nodup_singleton k, by
      intro x hx hmem
      rcases List.mem_singleton.mp hmem with rfl
      exact hnot hx⟩

/-- `sync_window_timing_from_group` leaves keys absent from the group map alone. -/
theorem dget_sync_not_mem (gws : Dict String WindowStats) (mws : Dict String WindowStats)
    (k : String) (h : k ∉ dkeys gws) :
    dget (sync_window_timing_from_group mws gws) k = dget mws k := by
  induction gws generalizing mws with
  | nil => rfl
  | cons e rest ih =>
    obtain ⟨a, gw⟩ := e
    have hak : a ≠ k := fun hh => h (by rw [← hh]; exact List.mem_cons_self _ _)
    have hkr : k ∉ dkeys rest := fun hh => h (List.mem_cons_of_mem _ hh)
    have hstep : ∀ mws' : Dict String WindowStats,
        sync_window_timing_from_group mws' ((a, gw) :: rest) =
          sync_window_timing_from_group
            (match dget mws' a with
             | some mw => dinsert mws' a { mw with started_at := gw.started_at, reset_at := gw.reset_at }
             | none => mws') rest := by
      intro mws'
      rfl
    rw [hstep]
    cases hma : dget mws a with
    | none => exact ih _ hkr
    | some mw =>
      rw [ih _ hkr]
      exact dget_dinsert_ne _ _ _ _ (Ne.symm hak)

/-- Lookup characterization of `sync_window_timing_from_group` for group maps
with unique keys. -/
theorem dget_sync (gws : Dict String WindowStats) (mws : Dict String WindowStats)
    (k : String) (hnodup : (dkeys gws).Nodup) :
    dget (sync_window_timing_from_group mws gws) k =
      match dget gws k, dget mws k with
      | some gw, some mw => some { mw with started_at := gw.started_at, reset_at := gw.reset_at }
      | _, _ => dget mws k := by
  induction gws generalizing mws with
  | nil =>
    have h0 : dget ([] : Dict String WindowStats) k = none := rfl
    show dget mws k = _
    rw [h0]
  | cons e rest ih =>
    obtain ⟨a, gw⟩ := e
    have hnodup' : (a :: dkeys rest).Nodup := hnodup
    rw [List.nodup_cons] at hnodup'
    have hstep : sync_window_timing_from_group mws ((a, gw) :: rest) =
        sync_window_timing_from_group
          (match dget mws a with
           | some mw => dinsert mws a { mw with started_at := gw.started_at, reset_at := gw.reset_at }
           | none => mws) rest := rfl
    rw [hstep]
    by_cases hk : a = k
    · subst hk
      cases hma : dget mws a with
      | none =>
        rw [dget_sync_not_mem rest _ a hnodup'.1, hma]
        simp [dget]
      | some mw =>
        rw [dget_sync_not_mem rest _ a hnodup'.1, dget_dinsert_self]
        simp [dget]
    · have h1 : dget ((a, gw) :: rest) k = dget rest k := dget_cons_ne _ _ _ _ hk
      rw [h1]
      cases hma : dget mws a with
      | none =>
        rw [ih _ hnodup'.2]
      | some mw =>
        rw [ih _ hnodup'.2, dget_dinsert_ne _ _ _ _ (fun hh => hk hh.symm)]

/-- After a sync, the model and group maps agree on timing wherever both are
defined. -/
theorem sync_timing_synced (mws gws : Dict String WindowStats)
    (h : (dkeys gws).Nodup) :
    timing_synced (sync_window_timing_from_group mws gws) gws := by
  intro name mw gw hm hg
  rw [dget_sync gws mws name h, hg] at hm
  cases hmw : dget mws name with
  | none => rw [hmw] at hm; simp at hm
  | some mw0 =>
    rw [hmw] at hm
    simp at hm
    rw [← hm]
    exact ⟨rfl, rfl⟩

theorem nodup_get_or_create (wm : WindowManager) (ws : Dict String WindowStats)
    (name : String) (limit : Option Int) (now : ℚ) (h : (dkeys ws).Nodup) :
    (dkeys (wm.get_or_create_window ws name limit now).2).Nodup := by
  unfold WindowManager.get_or_create_window
  split
  · exact h
  · exact nodup_dinsert _ _ _ h

theorem nodup_apply_to_windows (wm : WindowManager) (ws : Dict String WindowStats)
    (u : UsageUpdate) (now : ℚ) (tt ot : Int) (defs : List WindowDefinition)
    (h : (dkeys ws).Nodup) :
    (dkeys (apply_to_windows wm ws u now tt ot defs)).Nodup := by
  induction defs generalizing ws with
  | nil => exact h
  | cons d rest ih =>
    exact ih _ (nodup_dinsert _ _ _ (nodup_get_or_create wm ws d.name none now h))

theorem apply_header_updates_started (w : WindowStats) (limit : Option Int)
    (reset : Option ℚ) (now : ℚ) :
    (apply_header_updates w limit reset now).started_at = w.started_at := by
  unfold apply_header_updates
  cases limit <;> cases reset <;> rfl

theorem apply_header_updates_reset (w : WindowStats) (limit : Option Int)
    (reset : Option ℚ) (now : ℚ) :
    (apply_header_updates w limit reset now).reset_at =
      match reset with
      | some r => some (if r < 1000000000 then now + r else r)
      | none => w.reset_at := by
  unfold apply_header_updates
  cases limit <;> cases reset <;> rfl

theorem record_usage_core_synced (cfg : ProviderUsageConfig) (wm : WindowManager)
    (state : CredentialState) (model G : String) (update : UsageUpdate) (now : ℚ)
    (hnodup : ∀ gstats, dget state.group_usage G = some gstats → (dkeys gstats.windows).Nodup) :
    ∀ ms gs,
      dget (record_usage_core cfg wm state model update (some G) now).model_usage model = some ms →
      dget (record_usage_core cfg wm state model update (some G) now).group_usage G = some gs →
      timing_synced ms.windows gs.windows := by
  intro ms gs hm hg
  have hnod : (dkeys (apply_to_windows wm (((dget state.group_usage G).getD {}).windows) update now
      (update.prompt_tokens + update.completion_tokens + update.thinking_tokens
        + update.prompt_tokens_cache_read + update.prompt_tokens_cache_write)
      (update.completion_tokens + update.thinking_tokens)
      (if state.window_definitions.isEmpty then cfg.windows else state.window_definitions))).Nodup := by
    apply nodup_apply_to_windows
    cases hgs0 : dget state.group_usage G with
    | none => exact List.nodup_nil
    | some gstats => exact hnodup gstats hgs0
  simp only [record_usage_core] at hm hg
  cases hfc : cfg.fair_cycle.isEnabled
  · simp only [hfc, Bool.false_eq_true, if_false, dget_dinsert_self] at hm hg
    injection hm with hm'
    injection hg with hg'
    subst hm'
    subst hg'
    exact sync_timing_synced _ _ hnod
  · simp only [hfc, if_true, dget_dinsert_self] at hm hg
    injection hm with hm'
    injection hg with hg'
    subst hm'
    subst hg'
    exact sync_timing_synced _ _ hnod

theorem headers_update_model_group_usage (wm : WindowManager) (state : CredentialState)
    (hdr : ResponseHeaders) (pd : WindowDefinition) (model : String) (now : ℚ) :
    (headers_update_model wm state hdr pd model now).group_usage = state.group_usage := by
  unfold headers_update_model
  repeat' first | rfl | split

theorem headers_update_group_model_usage (wm : WindowManager) (state : CredentialState)
    (hdr : ResponseHeaders) (pd : WindowDefinition) (g : String) (now : ℚ) :
    (headers_update_group wm state hdr pd g now).model_usage = state.model_usage := by
  unfold headers_update_group
  repeat' first | rfl | split

theorem update_from_headers_synced (wm : WindowManager) (state : CredentialState)
    (hdr : ResponseHeaders) (model G : String) (now : ℚ)
    (hs : ∀ ms gs, dget state.model_usage model = some ms →
      dget state.group_usage G = some gs → timing_synced ms.windows gs.windows) :
    ∀ ms gs,
      dget (update_from_headers wm state hdr model (some G) now).model_usage model = some ms →
      dget (update_from_headers wm state hdr model (some G) now).group_usage G = some gs →
      timing_synced ms.windows gs.windows := by
  intro ms gs hm hg
  unfold update_from_headers at hm hg
  cases hpd : wm.get_primary_definition with
  | none =>
    rw [hpd] at hm hg
    exact hs ms gs hm hg
  | some pd =>
    rw [hpd] at hm hg
    dsimp only at hm hg
    rw [headers_update_model_group_usage] at hg
    cases hgs : dget state.group_usage G with
    | none =>
      have e1 : headers_update_group wm state hdr pd G now = state := by
        unfold headers_update_group
        simp only [hgs]
      rw [e1, hgs] at hg
      exact absurd hg (by simp)
    | some gstats =>
      cases hgw : dget gstats.windows pd.name with
      | none =>
        have e1 : headers_update_group wm state hdr pd G now = state := by
          unfold headers_update_group
          simp only [hgs, hgw]
        rw [e1] at hm hg
        rw [hgs] at hg
        injection hg with hg'
        subst hg'
        unfold headers_update_model at hm
        cases hms : dget state.model_usage model with
        | none =>
          simp only [hms] at hm
          exact absurd hm (by simp)
        | some mstats =>
          cases hmw : dget mstats.windows pd.name with
          | none =>
            simp only [hms, hmw] at hm
            injection hm with hm'
            subst hm'
            exact hs mstats gstats hms hgs
          | some mw =>
            simp only [hms, hmw] at hm
            rw [dget_dinsert_self] at hm
            injection hm with hm'
            subst hm'
            intro name mw1 gw1 h1 h2
            by_cases hname : name = pd.name
            · subst hname
              rw [hgw] at h2
              exact absurd h2 (by simp)
            · rw [show ({ mstats with windows := dinsert mstats.windows pd.name (apply_header_updates mw hdr.x_ratelimit_limit hdr.x_ratelimit_reset now) } : ModelStats).windows = dinsert mstats.windows pd.name (apply_header_updates mw hdr.x_ratelimit_limit hdr.x_ratelimit_reset now) from rfl, dget_dinsert_ne _ _ _ _ hname] at h1
              exact hs mstats gstats hms hgs name mw1 gw1 h1 h2
      | some w =>
        have e1 : headers_update_group wm state hdr pd G now = { state with group_usage := dinsert state.group_usage G ({ gstats with windows := dinsert gstats.windows pd.name (apply_header_updates w hdr.x_ratelimit_limit hdr.x_ratelimit_reset now) }) } := by
          unfold headers_update_group
          simp only [hgs, hgw]
        rw [e1] at hm hg
        dsimp only at hg
        rw [dget_dinsert_self] at hg
        injection hg with hg'
        subst hg'
        unfold headers_update_model at hm
        dsimp only at hm
        cases hms : dget state.model_usage model with
        | none =>
          simp only [hms] at hm
          exact absurd hm (by simp)
        | some mstats =>
          cases hmw : dget mstats.windows pd.name with
          | none =>
            simp only [hms, hmw] at hm
            injection hm with hm'
            subst hm'
            intro name mw1 gw1 h1 h2
            by_cases hname : name = pd.name
            · subst hname
              rw [hmw] at h1
              exact absurd h1 (by simp)
            · rw [show ({ gstats with windows := dinsert gstats.windows pd.name (apply_header_updates w hdr.x_ratelimit_limit hdr.x_ratelimit_reset now) } : GroupStats).windows = dinsert gstats.windows pd.name (apply_header_updates w hdr.x_ratelimit_limit hdr.x_ratelimit_reset now) from rfl, dget_dinsert_ne _ _ _ _ hname] at h2
              exact hs mstats gstats hms hgs name mw1 gw1 h1 h2
          | some mw =>
            simp only [hms, hmw] at hm
            rw [dget_dinsert_self] at hm
            injection hm with hm'
            subst hm'
            intro name mw1 gw1 h1 h2
            by_cases hname : name = pd.name
            · subst hname
              rw [show ({ mstats with windows := dinsert mstats.windows pd.name (apply_header_updates mw hdr.x_ratelimit_limit hdr.x_ratelimit_reset now) } : ModelStats).windows = dinsert mstats.windows pd.name (apply_header_updates mw hdr.x_ratelimit_limit hdr.x_ratelimit_reset now) from rfl, dget_dinsert_self] at h1
              rw [show ({ gstats with windows := dinsert gstats.windows pd.name (apply_header_updates w hdr.x_ratelimit_limit hdr.x_ratelimit_reset now) } : GroupStats).windows = dinsert gstats.windows pd.name (apply_header_updates w hdr.x_ratelimit_limit hdr.x_ratelimit_reset now) from rfl, dget_dinsert_self] at h2
              injection h1 with h1'
              injection h2 with h2'
              subst h1'
              subst h2'
              have hbase := hs mstats gstats hms hgs pd.name mw w hmw hgw
              constructor
              · rw [apply_header_updates_started, apply_header_updates_started]
                exact hbase.1
              · rw [apply_header_updates_reset, apply_header_updates_reset]
                cases hdr.x_ratelimit_reset with
                | none => exact hbase.2
                | some r => rfl
            · rw [show ({ mstats with windows := dinsert mstats.windows pd.name (apply_header_updates mw hdr.x_ratelimit_limit hdr.x_ratelimit_reset now) } : ModelStats).windows = dinsert mstats.windows pd.name (apply_header_updates mw hdr.x_ratelimit_limit hdr.x_ratelimit_reset now) from rfl, dget_dinsert_ne _ _ _ _ hname] at h1
              rw [show ({ gstats with windows := dinsert gstats.windows pd.name (apply_header_updates w hdr.x_ratelimit_limit hdr.x_ratelimit_reset now) } : GroupStats).windows = dinsert gstats.windows pd.name (apply_header_updates w hdr.x_ratelimit_limit hdr.x_ratelimit_reset now) from rfl, dget_dinsert_ne _ _ _ _ hname] at h2
              exact hs mstats gstats hms hgs name mw1 gw1 h1 h2

/-- **C5.** After a `record_usage` call with model M and group G, every window
name present in both the model map and the group map carries identical
`started_at` and `reset_at` values: the group window's timing is authoritative
and is copied onto the model window. -/
theorem C5_group_timing_authority (cfg : ProviderUsageConfig) (wm : WindowManager)
    (state : CredentialState) (model G : String) (update : UsageUpdate)
    (headers : Option ResponseHeaders) (now : ℚ)
    (hnodup : ∀ gstats, dget state.group_usage G = some gstats → (dkeys gstats.windows).Nodup) :
    ∀ ms gs,
      dget (record_usage cfg wm state model update (some G) headers now).model_usage model = some ms →
      dget (record_usage cfg wm state model update (some G) headers now).group_usage G = some gs →
      timing_synced ms.windows gs.windows := by
  intro ms gs hm hg
  unfold record_usage at hm hg
  cases headers with
  | none =>
    exact record_usage_core_synced cfg wm state model G update now hnodup ms gs hm hg
  | some hdr =>
    dsimp only at hm hg
    exact update_from_headers_synced wm _ hdr model G now
      (record_usage_core_synced cfg wm state model G update now hnodup) ms gs hm hg

/-- Witness for C5 at a concrete recording: model `m`, group `G`, a single
rolling group-scoped window; the resulting model and group windows agree on
timing. -/
theorem C5_group_timing_authority_witness :
    timing_synced
      ((dget (record_usage cfgC5 wm5h stC5 "m" {} (some "G") none 5).model_usage "m").getD {}).windows
      ((dget (record_usage cfgC5 wm5h stC5 "m" {} (some "G") none 5).group_usage "G").getD {}).windows := by
  have h := C5_group_timing_authority cfgC5 wm5h stC5 "m" "G" {} none 5
    (by intro g hh; exact Option.noConfusion hh)
    ((dget (record_usage cfgC5 wm5h stC5 "m" {} (some "G") none 5).model_usage "m").getD {})
    ((dget (record_usage cfgC5 wm5h stC5 "m" {} (some "G") none 5).group_usage "G").getD {})
    (by decide) (by decide)
  exact h

-- =========================================================================
-- Frame lemmas for the tracking engine
-- =========================================================================

theorem mark_exhausted_cooldowns (s : CredentialState) (k r : String) (now : ℚ) :
    (mark_exhausted s k r now).cooldowns = s.cooldowns := by
  unfold mark_exhausted
  cases dget s.fair_cycle k with
  | none => rfl
  | some fc =>
    by_cases h : fc.exhausted <;> simp [h]

/-- **C2.** If `apply_cooldown` runs while a cooldown at the resolved key is
still active (`now < until`), the stored cooldown keeps the original
`reason`, `source` and `started_at`; only `until` is replaced by the newly
resolved value, and `backoff_count` increments by exactly 1. -/
theorem C2_cooldown_preservation
    (cfg : ProviderUsageConfig) (state : CredentialState) (reason : String)
    (duration until? : Option ℚ) (mog : Option String) (src : String)
    (now u : ℚ) (ex : CooldownInfo)
    (hkey : dget state.cooldowns (mog.getD "_global_") = some ex)
    (hactive : now < ex.«until»)
    (hresolve : (match until? with
                 | some x => some x
                 | none => duration.map (fun d => now + d)) = some u) :
    dget (apply_cooldown cfg state reason duration until? mog src now).cooldowns
        (mog.getD "_global_") =
      some { reason := ex.reason, «until» := u, started_at := ex.started_at
             source := ex.source, model_or_group := mog
             backoff_count := ex.backoff_count + 1 } := by
  cases until? with
  | some x =>
    obtain rfl : x = u := by simpa using hresolve
    simp only [apply_cooldown, hkey, hactive, if_true]
    split
    · split
      · rw [mark_exhausted_cooldowns]
        exact dget_dinsert_self _ _ _
      · exact dget_dinsert_self _ _ _
    · exact dget_dinsert_self _ _ _
  | none =>
    cases duration with
    | none => simp at hresolve
    | some dur =>
      obtain rfl : now + dur = u := by simpa using hresolve
      simp only [apply_cooldown, hkey, hactive, if_true]
      split
      · split
        · rw [mark_exhausted_cooldowns]
          exact dget_dinsert_self _ _ _
        · exact dget_dinsert_self _ _ _
      · exact dget_dinsert_self _ _ _

/-- Witness for C2 at a concrete input: a second cooldown at key `g` while the
first is still active keeps reason/source/started_at, bumps `backoff_count`. -/
theorem C2_cooldown_preservation_witness :
    dget (apply_cooldown {} state_with_cooldown "new_reason" none (some 500)
        (some "g") "api_quota" 50).cooldowns "g" =
      some { reason := "rate_limit", «until» := 500, started_at := 0
             source := "error", model_or_group := some "g", backoff_count := 1 } := by
  have h := C2_cooldown_preservation {} state_with_cooldown "new_reason" none (some 500)
    (some "g") "api_quota" 50 500 ex_cooldown (by decide) (by decide) rfl
  simpa [ex_cooldown] using h

theorem fair_cycle_decide_cases (cfg : FairCycleConfig) (gs : FCGlobal)
    (state : CredentialState) (group_key : String) (exhausted : Bool) (now : ℚ) :
    (fair_cycle_decide cfg gs state group_key exhausted now).1 = LimitCheckResult.ok
    ∨ (fair_cycle_decide cfg gs state group_key exhausted now).1.allowed = false := by
  unfold fair_cycle_decide
  split
  · exact Or.inl rfl
  · by_cases h : should_reset_cycle cfg (get_global_state gs state.provider group_key now).1 now
    · left
      simp [h]
    · right
      simp [h, LimitCheckResult.blocked]

theorem fair_cycle_check_cases (cfg : FairCycleConfig) (wm : WindowManager)
    (state : CredentialState) (model : String) (quota_group : Option String)
    (gs : FCGlobal) (now : ℚ) :
    (fair_cycle_check cfg wm state model quota_group gs now).1 = LimitCheckResult.ok
    ∨ (fair_cycle_check cfg wm state model quota_group gs now).1.allowed = false := by
  unfold fair_cycle_check
  split
  · exact Or.inl rfl
  · exact fair_cycle_decide_cases _ _ _ _ _ _

theorem fair_cycle_check_ok_of_allowed (cfg : FairCycleConfig) (wm : WindowManager)
    (state : CredentialState) (model : String) (quota_group : Option String)
    (gs : FCGlobal) (now : ℚ)
    (h : (fair_cycle_check cfg wm state model quota_group gs now).1.allowed = true) :
    (fair_cycle_check cfg wm state model quota_group gs now).1 = LimitCheckResult.ok := by
  rcases fair_cycle_check_cases cfg wm state model quota_group gs now with h' | h'
  · exact h'
  · rw [h] at h'
    exact absurd h' (by decide)

/-- **C1.** `check_all` evaluates its checkers in the fixed order concurrent,
cooldowns, window limits (only when `window_limits_enabled`), custom caps,
fair cycle, and returns the verdict of the earliest checker that blocks;
moreover, when one of the earlier (pure) checkers blocks, the later fair-cycle
checker is not consulted: the credential state and the global fair-cycle store
come back unchanged. -/
theorem C1_first_blocker_wins (cfg : ProviderUsageConfig) (wm : WindowManager)
    (state : CredentialState) (model : String) (quota_group : Option String)
    (gs : FCGlobal) (now : ℚ) :
    (check_all cfg wm state model quota_group gs now).1 =
      ((checker_sequence cfg wm state model quota_group gs now).find?
        (fun r => !r.allowed)).getD LimitCheckResult.ok
    ∧ (((checker_sequence cfg wm state model quota_group gs now).dropLast.any
          (fun r => !r.allowed)) = true →
        (check_all cfg wm state model quota_group gs now).2.1 = state
        ∧ (check_all cfg wm state model quota_group gs now).2.2 = gs) := by
  by_cases h1 : (concurrent_check state).allowed
  · by_cases h2 : (cooldown_check state model quota_group now).allowed
    · by_cases hw : cfg.window_limits_enabled
      · by_cases h3 : (window_limit_check wm state model quota_group now).allowed
        · by_cases h4 : (custom_cap_check cfg.custom_caps wm state model quota_group now).allowed
          · by_cases h5 : (fair_cycle_check cfg.fair_cycle wm state model quota_group gs now).1.allowed
            · constructor
              · simp [check_all, checker_sequence, h1, h2, hw, h3, h4, h5,
                  fair_cycle_check_ok_of_allowed _ _ _ _ _ _ _ h5, LimitCheckResult.ok]
              · intro hany
                simp [checker_sequence, hw, h1, h2, h3, h4, List.dropLast] at hany
            · constructor
              · simp [check_all, checker_sequence, h1, h2, hw, h3, h4, h5]
              · intro hany
                simp [checker_sequence, hw, h1, h2, h3, h4, List.dropLast] at hany
          · refine ⟨by simp [check_all, checker_sequence, h1, h2, hw, h3, h4], fun _ => ?_⟩
            simp [check_all, h1, h2, hw, h3, h4]
        · refine ⟨by simp [check_all, checker_sequence, h1, h2, hw, h3], fun _ => ?_⟩
          simp [check_all, h1, h2, hw, h3]
      · by_cases h4 : (custom_cap_check cfg.custom_caps wm state model quota_group now).allowed
        · by_cases h5 : (fair_cycle_check cfg.fair_cycle wm state model quota_group gs now).1.allowed
          · constructor
            · simp [check_all, checker_sequence, h1, h2, hw, h4, h5,
                fair_cycle_check_ok_of_allowed _ _ _ _ _ _ _ h5, LimitCheckResult.ok]
            · intro hany
              simp [checker_sequence, hw, h1, h2, h4, List.dropLast] at hany
          · constructor
            · simp [check_all, checker_sequence, h1, h2, hw, h4, h5]
            · intro hany
              simp [checker_sequence, hw, h1, h2, h4, List.dropLast] at hany
        · refine ⟨by simp [check_all, checker_sequence, h1, h2, hw, h4], fun _ => ?_⟩
          simp [check_all, h1, h2, hw, h4]
    · refine ⟨by simp [check_all, checker_sequence, h1, h2], fun _ => ?_⟩
      simp [check_all, h1, h2]
  · refine ⟨by simp [check_all, checker_sequence, h1], fun _ => ?_⟩
    simp [check_all, h1]

/-- Witness for C1: a credential with an active global cooldown and an
exhausted fair-cycle record is blocked with the cooldown checker's verdict
(cooldowns run earlier), and its state and the global store are untouched. -/
theorem C1_first_blocker_wins_witness :
    (check_all { fair_cycle := { enabled := some true } } wm5h state_with_cooldown
        "g" none [] 50).1.result = LimitResult.BLOCKED_COOLDOWN
    ∧ (check_all { fair_cycle := { enabled := some true } } wm5h state_with_cooldown
        "g" none [] 50).2.2 = ([] : FCGlobal) := by
  have h := C1_first_blocker_wins { fair_cycle := { enabled := some true } } wm5h
    state_with_cooldown "g" none [] 50
  have hframe := (h.2 (by decide)).2
  refine ⟨?_, hframe⟩
  rw [h.1]
  decide

/-- **C6.** When the stored window has expired, `get_or_create_window` returns a
fresh window with all request/success/failure and token counters zero,
`started_at` and `reset_at` unset, `limit` the passed limit or else the
predecessor's, and the predecessor's high-water mark carried forward. -/
theorem C6_window_reset_carry (wm : WindowManager) (windows : Dict String WindowStats)
    (name : String) (limit : Option Int) (now : ℚ) (ow : WindowStats)
    (d : WindowDefinition) (m : Int)
    (hw : dget windows name = some ow)
    (hd : dget wm.definitions name = some d)
    (hexp : wm.should_reset ow d now = true)
    (hmax : ow.max_recorded_requests = some m)
    (hm1 : ow.request_count ≤ m) (hm2 : 0 < m) :
    (wm.get_or_create_window windows name limit now).1.request_count = 0
    ∧ (wm.get_or_create_window windows name limit now).1.success_count = 0
    ∧ (wm.get_or_create_window windows name limit now).1.failure_count = 0
    ∧ (wm.get_or_create_window windows name limit now).1.prompt_tokens = 0
    ∧ (wm.get_or_create_window windows name limit now).1.completion_tokens = 0
    ∧ (wm.get_or_create_window windows name limit now).1.thinking_tokens = 0
    ∧ (wm.get_or_create_window windows name limit now).1.output_tokens = 0
    ∧ (wm.get_or_create_window windows name limit now).1.prompt_tokens_cache_read = 0
    ∧ (wm.get_or_create_window windows name limit now).1.prompt_tokens_cache_write = 0
    ∧ (wm.get_or_create_window windows name limit now).1.total_tokens = 0
    ∧ (wm.get_or_create_window windows name limit now).1.started_at = none
    ∧ (wm.get_or_create_window windows name limit now).1.reset_at = none
    ∧ (wm.get_or_create_window windows name limit now).1.limit = py_or_int limit ow.limit
    ∧ (wm.get_or_create_window windows name limit now).1.max_recorded_requests = some m
    ∧ (wm.get_or_create_window windows name limit now).1.max_recorded_at = ow.max_recorded_at := by
  have hnotlt : ¬ ((ow.max_recorded_requests).getD 0 < ow.request_count) := by
    rw [hmax]; exact not_lt.mpr hm1
  have hpos : 0 < (ow.max_recorded_requests).getD 0 := by rw [hmax]; exact hm2
  simp only [WindowManager.get_or_create_window, WindowManager.get_active_window,
    hw, hd, hexp, if_true, hnotlt, if_false, hpos, hmax]
  simp [not_lt.mpr hm1, hm2]

/-- Witness for C6: the rolling `5h` window (duration 18000) first used at 0 is
re-created at 18001 with zero counts and the previous cycle's count (5) as the
carried high-water mark. -/
theorem C6_window_reset_carry_witness :
    (wm5h.get_or_create_window [("5h", prev5h)] "5h" none 18001).1.request_count = 0
    ∧ (wm5h.get_or_create_window [("5h", prev5h)] "5h" none 18001).1.started_at = none
    ∧ (wm5h.get_or_create_window [("5h", prev5h)] "5h" none 18001).1.reset_at = none
    ∧ (wm5h.get_or_create_window [("5h", prev5h)] "5h" none 18001).1.limit = some 200
    ∧ (wm5h.get_or_create_window [("5h", prev5h)] "5h" none 18001).1.max_recorded_requests = some 5 := by
  have h := C6_window_reset_carry wm5h [("5h", prev5h)] "5h" none 18001 prev5h wdef5h 5
    (by decide) (by decide) (by decide) (by decide) (by decide) (by decide)
  refine ⟨h.1, ?_, ?_, ?_, h.2.2.2.2.2.2.2.2.2.2.2.2.2.1⟩
  · exact h.2.2.2.2.2.2.2.2.2.2.1
  · exact h.2.2.2.2.2.2.2.2.2.2.2.1
  · have := h.2.2.2.2.2.2.2.2.2.2.2.2.1
    simpa [py_or_int, prev5h] using this

/-- **C7 counterexample.** The claim says the ABSOLUTE effective maximum is the
literal `max_requests`; the code clamps it to ≥ 0, so a literal −130 resolves
to 0, not −130. -/
theorem C7_counterexample_absolute_clamped :
    resolve_max_requests cap_abs_neg (some 200) = 0
    ∧ resolve_max_requests cap_abs_neg (some 200) ≠ cap_abs_neg.max_requests := by
  decide

/-- **C7 (amended).** Effective maxima are the claimed values clamped to ≥ 0
(ABSOLUTE: literal; OFFSET: limit + value, |value| when the limit is unknown;
PERCENTAGE: truncated percentage of the limit, fallback 1000), and when the
scope's primary window reaches the effective maximum, the checker blocks with
`BLOCKED_CUSTOM_CAP` and, in QUOTA_RESET mode, `blocked_until = reset_at`. -/
theorem C7_custom_cap_resolution (cap : CustomCapConfig) (L : Int)
    (wm : WindowManager) (state : CredentialState) (model G : String) (now : ℚ)
    (pw : WindowStats) (gstats : GroupStats) (pd : WindowDefinition)
    (hgs : dget state.group_usage G = some gstats)
    (hpw : wm.get_primary_window gstats.windows now = some pw)
    (hpd : wm.get_primary_definition = some pd)
    (hfind : find_all_caps [cap] (toString state.priority) model (some G) =
      [(cap, SCOPE_GROUP, G)])
    (hmode : cap.cooldown_mode = CooldownMode.QUOTA_RESET) :
    (cap.max_requests_mode = CapMode.ABSOLUTE →
      resolve_max_requests cap (some L) = max 0 cap.max_requests)
    ∧ (cap.max_requests_mode = CapMode.OFFSET →
      resolve_max_requests cap (some L) = max 0 (L + cap.max_requests))
    ∧ (cap.max_requests_mode = CapMode.OFFSET →
      resolve_max_requests cap none = max 0 |cap.max_requests|)
    ∧ (cap.max_requests_mode = CapMode.PERCENTAGE →
      resolve_max_requests cap (some L) =
        max 0 (py_int_of_float ((L : ℚ) * (cap.max_requests : ℚ) / 100)))
    ∧ (cap.max_requests_mode = CapMode.PERCENTAGE →
      resolve_max_requests cap none = 1000)
    ∧ (resolve_max_requests cap pw.limit ≤ pw.request_count →
      custom_cap_check [cap] wm state model (some G) now =
        LimitCheckResult.blocked LimitResult.BLOCKED_CUSTOM_CAP
          ("Custom cap for group " ++ G ++ " exceeded") pw.reset_at)
    ∧ (pw.request_count < resolve_max_requests cap pw.limit →
      (custom_cap_check [cap] wm state model (some G) now).allowed = true) := by
  have hsingle : check_single_cap wm state cap SCOPE_GROUP G now =
      (if resolve_max_requests cap pw.limit ≤ pw.request_count then
        LimitCheckResult.blocked LimitResult.BLOCKED_CUSTOM_CAP
          ("Custom cap for group " ++ G ++ " exceeded") (calculate_cooldown_until cap pw now)
      else LimitCheckResult.ok) := by
    simp [check_single_cap, hgs, hpw, SCOPE_GROUP, SCOPE_MODEL]
  have hcheck : custom_cap_check [cap] wm state model (some G) now =
      check_single_cap wm state cap SCOPE_GROUP G now := by
    simp only [custom_cap_check, hpd, hfind, caps_scan, List.isEmpty_cons]
    by_cases hc : resolve_max_requests cap pw.limit ≤ pw.request_count
    · have hfalse : (check_single_cap wm state cap SCOPE_GROUP G now).allowed = false := by
        rw [hsingle, if_pos hc]; rfl
      simp [hfalse]
    · have htrue : (check_single_cap wm state cap SCOPE_GROUP G now).allowed = true := by
        rw [hsingle, if_neg hc]; rfl
      simp only [htrue, if_true, Bool.false_eq_true]
      rw [hsingle, if_neg hc]
      simp [LimitCheckResult.ok]
  refine ⟨?_, ?_, ?_, ?_, ?_, ?_, ?_⟩
  · intro h; simp [resolve_max_requests, h]
  · intro h; simp [resolve_max_requests, h]
  · intro h; simp [resolve_max_requests, h]
  · intro h; simp [resolve_max_requests, h]
  · intro h; simp [resolve_max_requests, h]
  · intro h
    rw [hcheck, hsingle, if_pos h, calculate_cooldown_until, hmode]
  · intro h
    rw [hcheck, hsingle, if_neg (not_le.mpr h)]
    rfl

/-- Witness for C7 (amended) at the spec's S4 numbers: limit 200, OFFSET −50
gives effective 150; at 150 recorded requests the checker blocks with
`BLOCKED_CUSTOM_CAP` and `blocked_until` = the window's `reset_at`. -/
theorem C7_custom_cap_resolution_witness :
    resolve_max_requests cap_offset50 (some 200) = 150
    ∧ custom_cap_check [cap_offset50] wm5h state_cap "m" (some "G") 100 =
        LimitCheckResult.blocked LimitResult.BLOCKED_CUSTOM_CAP
          ("Custom cap for group " ++ "G" ++ " exceeded") (some 18000) := by
  have h := C7_custom_cap_resolution cap_offset50 200 wm5h state_cap "m" "G" 100
    pw150 gstats150 wdef5h
    (by decide) (by decide) (by decide) (by decide) (by decide)
  constructor
  · decide
  · have hb := h.2.2.2.2.2.1 (by decide)
    simpa using hb

/-- **C8.** At tolerance 0 the weights are `(max usage − u) + 0 + 1` as
documented ([6, 1] for usages 0 and 5), but selection is not strictly
least-used: the most-used candidate B keeps weight 1 and the draw 7 selects
it, contradicting the documented "tolerance 0 → least-used always selected". -/
theorem C8_balanced_tolerance_zero_not_strict :
    calculate_weights 0 ["A", "B"] [("A", 0), ("B", 5)] = [6, 1]
    ∧ balanced_select 0 { u := 7, idx := 0 }
        { provider := "prov", model := "m", quota_group := none
          candidates := ["A", "B"], priorities := [("A", 1), ("B", 1)]
          usage_counts := [("A", 0), ("B", 5)]
          rotation_mode := RotationMode.BALANCED, rotation_tolerance := 0
          deadline := 0 } = some "B"
    ∧ ¬ ((5 : Int) ≤ 0) := by
  decide

/-- **C10.** The cooldown namespace and the fair-cycle namespace use distinct
sentinels: the fair-cycle credential sentinel is `_credential_` while the
credential-wide cooldown key is `_global_`; `clear_cooldown` with no scope
erases only the `_global_` cooldown entry and leaves every fair-cycle record
intact, and credential-mode fair-cycle key resolution yields `_credential_`
while fair-cycle marking never touches the cooldown map. -/
theorem C10_distinct_sentinels :
    FAIR_CYCLE_GLOBAL_KEY = "_credential_"
    ∧ FAIR_CYCLE_GLOBAL_KEY ≠ "_global_"
    ∧ (∀ state : CredentialState,
        (clear_cooldown state none).cooldowns = derase state.cooldowns "_global_"
        ∧ (clear_cooldown state none).fair_cycle = state.fair_cycle)
    ∧ (∀ (cfg : ProviderUsageConfig) (group_key : String),
        cfg.fair_cycle.tracking_mode = TrackingMode.CREDENTIAL →
        resolve_fair_cycle_key cfg group_key = FAIR_CYCLE_GLOBAL_KEY)
    ∧ (∀ (state : CredentialState) (k r : String) (now : ℚ),
        (mark_exhausted state k r now).cooldowns = state.cooldowns) := by
  refine ⟨rfl, by decide, fun state => ⟨rfl, rfl⟩, fun cfg gk h => ?_, mark_exhausted_cooldowns⟩
  simp [resolve_fair_cycle_key, h]

/-- Witness for C10: credential-mode resolution at a concrete config and key. -/
theorem C10_distinct_sentinels_witness :
    resolve_fair_cycle_key
      { fair_cycle := { tracking_mode := TrackingMode.CREDENTIAL } } "gemini-pro" =
      "_credential_" := by
  have h := (C10_distinct_sentinels.2.2.2.1)
    { fair_cycle := { tracking_mode := TrackingMode.CREDENTIAL } } "gemini-pro" rfl
  simpa using h

theorem dget_dinsert_self_k {κ α : Type} [DecidableEq κ] (d : Dict κ α) (k : κ) (v : α) :
    dget (dinsert d k v) k = some v := by
  induction d with
  | nil => simp [dinsert, dget]
  | cons e rest ih =>
    obtain ⟨a, b⟩ := e
    by_cases h : a = k
    · simp [dinsert, dget, h]
    · simp [dinsert, dget, h, ih]

theorem dget_dinsert_ne_k {κ α : Type} [DecidableEq κ] (d : Dict κ α) (k k' : κ) (v : α)
    (h : k' ≠ k) : dget (dinsert d k v) k' = dget d k' := by
  induction d with
  | nil => simp [dinsert, dget, Ne.symm h]
  | cons e rest ih =>
    obtain ⟨a, b⟩ := e
    by_cases h2 : a = k
    · subst h2
      simp [dinsert, dget, Ne.symm h]
    · by_cases h3 : a = k'
      · simp [dinsert, dget, h2, h3, h]
      · simp [dinsert, dget, h2, h3, ih]

theorem wrc_walk_mem (r : ℚ) (last : Option String) (cum : ℚ)
    (l : List (String × ℚ)) (c : String)
    (h : wrc_walk r last cum l = some c) : last = some c ∨ ∃ w, (c, w) ∈ l := by
  induction l generalizing cum with
  | nil => exact Or.inl h
  | cons e rest ih =>
    obtain ⟨cand, w⟩ := e
    unfold wrc_walk at h
    dsimp only at h
    by_cases hle : r ≤ cum + w
    · rw [if_pos hle] at h
      injection h with h'
      subst h'
      exact Or.inr ⟨w, List.mem_cons_self _ _⟩
    · rw [if_neg hle] at h
      rcases ih _ h with h1 | ⟨w', h1⟩
      · exact Or.inl h1
      · exact Or.inr ⟨w', List.mem_cons_of_mem _ h1⟩

theorem getLast?_mem (l : List String) (a : String) (h : l.getLast? = some a) : a ∈ l := by
  have hm : a ∈ l.getLast? := by rw [h]; rfl
  rcases List.mem_getLast?_eq_getLast hm with ⟨hh, rfl⟩
  exact List.getLast_mem hh

theorem weighted_random_choice_mem (draw : RandomDraw) (cs : List String)
    (ws : List ℚ) (c : String)
    (h : weighted_random_choice draw cs ws = some c) : c ∈ cs := by
  match cs, h with
  | [x], h =>
    injection h with h'
    subst h'
    exact List.mem_cons_self _ _
  | x :: y :: rest, h =>
    unfold weighted_random_choice at h
    dsimp only at h
    by_cases ht : (ws.foldl (fun a b => a + b) 0 : ℚ) ≤ 0
    · rw [if_pos ht] at h
      exact List.get?_mem h
    · rw [if_neg ht] at h
      rcases wrc_walk_mem _ _ _ _ _ h with h1 | ⟨w', h1⟩
      · exact getLast?_mem _ _ h1
      · exact (List.of_mem_zip h1).1

theorem group_fold_mem (priorities : Dict String Int) (cands : List String)
    (groups0 : Dict Int (List String)) (p : Int) (c : String)
    (h : c ∈ (dget (cands.foldl
      (fun groups sid =>
        let priority := (dget priorities sid).getD 999
        match dget groups priority with
        | some l => dinsert groups priority (l ++ [sid])
        | none => dinsert groups priority [sid]) groups0) p).getD []) :
    c ∈ (dget groups0 p).getD [] ∨ c ∈ cands := by
  induction cands generalizing groups0 with
  | nil => exact Or.inl h
  | cons x rest ih =>
    rcases ih _ h with h1 | h1
    · by_cases hp : (dget priorities x).getD 999 = p
      · cases hg0 : dget groups0 ((dget priorities x).getD 999) with
        | some l =>
          simp only [hg0] at h1
          rw [hp] at h1 hg0
          rw [dget_dinsert_self_k] at h1
          simp only [Option.getD_some] at h1
          rcases List.mem_append.mp h1 with h2 | h2
          · left
            rw [hg0]
            exact h2
          · rcases List.mem_singleton.mp h2 with rfl
            exact Or.inr (List.mem_cons_self _ _)
        | none =>
          simp only [hg0] at h1
          rw [hp] at h1
          rw [dget_dinsert_self_k] at h1
          simp only [Option.getD_some] at h1
          rcases List.mem_singleton.mp h1 with rfl
          exact Or.inr (List.mem_cons_self _ _)
      · cases hg0 : dget groups0 ((dget priorities x).getD 999) with
        | some l =>
          simp only [hg0] at h1
          rw [dget_dinsert_ne_k _ _ _ _ (fun hh => hp hh.symm)] at h1
          exact Or.inl h1
        | none =>
          simp only [hg0] at h1
          rw [dget_dinsert_ne_k _ _ _ _ (fun hh => hp hh.symm)] at h1
          exact Or.inl h1
    · exact Or.inr (List.mem_cons_of_mem _ h1)

theorem balanced_loop_mem (tolerance : ℚ) (draw : RandomDraw)
    (groups : Dict Int (List String)) (usage_counts : Dict String Int)
    (keys : List Int) (c : String)
    (h : balanced_loop tolerance draw groups usage_counts keys = some c) :
    ∃ p, c ∈ (dget groups p).getD [] := by
  induction keys with
  | nil => exact absurd h (by simp [balanced_loop])
  | cons p rest ih =>
    unfold balanced_loop at h
    dsimp only at h
    by_cases he : ((dget groups p).getD []).isEmpty
    · rw [if_pos he] at h
      exact ih h
    · rw [if_neg he] at h
      cases hw : weighted_random_choice draw ((dget groups p).getD [])
          (calculate_weights tolerance ((dget groups p).getD []) usage_counts) with
      | none =>
        rw [hw] at h
        exact ih h
      | some selected =>
        rw [hw] at h
        dsimp only at h
        by_cases hs : selected ≠ ""
        · rw [if_pos hs] at h
          injection h with h'
          subst h'
          exact ⟨p, weighted_random_choice_mem _ _ _ _ hw⟩
        · rw [if_neg hs] at h
          exact ih h

theorem balanced_select_mem (tolerance : ℚ) (draw : RandomDraw)
    (context : SelectionContext) (c : String)
    (h : balanced_select tolerance draw context = some c) : c ∈ context.candidates := by
  unfold balanced_select at h
  cases hc : context.candidates with
  | nil =>
    rw [hc] at h
    exact absurd h (by simp)
  | cons a t =>
    cases t with
    | nil =>
      rw [hc] at h
      dsimp only at h
      injection h with h'
      subst h'
      exact List.mem_cons_self _ _
    | cons b t2 =>
      rw [hc] at h
      dsimp only at h
      cases hloop : balanced_loop tolerance draw
          (group_by_priority (a :: b :: t2) context.priorities) context.usage_counts
          (sort_ints (dkeys (group_by_priority (a :: b :: t2) context.priorities))) with
      | some s =>
        rw [hloop] at h
        injection h with h'
        subst h'
        rcases balanced_loop_mem _ _ _ _ _ _ hloop with ⟨p, hp⟩
        rcases group_fold_mem context.priorities (a :: b :: t2) [] p _ hp with h1 | h1
        · exact absurd h1 (by simp [dget])
        · exact h1
      | none =>
        rw [hloop] at h
        dsimp only at h
        injection h with h'
        subst h'
        exact List.mem_cons_self _ _

theorem argmin_fold_mem (k : String → Int × Int × ℚ) (t : List String) (b : String) :
    (t.foldl (fun best c => if seq_key_lt (k c) (k best) then c else best) b) ∈ b :: t := by
  induction t generalizing b with
  | nil => exact List.mem_cons_self _ _
  | cons x rest ih =>
    have step : (x :: rest).foldl (fun best c => if seq_key_lt (k c) (k best) then c else best) b
        = rest.foldl (fun best c => if seq_key_lt (k c) (k best) then c else best)
            (if seq_key_lt (k x) (k b) then x else b) := rfl
    rw [step]
    have hm := ih (if seq_key_lt (k x) (k b) then x else b)
    rcases List.mem_cons.mp hm with h1 | h1
    · rw [h1]
      by_cases hcx : seq_key_lt (k x) (k b)
      · rw [if_pos hcx]
        exact List.mem_cons_of_mem _ (List.mem_cons_self _ _)
      · rw [if_neg hcx]
        exact List.mem_cons_self _ _
    · exact List.mem_cons_of_mem _ (List.mem_cons_of_mem _ h1)

theorem select_by_priority_mem (candidates : List String) (priorities : Dict String Int)
    (usage_counts : Dict String Int) (states : Dict String CredentialState) (c : String)
    (h : select_by_priority candidates priorities usage_counts states = some c) :
    c ∈ candidates := by
  match candidates, h with
  | [], h => exact absurd h (by simp [select_by_priority])
  | x :: t, h =>
    unfold select_by_priority at h
    dsimp only at h
    injection h with h'
    subst h'
    exact argmin_fold_mem _ t x

theorem sequential_select_mem (current : Dict (String × String) String)
    (context : SelectionContext) (states : Dict String CredentialState) (c : String)
    (h : (sequential_select current context states).1 = some c) : c ∈ context.candidates := by
  unfold sequential_select at h
  cases hc : context.candidates with
  | nil =>
    rw [hc] at h
    exact absurd h (by simp)
  | cons a t =>
    cases t with
    | nil =>
      rw [hc] at h
      dsimp only at h
      injection h with h'
      subst h'
      exact List.mem_cons_self _ _
    | cons b t2 =>
      rw [hc] at h
      dsimp only at h
      cases hcur : dget current (context.provider, context.quota_group.getD context.model) with
      | none =>
        rw [hcur] at h
        dsimp only at h
        exact select_by_priority_mem _ _ _ _ _ h
      | some cur =>
        rw [hcur] at h
        dsimp only at h
        by_cases hcond : cur ≠ "" ∧ (a :: b :: t2).contains cur
        · rw [if_pos hcond] at h
          dsimp only at h
          injection h with h'
          subst h'
          simpa using hcond.2
        · rw [if_neg hcond] at h
          dsimp only at h
          exact select_by_priority_mem _ _ _ _ _ h

theorem select_filter_mem (cfg : ProviderUsageConfig) (wm : WindowManager)
    (model : String) (quota_group : Option String) (now : ℚ)
    (cands : List String) (sd : Dict String CredentialState) (gs : FCGlobal)
    (acc : List String) (x : String)
    (h : x ∈ (select_filter cfg wm model quota_group now cands sd gs acc).1) :
    x ∈ acc ∨ x ∈ cands := by
  induction cands generalizing sd gs acc with
  | nil => exact Or.inl h
  | cons sid rest ih =>
    unfold select_filter at h
    dsimp only at h
    cases hg : dget sd sid with
    | none =>
      rw [hg] at h
      dsimp only at h
      rcases ih _ _ _ h with h1 | h1
      · exact Or.inl h1
      · exact Or.inr (List.mem_cons_of_mem _ h1)
    | some state =>
      rw [hg] at h
      dsimp only at h
      rcases ih _ _ _ h with h1 | h1
      · split at h1
        · rcases List.mem_append.mp h1 with h2 | h2
          · exact Or.inl h2
          · rcases List.mem_singleton.mp h2 with rfl
            exact Or.inr (List.mem_cons_self _ _)
        · exact Or.inl h1
      · exact Or.inr (List.mem_cons_of_mem _ h1)

/-- **C9.** For every call to `SelectionEngine.select` with an exclude list,
the returned stable id (when not `none`) is never a member of the exclude
list, under both the balanced and the sequential strategy. -/
theorem C9_select_respects_exclude (cfg : ProviderUsageConfig) (wm : WindowManager)
    (fuel : Nat) (provider model : String) (st : SelectionState)
    (quota_group : Option String) (exclude : List String)
    (priorities : Option (Dict String Int)) (deadline : ℚ) (draw : RandomDraw)
    (now : ℚ) (sid : String)
    (h : (select cfg wm fuel provider model st quota_group exclude priorities
      deadline draw now).1 = some sid) :
    sid ∉ exclude := by
  induction fuel generalizing st with
  | zero => exact absurd h (by simp [select])
  | succ fuel ih =>
    unfold select at h
    dsimp only at h
    split at h
    · exact absurd h (by simp)
    · split at h
      · split at h
        · split at h
          · exact ih _ h
          · exact absurd h (by simp)
        · exact absurd h (by simp)
      · have hmem : sid ∈ (select_filter cfg wm model quota_group now
            ((dkeys st.states).filter (fun s => ¬ exclude.contains s))
            st.states st.fc_global []).1 := by
          split at h
          · exact sequential_select_mem _ _ _ _ h
          · exact balanced_select_mem _ _ _ _ h
        rcases select_filter_mem _ _ _ _ _ _ _ _ _ _ hmem with h1 | h1
        · exact absurd h1 (by simp)
        · intro hex
          have hmf := (List.mem_filter.mp h1).2
          simp at hmf
          exact hmf hex

/-- Witness for C9: with credential B excluded, selection returns A, which is
not in the exclude list. -/
theorem C9_select_respects_exclude_witness :
    (select {} wm5h 2 "prov" "m"
      { states := [("A", stC5), ("B", { stC5 with stable_id := "B", accessor := "B" })] }
      none ["B"] none 0 {} 0).1 = some "A"
    ∧ "A" ∉ ["B"] := by
  constructor
  · decide
  · exact C9_select_respects_exclude {} wm5h 2 "prov" "m"
      { states := [("A", stC5), ("B", { stC5 with stable_id := "B", accessor := "B" })] }
      none ["B"] none 0 {} 0 "A" (by decide)


theorem dget_mem {κ α : Type} [DecidableEq κ] (d : Dict κ α) (k : κ) (v : α)
    (h : dget d k = some v) : (k, v) ∈ d := by
  induction d with
  | nil => exact absurd h (by simp [dget])
  | cons e rest ih =>
    obtain ⟨a, b⟩ := e
    by_cases ha : a = k
    · subst ha
      simp [dget] at h
      subst h
      exact List.mem_cons_self _ _
    · simp [dget, ha] at h
      exact List.mem_cons_of_mem _ (ih h)

theorem dget_of_mem_nodup {κ α : Type} [DecidableEq κ] (d : Dict κ α)
    (hnd : (dkeys d).Nodup) (k : κ) (v : α) (hm : (k, v) ∈ d) : dget d k = some v := by
  induction d with
  | nil => exact absurd hm (by simp)
  | cons e rest ih =>
    obtain ⟨a, b⟩ := e
    simp only [dkeys, List.map_cons, List.nodup_cons] at hnd
    rcases List.mem_cons.mp hm with h1 | h1
    · injection h1 with h1a h1b
      subst h1a
      subst h1b
      simp [dget]
    · by_cases ha : a = k
      · subst ha
        exact absurd (List.mem_map_of_mem Prod.fst h1) (by simpa [dkeys] using hnd.1)
      · simp only [dget, if_neg ha]
        exact ih hnd.2 h1

theorem mem_dkeys_dget {κ α : Type} [DecidableEq κ] (d : Dict κ α) (k : κ)
    (h : k ∈ dkeys d) : ∃ v, dget d k = some v := by
  induction d with
  | nil => exact absurd h (by simp [dkeys])
  | cons e rest ih =>
    obtain ⟨a, b⟩ := e
    by_cases ha : a = k
    · exact ⟨b, by simp [dget, ha]⟩
    · simp only [dkeys, List.map_cons, List.mem_cons] at h
      rcases h with h1 | h1
      · exact absurd h1.symm ha
      · simpa [dget, ha] using ih h1

/-- The cooldown-candidate accumulator step inside
`SelectionEngine._get_shortest_cooldown` (the body of its two `if` blocks). -/
def sc_consider (sid : String) (now : ℚ) (acc : Option String × Option ℚ)
    (cd : CooldownInfo) : Option String × Option ℚ :=
  if now < cd.«until» then
    let remaining := cd.«until» - now
    match acc.2 with
    | none => (some sid, some remaining)
    | some s => if remaining < s then (some sid, some remaining) else acc
  else acc

theorem shortest_cooldown_step_eq (group_key : String) (now : ℚ)
    (acc : Option String × Option ℚ) (state : CredentialState) :
    shortest_cooldown_step group_key now acc state =
      (match dget state.cooldowns "_global_" with
       | some gc => sc_consider state.stable_id now
           (match dget state.cooldowns group_key with
            | some cd => sc_consider state.stable_id now acc cd
            | none => acc) gc
       | none =>
         match dget state.cooldowns group_key with
         | some cd => sc_consider state.stable_id now acc cd
         | none => acc) := rfl

theorem sc_consider_min (sid : String) (now : ℚ) (acc : Option String × Option ℚ)
    (cd : CooldownInfo) (m : ℚ) (h : acc.2 = some m) :
    ∃ m', (sc_consider sid now acc cd).2 = some m' ∧ m' ≤ m := by
  unfold sc_consider
  by_cases hact : now < cd.«until»
  · rw [if_pos hact]
    dsimp only
    rw [h]
    dsimp only
    by_cases hlt : cd.«until» - now < m
    · exact ⟨cd.«until» - now, by rw [if_pos hlt], le_of_lt hlt⟩
    · exact ⟨m, by rw [if_neg hlt]; exact h, le_refl m⟩
  · rw [if_neg hact]
    exact ⟨m, h, le_refl m⟩

theorem sc_consider_witness (sid : String) (now : ℚ) (acc : Option String × Option ℚ)
    (cd : CooldownInfo) (hact : now < cd.«until») :
    ∃ m', (sc_consider sid now acc cd).2 = some m' ∧ m' ≤ cd.«until» - now := by
  unfold sc_consider
  rw [if_pos hact]
  dsimp only
  cases h2 : acc.2 with
  | none => exact ⟨cd.«until» - now, rfl, le_refl _⟩
  | some s =>
    dsimp only
    by_cases hlt : cd.«until» - now < s
    · exact ⟨cd.«until» - now, by rw [if_pos hlt], le_refl _⟩
    · exact ⟨s, by rw [if_neg hlt]; exact h2, le_of_not_lt hlt⟩

theorem sc_step_min (group_key : String) (now : ℚ) (acc : Option String × Option ℚ)
    (state : CredentialState) (m : ℚ) (h : acc.2 = some m) :
    ∃ m', (shortest_cooldown_step group_key now acc state).2 = some m' ∧ m' ≤ m := by
  rw [shortest_cooldown_step_eq]
  cases hgk : dget state.cooldowns group_key with
  | none =>
    cases hgl : dget state.cooldowns "_global_" with
    | none => exact ⟨m, h, le_refl m⟩
    | some gc => exact sc_consider_min _ _ _ _ _ h
  | some cd =>
    rcases sc_consider_min state.stable_id now acc cd m h with ⟨m1, h1, hle1⟩
    cases hgl : dget state.cooldowns "_global_" with
    | none => exact ⟨m1, h1, hle1⟩
    | some gc =>
      rcases sc_consider_min state.stable_id now _ gc m1 h1 with ⟨m2, h2, hle2⟩
      exact ⟨m2, h2, le_trans hle2 hle1⟩

theorem sc_step_witness (group_key : String) (now : ℚ) (acc : Option String × Option ℚ)
    (state : CredentialState) (k : String) (cd : CooldownInfo)
    (hk : k = group_key ∨ k = "_global_")
    (hcd : dget state.cooldowns k = some cd) (hact : now < cd.«until») :
    ∃ m', (shortest_cooldown_step group_key now acc state).2 = some m'
      ∧ m' ≤ cd.«until» - now := by
  rw [shortest_cooldown_step_eq]
  rcases hk with rfl | rfl
  · rw [hcd]
    rcases sc_consider_witness state.stable_id now acc cd hact with ⟨m1, h1, hle1⟩
    cases hgl : dget state.cooldowns "_global_" with
    | none => exact ⟨m1, h1, hle1⟩
    | some gc =>
      rcases sc_consider_min state.stable_id now _ gc m1 h1 with ⟨m2, h2, hle2⟩
      exact ⟨m2, h2, le_trans hle2 hle1⟩
  · rw [hcd]
    exact sc_consider_witness state.stable_id now _ cd hact

theorem sc_fold_min (group_key : String) (now : ℚ) (l : List CredentialState)
    (acc : Option String × Option ℚ) (m : ℚ) (h : acc.2 = some m) :
    ∃ m', (l.foldl (shortest_cooldown_step group_key now) acc).2 = some m' ∧ m' ≤ m := by
  induction l generalizing acc m with
  | nil => exact ⟨m, h, le_refl m⟩
  | cons s rest ih =>
    rcases sc_step_min group_key now acc s m h with ⟨m1, h1, hle1⟩
    rcases ih _ _ h1 with ⟨m2, h2, hle2⟩
    exact ⟨m2, h2, le_trans hle2 hle1⟩

theorem sc_fold_witness (group_key : String) (now : ℚ) (l : List CredentialState)
    (acc : Option String × Option ℚ) (w : CredentialState) (hw : w ∈ l)
    (k : String) (cd : CooldownInfo) (hk : k = group_key ∨ k = "_global_")
    (hcd : dget w.cooldowns k = some cd) (hact : now < cd.«until») :
    ∃ m', (l.foldl (shortest_cooldown_step group_key now) acc).2 = some m'
      ∧ m' ≤ cd.«until» - now := by
  induction l generalizing acc with
  | nil => exact absurd hw (by simp)
  | cons s rest ih =>
    rcases List.mem_cons.mp hw with rfl | h1
    · rcases sc_step_witness group_key now acc w k cd hk hcd hact with ⟨m1, h1, hle1⟩
      rcases sc_fold_min group_key now rest _ m1 h1 with ⟨m2, h2, hle2⟩
      exact ⟨m2, h2, le_trans hle2 hle1⟩
    · exact ih _ h1

theorem get_shortest_cooldown_short (cfg : FairCycleConfig)
    (states : List CredentialState) (group_key : String) (now : ℚ)
    (w : CredentialState) (hw : w ∈ states) (k : String) (cd : CooldownInfo)
    (hk : k = group_key ∨ k = "_global_")
    (hcd : dget w.cooldowns k = some cd) (hact : now < cd.«until»)
    (hshort : cd.«until» - now < (cfg.reset_cooldown_threshold : ℚ)) :
    (get_shortest_cooldown cfg states group_key now).1 = true := by
  unfold get_shortest_cooldown
  dsimp only
  rcases sc_fold_witness group_key now states (none, none) w hw k cd hk hcd hact
    with ⟨m', hm', hle⟩
  rw [hm']
  dsimp only
  rw [if_pos (lt_of_le_of_lt hle hshort)]


theorem sc_consider_lb (t : ℚ) (sid : String) (now : ℚ)
    (acc : Option String × Option ℚ) (cd : CooldownInfo)
    (hcd : now < cd.«until» → t ≤ cd.«until» - now)
    (hacc : acc.2 = none ∨ ∃ m, acc.2 = some m ∧ t ≤ m) :
    (sc_consider sid now acc cd).2 = none
      ∨ ∃ m, (sc_consider sid now acc cd).2 = some m ∧ t ≤ m := by
  unfold sc_consider
  by_cases hact : now < cd.«until»
  · rw [if_pos hact]
    dsimp only
    rcases hacc with h2 | ⟨m, h2, hm⟩
    · rw [h2]
      exact Or.inr ⟨cd.«until» - now, rfl, hcd hact⟩
    · rw [h2]
      dsimp only
      by_cases hlt : cd.«until» - now < m
      · rw [if_pos hlt]
        exact Or.inr ⟨cd.«until» - now, rfl, hcd hact⟩
      · rw [if_neg hlt]
        exact Or.inr ⟨m, h2, hm⟩
  · rw [if_neg hact]
    exact hacc

theorem sc_step_lb (t : ℚ) (group_key : String) (now : ℚ)
    (acc : Option String × Option ℚ) (state : CredentialState)
    (h1 : ∀ cd, dget state.cooldowns group_key = some cd →
      now < cd.«until» → t ≤ cd.«until» - now)
    (h2 : ∀ cd, dget state.cooldowns "_global_" = some cd →
      now < cd.«until» → t ≤ cd.«until» - now)
    (hacc : acc.2 = none ∨ ∃ m, acc.2 = some m ∧ t ≤ m) :
    (shortest_cooldown_step group_key now acc state).2 = none
      ∨ ∃ m, (shortest_cooldown_step group_key now acc state).2 = some m ∧ t ≤ m := by
  rw [shortest_cooldown_step_eq]
  cases hgk : dget state.cooldowns group_key with
  | none =>
    cases hgl : dget state.cooldowns "_global_" with
    | none => exact hacc
    | some gc => exact sc_consider_lb t _ now acc gc (h2 gc hgl) hacc
  | some cd =>
    have hmid := sc_consider_lb t state.stable_id now acc cd (h1 cd hgk) hacc
    cases hgl : dget state.cooldowns "_global_" with
    | none => exact hmid
    | some gc => exact sc_consider_lb t _ now _ gc (h2 gc hgl) hmid

theorem sc_fold_lb (t : ℚ) (group_key : String) (now : ℚ) (l : List CredentialState)
    (acc : Option String × Option ℚ)
    (hall : ∀ s ∈ l, ∀ k, (k = group_key ∨ k = "_global_") → ∀ cd,
      dget s.cooldowns k = some cd → now < cd.«until» → t ≤ cd.«until» - now)
    (hacc : acc.2 = none ∨ ∃ m, acc.2 = some m ∧ t ≤ m) :
    (l.foldl (shortest_cooldown_step group_key now) acc).2 = none
      ∨ ∃ m, (l.foldl (shortest_cooldown_step group_key now) acc).2 = some m ∧ t ≤ m := by
  induction l generalizing acc with
  | nil => exact hacc
  | cons s rest ih =>
    have hstep := sc_step_lb t group_key now acc s
      (fun cd => hall s (List.mem_cons_self _ _) group_key (Or.inl rfl) cd)
      (fun cd => hall s (List.mem_cons_self _ _) "_global_" (Or.inr rfl) cd)
      hacc
    exact ih _ (fun s' hs' => hall s' (List.mem_cons_of_mem _ hs')) hstep

theorem get_shortest_cooldown_long (cfg : FairCycleConfig)
    (states : List CredentialState) (group_key : String) (now : ℚ)
    (hall : ∀ s ∈ states, ∀ k, (k = group_key ∨ k = "_global_") → ∀ cd,
      dget s.cooldowns k = some cd → now < cd.«until» →
        (cfg.reset_cooldown_threshold : ℚ) ≤ cd.«until» - now) :
    (get_shortest_cooldown cfg states group_key now).1 = false := by
  unfold get_shortest_cooldown
  dsimp only
  rcases sc_fold_lb (cfg.reset_cooldown_threshold : ℚ) group_key now states (none, none)
    hall (Or.inl rfl) with h | ⟨m, hm, hle⟩
  · rw [h]
  · rw [hm]
    dsimp only
    rw [if_neg (not_lt.mpr hle)]

theorem fair_cycle_check_blocked (cfg : FairCycleConfig) (wm : WindowManager)
    (state : CredentialState) (model : String) (quota_group : Option String)
    (gs : FCGlobal) (now : ℚ) (fc : FairCycleState) (g0 : GlobalFairCycleState)
    (hen : cfg.isEnabled = true)
    (hfc : dget state.fair_cycle (resolve_tracking_key cfg model quota_group) = some fc)
    (hex : fc.exhausted = true)
    (hrec : dget ((dget gs state.provider).getD [])
      (resolve_tracking_key cfg model quota_group) = some g0)
    (hact : now < g0.cycle_start + (cfg.duration : ℚ)) :
    fair_cycle_check cfg wm state model quota_group gs now =
      (LimitCheckResult.blocked LimitResult.BLOCKED_FAIR_CYCLE
        ("Fair cycle: exhausted for " ++ resolve_tracking_key cfg model quota_group) none,
       state, gs) := by
  unfold fair_cycle_check
  rw [if_neg (by simp [hen])]
  dsimp only
  have hpr : fair_cycle_promote cfg wm state model quota_group
      (resolve_tracking_key cfg model quota_group) now = state := by
    unfold fair_cycle_promote
    rw [hfc]
    simp [hex]
  rw [hpr, hfc]
  dsimp only
  unfold fair_cycle_decide
  rw [if_neg (by simp [hex])]
  simp only [get_global_state, hrec]
  rw [if_neg (by simp [should_reset_cycle, not_le.mpr hact])]

theorem check_all_blocked_of_exhausted (cfg : ProviderUsageConfig) (wm : WindowManager)
    (state : CredentialState) (model : String) (quota_group : Option String)
    (gs : FCGlobal) (now : ℚ) (fc : FairCycleState) (g0 : GlobalFairCycleState)
    (hen : cfg.fair_cycle.isEnabled = true)
    (hfc : dget state.fair_cycle
      (resolve_tracking_key cfg.fair_cycle model quota_group) = some fc)
    (hex : fc.exhausted = true)
    (hrec : dget ((dget gs state.provider).getD [])
      (resolve_tracking_key cfg.fair_cycle model quota_group) = some g0)
    (hact : now < g0.cycle_start + (cfg.fair_cycle.duration : ℚ)) :
    ∃ r, check_all cfg wm state model quota_group gs now = (r, state, gs)
      ∧ r.allowed = false := by
  have htail : ∃ r,
      (if ¬ (custom_cap_check cfg.custom_caps wm state model quota_group now).allowed = true
        then (custom_cap_check cfg.custom_caps wm state model quota_group now, state, gs)
        else fair_cycle_check cfg.fair_cycle wm state model quota_group gs now)
        = (r, state, gs) ∧ r.allowed = false := by
    by_cases h4 : (custom_cap_check cfg.custom_caps wm state model quota_group now).allowed = true
    · rw [if_neg (by simp [h4])]
      rw [fair_cycle_check_blocked cfg.fair_cycle wm state model quota_group gs now fc g0
        hen hfc hex hrec hact]
      exact ⟨_, rfl, rfl⟩
    · rw [if_pos (by simpa using h4)]
      exact ⟨_, rfl, by simpa using h4⟩
  unfold check_all
  try dsimp only
  by_cases h1 : (concurrent_check state).allowed = true
  · rw [if_neg (by simp [h1])]
    by_cases h2 : (cooldown_check state model quota_group now).allowed = true
    · rw [if_neg (by simp [h2])]
      by_cases hwle : cfg.window_limits_enabled = true
      · rw [if_pos hwle]
        by_cases h3 : (window_limit_check wm state model quota_group now).allowed = true
        · rw [if_neg (by simp [h3])]
          try dsimp only
          exact htail
        · rw [if_pos (by simpa using h3)]
          exact ⟨_, rfl, by simpa using h3⟩
      · rw [if_neg hwle]
        try dsimp only
        exact htail
    · rw [if_pos (by simpa using h2)]
      exact ⟨_, rfl, by simpa using h2⟩
  · rw [if_pos (by simpa using h1)]
    exact ⟨_, rfl, by simpa using h1⟩

theorem check_all_fcb (cfg : ProviderUsageConfig) (wm : WindowManager)
    (state : CredentialState) (model : String) (quota_group : Option String)
    (gs : FCGlobal) (now : ℚ) (fc : FairCycleState) (g0 : GlobalFairCycleState)
    (hen : cfg.fair_cycle.isEnabled = true)
    (hfc : dget state.fair_cycle
      (resolve_tracking_key cfg.fair_cycle model quota_group) = some fc)
    (hex : fc.exhausted = true)
    (hrec : dget ((dget gs state.provider).getD [])
      (resolve_tracking_key cfg.fair_cycle model quota_group) = some g0)
    (hact : now < g0.cycle_start + (cfg.fair_cycle.duration : ℚ))
    (hcc : (concurrent_check state).allowed = true)
    (hcd : (cooldown_check state model quota_group now).allowed = true)
    (hwlc : cfg.window_limits_enabled = true →
      (window_limit_check wm state model quota_group now).allowed = true)
    (hcap : (custom_cap_check cfg.custom_caps wm state model quota_group now).allowed = true) :
    check_all cfg wm state model quota_group gs now =
      (LimitCheckResult.blocked LimitResult.BLOCKED_FAIR_CYCLE
        ("Fair cycle: exhausted for " ++
          resolve_tracking_key cfg.fair_cycle model quota_group) none,
       state, gs) := by
  unfold check_all
  try dsimp only
  rw [if_neg (by simp [hcc]), if_neg (by simp [hcd])]
  by_cases hwle : cfg.window_limits_enabled = true
  · rw [if_pos hwle, if_neg (by simp [hwlc hwle])]
    try dsimp only
    rw [if_neg (by simp [hcap])]
    exact fair_cycle_check_blocked cfg.fair_cycle wm state model quota_group gs now fc g0
      hen hfc hex hrec hact
  · rw [if_neg hwle]
    try dsimp only
    rw [if_neg (by simp [hcap])]
    exact fair_cycle_check_blocked cfg.fair_cycle wm state model quota_group gs now fc g0
      hen hfc hex hrec hact


theorem select_filter_all_blocked (cfg : ProviderUsageConfig) (wm : WindowManager)
    (model : String) (quota_group : Option String) (now : ℚ)
    (cands : List String) (sd : Dict String CredentialState) (gs : FCGlobal)
    (acc : List String)
    (hall : ∀ sid ∈ cands, ∀ state, dget sd sid = some state →
      ∃ r, check_all cfg wm state model quota_group gs now = (r, state, gs)
        ∧ r.allowed = false) :
    select_filter cfg wm model quota_group now cands sd gs acc = (acc, sd, gs) := by
  induction cands generalizing acc with
  | nil => rfl
  | cons sid rest ih =>
    unfold select_filter
    cases hg : dget sd sid with
    | none =>
      exact ih acc (fun s hs state hget => hall s (List.mem_cons_of_mem _ hs) state hget)
    | some state =>
      obtain ⟨r, hr, hra⟩ := hall sid (List.mem_cons_self _ _) state hg
      dsimp only
      rw [hr]
      dsimp only
      rw [dinsert_self sd sid state hg, if_neg (by simp [hra])]
      exact ih acc (fun s hs state' hget => hall s (List.mem_cons_of_mem _ hs) state' hget)

theorem tfcr_scan_all_blocked (cfg : ProviderUsageConfig) (wm : WindowManager)
    (model : String) (quota_group : Option String) (now : ℚ)
    (cands : List String) (sd : Dict String CredentialState) (gs : FCGlobal)
    (c0 : Int)
    (hall : ∀ sid ∈ cands, ∀ state, dget sd sid = some state →
      ∃ r, check_all cfg wm state model quota_group gs now = (r, state, gs)
        ∧ r.allowed = false) :
    ∃ n, tfcr_scan cfg wm model quota_group now cands sd gs c0 = (some n, sd, gs)
      ∧ c0 ≤ n := by
  induction cands generalizing c0 with
  | nil => exact ⟨c0, rfl, le_refl c0⟩
  | cons sid rest ih =>
    unfold tfcr_scan
    cases hg : dget sd sid with
    | none =>
      exact ih c0 (fun s hs state hget => hall s (List.mem_cons_of_mem _ hs) state hget)
    | some state =>
      obtain ⟨r, hr, hra⟩ := hall sid (List.mem_cons_self _ _) state hg
      dsimp only
      rw [hr]
      dsimp only
      rw [dinsert_self sd sid state hg, if_neg (by simp [hra])]
      rcases ih (if r.result = LimitResult.BLOCKED_FAIR_CYCLE then c0 + 1 else c0)
        (fun s hs state' hget => hall s (List.mem_cons_of_mem _ hs) state' hget)
        with ⟨n, hn, hle⟩
      refine ⟨n, hn, le_trans ?_ hle⟩
      split
      · omega
      · exact le_refl c0

theorem tfcr_scan_fc_pos (cfg : ProviderUsageConfig) (wm : WindowManager)
    (model : String) (quota_group : Option String) (now : ℚ)
    (cands : List String) (sd : Dict String CredentialState) (gs : FCGlobal)
    (c0 : Int) (sidw : String) (statew : CredentialState)
    (hall : ∀ sid ∈ cands, ∀ state, dget sd sid = some state →
      ∃ r, check_all cfg wm state model quota_group gs now = (r, state, gs)
        ∧ r.allowed = false)
    (hw : sidw ∈ cands) (hgw : dget sd sidw = some statew)
    (hfcw : (check_all cfg wm statew model quota_group gs now).1.result
      = LimitResult.BLOCKED_FAIR_CYCLE) :
    ∃ n, tfcr_scan cfg wm model quota_group now cands sd gs c0 = (some n, sd, gs)
      ∧ c0 + 1 ≤ n := by
  induction cands generalizing c0 with
  | nil => exact absurd hw (by simp)
  | cons sid rest ih =>
    unfold tfcr_scan
    cases hg : dget sd sid with
    | none =>
      rcases List.mem_cons.mp hw with rfl | hw'
      · rw [hg] at hgw
        exact absurd hgw (by simp)
      · exact ih c0 (fun s hs state hget => hall s (List.mem_cons_of_mem _ hs) state hget) hw'
    | some state =>
      obtain ⟨r, hr, hra⟩ := hall sid (List.mem_cons_self _ _) state hg
      dsimp only
      rw [hr]
      dsimp only
      rw [dinsert_self sd sid state hg, if_neg (by simp [hra])]
      by_cases hsw : sidw = sid
      · subst hsw
        rw [hg] at hgw
        injection hgw with hgw'
        subst hgw'
        have hres : r.result = LimitResult.BLOCKED_FAIR_CYCLE := by
          rw [hr] at hfcw
          exact hfcw
        rw [if_pos hres]
        rcases tfcr_scan_all_blocked cfg wm model quota_group now rest sd gs (c0 + 1)
          (fun s hs state' hget => hall s (List.mem_cons_of_mem _ hs) state' hget)
          with ⟨n, hn, hle⟩
        exact ⟨n, hn, hle⟩
      · have hw' : sidw ∈ rest := by
          rcases List.mem_cons.mp hw with h | h
          · exact absurd h hsw
          · exact h
        rcases ih (if r.result = LimitResult.BLOCKED_FAIR_CYCLE then c0 + 1 else c0)
          (fun s hs state' hget => hall s (List.mem_cons_of_mem _ hs) state' hget) hw'
          with ⟨n, hn, hle⟩
        refine ⟨n, hn, le_trans ?_ hle⟩
        split
        · omega
        · exact le_refl _

theorem tier_fold_acc (p : Int) (ss : List CredentialState) (acc : List String)
    (hp : ∀ s ∈ ss, s.priority = p) :
    ss.foldl (fun groups s =>
      match dget groups s.priority with
      | some l => dinsert groups s.priority (l ++ [s.stable_id])
      | none => dinsert groups s.priority [s.stable_id]) [(p, acc)]
    = [(p, acc ++ ss.map (fun s => s.stable_id))] := by
  induction ss generalizing acc with
  | nil => simp
  | cons s rest ih =>
    have hps := hp s (List.mem_cons_self _ _)
    rw [List.foldl_cons]
    have hget : dget [(p, acc)] s.priority = some acc := by rw [hps]; simp [dget]
    simp only [hget]
    have hins : dinsert [(p, acc)] s.priority (acc ++ [s.stable_id])
        = [(p, acc ++ [s.stable_id])] := by rw [hps]; simp [dinsert]
    rw [hins, ih (acc ++ [s.stable_id]) (fun s' hs' => hp s' (List.mem_cons_of_mem _ hs'))]
    simp

theorem tier_fold_single (p : Int) (ss : List CredentialState)
    (hp : ∀ s ∈ ss, s.priority = p) (hne : ss ≠ []) :
    ss.foldl (fun groups s =>
      match dget groups s.priority with
      | some l => dinsert groups s.priority (l ++ [s.stable_id])
      | none => dinsert groups s.priority [s.stable_id]) []
    = [(p, ss.map (fun s => s.stable_id))] := by
  cases ss with
  | nil => exact absurd rfl hne
  | cons s rest =>
    have hps := hp s (List.mem_cons_self _ _)
    rw [List.foldl_cons]
    have hget : dget ([] : Dict Int (List String)) s.priority = none := rfl
    simp only [hget]
    have hins : dinsert ([] : Dict Int (List String)) s.priority [s.stable_id]
        = [(p, [s.stable_id])] := by rw [hps]; simp [dinsert]
    rw [hins, tier_fold_acc p rest [s.stable_id]
      (fun s' hs' => hp s' (List.mem_cons_of_mem _ hs'))]
    simp

theorem filterMap_dget_ids (sd : Dict String CredentialState) (cands : List String)
    (hex : ∀ sid ∈ cands, ∃ v, dget sd sid = some v)
    (hsid : ∀ sid v, dget sd sid = some v → v.stable_id = sid) :
    (cands.filterMap (dget sd)).map (fun s => s.stable_id) = cands := by
  induction cands with
  | nil => rfl
  | cons sid rest ih =>
    obtain ⟨v, hv⟩ := hex sid (List.mem_cons_self _ _)
    rw [List.filterMap_cons, hv]
    simp only [List.map_cons, hsid sid v hv]
    rw [ih (fun s hs => hex s (List.mem_cons_of_mem _ hs))]


theorem try_fair_cycle_reset_short (cfg : ProviderUsageConfig) (wm : WindowManager)
    (provider model : String) (quota_group : Option String)
    (sd : Dict String CredentialState) (gs : FCGlobal)
    (cands : List String) (priorities : Option (Dict String Int)) (now : ℚ)
    (p : Int) (g0 : GlobalFairCycleState)
    (hen : cfg.fair_cycle.isEnabled = true)
    (hct : cfg.fair_cycle.cross_tier = false)
    (hsid : ∀ sid v, dget sd sid = some v → v.stable_id = sid)
    (hprov : ∀ sid v, dget sd sid = some v → v.provider = provider)
    (hprio : ∀ sid v, dget sd sid = some v → v.priority = p)
    (hexh : ∀ sid v, dget sd sid = some v → ∃ fc,
      dget v.fair_cycle (resolve_tracking_key cfg.fair_cycle model quota_group) = some fc
      ∧ fc.exhausted = true)
    (hmem : ∀ sid ∈ cands, ∃ v, dget sd sid = some v)
    (hrec : dget ((dget gs provider).getD [])
      (resolve_tracking_key cfg.fair_cycle model quota_group) = some g0)
    (hact : now < g0.cycle_start + (cfg.fair_cycle.duration : ℚ))
    (hwit : ∃ sidw ∈ cands, ∃ statew, dget sd sidw = some statew
      ∧ (concurrent_check statew).allowed = true
      ∧ (cooldown_check statew model quota_group now).allowed = true
      ∧ (cfg.window_limits_enabled = true →
          (window_limit_check wm statew model quota_group now).allowed = true)
      ∧ (custom_cap_check cfg.custom_caps wm statew model quota_group now).allowed = true)
    (hshort : ∃ sids ∈ cands, ∃ states0, dget sd sids = some states0
      ∧ ∃ k cd, (k = quota_group.getD model ∨ k = "_global_")
        ∧ dget states0.cooldowns k = some cd ∧ now < cd.«until»
        ∧ cd.«until» - now < (cfg.fair_cycle.reset_cooldown_threshold : ℚ)) :
    try_fair_cycle_reset cfg wm provider model quota_group sd gs cands priorities now
      = (false, sd, gs) := by
  have hall : ∀ sid ∈ cands, ∀ state, dget sd sid = some state →
      ∃ r, check_all cfg wm state model quota_group gs now = (r, state, gs)
        ∧ r.allowed = false := by
    intro sid hs state hget
    obtain ⟨fc, hfc, hex⟩ := hexh sid state hget
    exact check_all_blocked_of_exhausted cfg wm state model quota_group gs now fc g0
      hen hfc hex (by rw [hprov sid state hget]; exact hrec) hact
  obtain ⟨sidw, hwmem, statew, hgw, hcc, hcd, hwlc, hcap⟩ := hwit
  obtain ⟨fcw, hfcw, hexw⟩ := hexh sidw statew hgw
  have hfcb := check_all_fcb cfg wm statew model quota_group gs now fcw g0
    hen hfcw hexw (by rw [hprov sidw statew hgw]; exact hrec) hact hcc hcd hwlc hcap
  rcases tfcr_scan_fc_pos cfg wm model quota_group now cands sd gs 0 sidw statew hall
    hwmem hgw (by rw [hfcb]; rfl) with ⟨n, hscan, hn⟩
  unfold try_fair_cycle_reset
  rw [hscan]
  dsimp only
  rw [if_neg (by omega : ¬ n = 0), if_neg (by simp [hct])]
  have hcs_prio : ∀ s ∈ cands.filterMap (dget sd), CredentialState.priority s = p := by
    intro s hs
    rcases List.mem_filterMap.mp hs with ⟨sid, hsid', hget⟩
    exact hprio sid s hget
  have hcs_ne : cands.filterMap (dget sd) ≠ [] := by
    intro hnil
    have hmw : statew ∈ cands.filterMap (dget sd) :=
      List.mem_filterMap.mpr ⟨sidw, hwmem, hgw⟩
    rw [hnil] at hmw
    exact absurd hmw (by simp)
  rw [tier_fold_single p _ hcs_prio hcs_ne,
    filterMap_dget_ids sd cands hmem hsid, List.foldl_cons]
  have hexh_all : ((cands.filterMap (dget sd)).all
      (fun s => s.is_fair_cycle_exhausted
        (resolve_tracking_key cfg.fair_cycle model quota_group))) = true := by
    rw [List.all_eq_true]
    intro s hs
    rcases List.mem_filterMap.mp hs with ⟨sid, hsid', hget⟩
    obtain ⟨fc, hfc, hex⟩ := hexh sid s hget
    simp [CredentialState.is_fair_cycle_exhausted, hfc, hex]
  obtain ⟨sids, hsmem, states0, hgs0, k, cd, hk, hcdk, hcact, hcshort⟩ := hshort
  have hscshort : (get_shortest_cooldown cfg.fair_cycle (cands.filterMap (dget sd))
      (quota_group.getD model) now).1 = true :=
    get_shortest_cooldown_short cfg.fair_cycle _ _ now states0
      (List.mem_filterMap.mpr ⟨sids, hsmem, hgs0⟩) k cd hk hcdk hcact hcshort
  dsimp only
  rw [if_pos hexh_all, if_pos hscshort]
  rfl


/-- **C4 (amended).** If every candidate credential sits in one priority tier
and is fair-cycle-exhausted for the request's tracking key, the tier's global
cycle record exists and is still inside its duration, at least one candidate
is blocked precisely by the fair-cycle checker (it passes the concurrent,
cooldown, window-limit (when enabled) and custom-cap checkers), and at least
one candidate has an active cooldown (at the group/model key or the global
key) with remaining time strictly below `reset_cooldown_threshold`, then
`SelectionEngine.select` returns `none` and performs no cycle reset: the whole
selection state (credential states, fair-cycle store, sticky map) is returned
unchanged. With the cycle record expired the original claim fails: the
fair-cycle checker allows exhausted credentials and `select` returns one of
them (see the counterexample). -/
theorem C4_no_reset_on_short_cooldown (cfg : ProviderUsageConfig) (wm : WindowManager)
    (fuel : Nat) (provider model : String) (st : SelectionState)
    (quota_group : Option String) (exclude : List String)
    (priorities : Option (Dict String Int)) (deadline : ℚ) (draw : RandomDraw)
    (now : ℚ) (p : Int) (g0 : GlobalFairCycleState)
    (hen : cfg.fair_cycle.isEnabled = true)
    (hct : cfg.fair_cycle.cross_tier = false)
    (hnd : (dkeys st.states).Nodup)
    (hsid : ∀ e ∈ st.states, (e.2 : CredentialState).stable_id = e.1)
    (hprov : ∀ e ∈ st.states, (e.2 : CredentialState).provider = provider)
    (hprio : ∀ e ∈ st.states, (e.2 : CredentialState).priority = p)
    (hexh : ∀ e ∈ st.states, ∃ fc,
      dget (e.2 : CredentialState).fair_cycle
        (resolve_tracking_key cfg.fair_cycle model quota_group) = some fc
      ∧ fc.exhausted = true)
    (hrec : dget ((dget st.fc_global provider).getD [])
      (resolve_tracking_key cfg.fair_cycle model quota_group) = some g0)
    (hact : now < g0.cycle_start + (cfg.fair_cycle.duration : ℚ))
    (hwit : ∃ e ∈ st.states, exclude.contains e.1 = false
      ∧ (concurrent_check (e.2 : CredentialState)).allowed = true
      ∧ (cooldown_check e.2 model quota_group now).allowed = true
      ∧ (cfg.window_limits_enabled = true →
          (window_limit_check wm e.2 model quota_group now).allowed = true)
      ∧ (custom_cap_check cfg.custom_caps wm e.2 model quota_group now).allowed = true)
    (hshort : ∃ e ∈ st.states, exclude.contains e.1 = false
      ∧ ∃ k cd, (k = quota_group.getD model ∨ k = "_global_")
        ∧ dget (e.2 : CredentialState).cooldowns k = some cd
        ∧ now < cd.«until»
        ∧ cd.«until» - now < (cfg.fair_cycle.reset_cooldown_threshold : ℚ)) :
    select cfg wm (fuel + 1) provider model st quota_group exclude priorities
      deadline draw now = (none, st) := by
  have hsid' : ∀ sid v, dget st.states sid = some v → v.stable_id = sid :=
    fun sid v h => hsid (sid, v) (dget_mem _ _ _ h)
  have hprov' : ∀ sid v, dget st.states sid = some v → v.provider = provider :=
    fun sid v h => hprov (sid, v) (dget_mem _ _ _ h)
  have hprio' : ∀ sid v, dget st.states sid = some v → v.priority = p :=
    fun sid v h => hprio (sid, v) (dget_mem _ _ _ h)
  have hexh' : ∀ sid v, dget st.states sid = some v → ∃ fc,
      dget v.fair_cycle (resolve_tracking_key cfg.fair_cycle model quota_group) = some fc
      ∧ fc.exhausted = true :=
    fun sid v h => hexh (sid, v) (dget_mem _ _ _ h)
  have hall : ∀ sid ∈ (dkeys st.states).filter (fun sid => ¬ exclude.contains sid),
      ∀ state, dget st.states sid = some state →
      ∃ r, check_all cfg wm state model quota_group st.fc_global now = (r, state, st.fc_global)
        ∧ r.allowed = false := by
    intro sid _ state hget
    obtain ⟨fc, hfc, hex⟩ := hexh' sid state hget
    exact check_all_blocked_of_exhausted cfg wm state model quota_group st.fc_global now fc g0
      hen hfc hex (by rw [hprov' sid state hget]; exact hrec) hact
  obtain ⟨ew, hewmem, hewexc, hewcc, hewcd, hewwl, hewcap⟩ := hwit
  obtain ⟨es, hesmem, hesexc, k, cd, hk, hcdk, hcact, hcshort⟩ := hshort
  have hewget : dget st.states ew.1 = some ew.2 := dget_of_mem_nodup _ hnd _ _ hewmem
  have hesget : dget st.states es.1 = some es.2 := dget_of_mem_nodup _ hnd _ _ hesmem
  have hewkey : ew.1 ∈ (dkeys st.states).filter (fun sid => ¬ exclude.contains sid) :=
    List.mem_filter.mpr ⟨List.mem_map_of_mem Prod.fst hewmem, by simp; simpa using hewexc⟩
  have heskey : es.1 ∈ (dkeys st.states).filter (fun sid => ¬ exclude.contains sid) :=
    List.mem_filter.mpr ⟨List.mem_map_of_mem Prod.fst hesmem, by simp; simpa using hesexc⟩
  have hmem : ∀ sid ∈ (dkeys st.states).filter (fun sid => ¬ exclude.contains sid),
      ∃ v, dget st.states sid = some v := by
    intro sid hs
    exact mem_dkeys_dget _ _ (List.mem_filter.mp hs).1
  have hne : ((dkeys st.states).filter (fun sid => ¬ exclude.contains sid)) ≠ [] :=
    List.ne_nil_of_mem hewkey
  unfold select
  dsimp only
  rw [if_neg (by simpa [List.isEmpty_iff] using hne)]
  rw [select_filter_all_blocked cfg wm model quota_group now _ _ _ _ hall]
  dsimp only
  rw [if_pos (show ([] : List String).isEmpty = true from rfl), if_pos hen]
  rw [try_fair_cycle_reset_short cfg wm provider model quota_group st.states st.fc_global
    _ priorities now p g0 hen hct hsid' hprov' hprio' hexh' hmem hrec hact
    ⟨ew.1, hewkey, ew.2, hewget, hewcc, hewcd, hewwl, hewcap⟩
    ⟨es.1, heskey, es.2, hesget, k, cd, hk, hcdk, hcact, hcshort⟩]
  dsimp only
  rfl


/-- Fair-cycle config for the liveness scenarios: enabled, per-tier, one-hour
cycles, reset-cooldown threshold 120 s. -/
def fcC34 : FairCycleConfig :=
  { enabled := some true, cross_tier := false, duration := 3600
    reset_cooldown_threshold := 120 }

/-- Provider config wrapping `fcC34` (no caps, window limits disabled). -/
def cfgC34 : ProviderUsageConfig := { fair_cycle := fcC34 }

/-- An exhausted fair-cycle record. -/
def fcExh : FairCycleState := { exhausted := true, exhausted_at := some 0 }

/-- The short cooldown on credential B: 50 s remaining at t = 0. -/
def cdShort : CooldownInfo := { reason := "quota", «until» := 50, started_at := 0 }

/-- Credential A: fair-cycle exhausted for model `m`, no cooldowns. -/
def stA4 : CredentialState :=
  { stable_id := "A", provider := "prov", accessor := "A", priority := 1
    fair_cycle := [("m", fcExh)] }

/-- Credential B: fair-cycle exhausted and under the short cooldown `cdShort`. -/
def stB4 : CredentialState :=
  { stable_id := "B", provider := "prov", accessor := "B", priority := 1
    fair_cycle := [("m", fcExh)], cooldowns := [("m", cdShort)] }

/-- Selection state for the C4 scenario, with an active global cycle record. -/
def st4 : SelectionState :=
  { states := [("A", stA4), ("B", stB4)]
    fc_global := [("prov", [("m", { cycle_start := 0 })])] }

/-- Witness for C4 at a concrete two-credential tier: both fair-cycle
exhausted, B's cooldown has 50 s < 120 s remaining, and selection returns
`none` with the state unchanged. -/
theorem C4_no_reset_on_short_cooldown_witness :
    select cfgC34 wm5h 1 "prov" "m" st4 none [] none 0 {} 0 = (none, st4) :=
  C4_no_reset_on_short_cooldown cfgC34 wm5h 0 "prov" "m" st4 none [] none 0 {} 0
    1 { cycle_start := 0 }
    (by decide) (by decide) (by decide) (by decide) (by decide) (by decide)
    (by
      intro e he
      rcases List.mem_cons.mp he with rfl | he
      · exact ⟨fcExh, by decide, by decide⟩
      rcases List.mem_cons.mp he with rfl | he
      · exact ⟨fcExh, by decide, by decide⟩
      · exact absurd he (by simp))
    (by decide) (by decide)
    ⟨("A", stA4), by decide, by decide, by decide, by decide, by decide, by decide⟩
    ⟨("B", stB4), by decide, by decide, "m", cdShort, Or.inl (by decide),
      by decide, by decide, by decide⟩

/-- The short cooldown on credential B in the expired-cycle scenario:
50 s remaining at t = 4000. -/
def cdShortX : CooldownInfo := { reason := "quota", «until» := 4050, started_at := 4000 }

/-- Credential B for the C4 counterexample: fair-cycle exhausted with the
active short cooldown `cdShortX`. -/
def stB6 : CredentialState :=
  { stable_id := "B", provider := "prov", accessor := "B", priority := 1
    fair_cycle := [("m", fcExh)], cooldowns := [("m", cdShortX)] }

/-- Selection state for the C4 counterexample; its global cycle record started
at t = 0 and has expired by t = 4000 (duration 3600 s). -/
def st6 : SelectionState :=
  { states := [("A", stA4), ("B", stB6)]
    fc_global := [("prov", [("m", { cycle_start := 0 })])] }

/-- **C4 counterexample.** Both tier members are fair-cycle-exhausted and B
holds an active cooldown with 50 s < 120 s remaining — the original claim's
premise — but the tier's cycle record has expired (start 0, duration 3600,
now 4000). The fair-cycle checker then allows exhausted credentials, so
`select` returns credential A rather than `none`. -/
theorem C4_counterexample_expired_cycle :
    (({ cycle_start := 0 } : GlobalFairCycleState).cycle_start
        + (fcC34.duration : ℚ) ≤ 4000)
    ∧ stA4.is_fair_cycle_exhausted "m" = true
    ∧ stB6.is_fair_cycle_exhausted "m" = true
    ∧ dget stB6.cooldowns "m" = some cdShortX
    ∧ ((4000 : ℚ) < cdShortX.«until»
        ∧ cdShortX.«until» - 4000 < (fcC34.reset_cooldown_threshold : ℚ))
    ∧ (select cfgC34 wm5h 1 "prov" "m" st6 none [] none 0 {} 4000).1 = some "A" := by
  refine ⟨by decide, by decide, by decide, by decide, ⟨by decide, by decide⟩, by decide⟩


/-- The long cooldown on the C3 counterexample credential: 1000 s remaining. -/
def cdLong : CooldownInfo := { reason := "quota", «until» := 1000, started_at := 0 }

/-- Credential X: fair-cycle exhausted with the active long cooldown `cdLong`. -/
def stX3 : CredentialState :=
  { stable_id := "X", provider := "prov", accessor := "X", priority := 1
    fair_cycle := [("m", fcExh)], cooldowns := [("m", cdLong)] }

/-- Selection state for the C3 counterexample. -/
def st3 : SelectionState :=
  { states := [("X", stX3)]
    fc_global := [("prov", [("m", { cycle_start := 0 })])] }

/-- **C3 counterexample.** The tier's only credential is fair-cycle exhausted
and its single remaining cooldown (1000 s) exceeds `reset_cooldown_threshold`
(120 s), yet `select` returns `none` and performs no reset: the cooldown
checker blocks before the fair-cycle checker, so no candidate counts as
fair-cycle-blocked and `_try_fair_cycle_reset` declines. -/
theorem C3_counterexample_long_cooldown_blocks_reset :
    stX3.is_fair_cycle_exhausted "m" = true
    ∧ dget stX3.cooldowns "m" = some cdLong
    ∧ ((0 : ℚ) < cdLong.«until»
        ∧ (fcC34.reset_cooldown_threshold : ℚ) < cdLong.«until» - 0)
    ∧ select cfgC34 wm5h 2 "prov" "m" st3 none [] none 0 {} 0 = (none, st3) := by
  refine ⟨by decide, by decide, ⟨by decide, by decide⟩, by decide⟩

theorem concurrent_check_set_fc (state : CredentialState)
    (X : Dict String FairCycleState) :
    concurrent_check { state with fair_cycle := X } = concurrent_check state := rfl

theorem cooldown_scan_set_fc (state : CredentialState) (X : Dict String FairCycleState)
    (now : ℚ) (keys : List String) :
    cooldown_scan { state with fair_cycle := X } now keys
      = cooldown_scan state now keys := by
  induction keys with
  | nil => rfl
  | cons k rest ih =>
    unfold cooldown_scan
    dsimp only
    cases dget state.cooldowns k with
    | none => exact ih
    | some cd =>
      dsimp only
      split
      · rfl
      · exact ih

theorem cooldown_check_set_fc (state : CredentialState) (X : Dict String FairCycleState)
    (model : String) (quota_group : Option String) (now : ℚ) :
    cooldown_check { state with fair_cycle := X } model quota_group now
      = cooldown_check state model quota_group now := by
  unfold cooldown_check
  exact cooldown_scan_set_fc state X now _

theorem window_limit_scan_set_fc (wm : WindowManager) (state : CredentialState)
    (X : Dict String FairCycleState) (model group_key : String) (now : ℚ)
    (defs : Dict String WindowDefinition) :
    window_limit_scan wm { state with fair_cycle := X } model group_key now defs
      = window_limit_scan wm state model group_key now defs := by
  induction defs with
  | nil => rfl
  | cons e rest ih =>
    obtain ⟨n, definition⟩ := e
    unfold window_limit_scan
    dsimp only
    repeat' split
    all_goals first | rfl | exact ih

theorem window_limit_check_set_fc (wm : WindowManager) (state : CredentialState)
    (X : Dict String FairCycleState) (model : String) (quota_group : Option String)
    (now : ℚ) :
    window_limit_check wm { state with fair_cycle := X } model quota_group now
      = window_limit_check wm state model quota_group now := by
  unfold window_limit_check
  exact window_limit_scan_set_fc wm state X model _ now wm.definitions

theorem check_single_cap_set_fc (wm : WindowManager) (state : CredentialState)
    (X : Dict String FairCycleState) (cap : CustomCapConfig) (scope scope_key : String)
    (now : ℚ) :
    check_single_cap wm { state with fair_cycle := X } cap scope scope_key now
      = check_single_cap wm state cap scope scope_key now := rfl

theorem caps_scan_set_fc (wm : WindowManager) (state : CredentialState)
    (X : Dict String FairCycleState) (now : ℚ)
    (caps : List (CustomCapConfig × String × String)) :
    caps_scan wm { state with fair_cycle := X } now caps
      = caps_scan wm state now caps := by
  induction caps with
  | nil => rfl
  | cons e rest ih =>
    obtain ⟨cap, scope, scope_key⟩ := e
    unfold caps_scan
    dsimp only
    rw [check_single_cap_set_fc]
    split
    · exact ih
    · rfl

theorem custom_cap_check_set_fc (caps : List CustomCapConfig) (wm : WindowManager)
    (state : CredentialState) (X : Dict String FairCycleState) (model : String)
    (quota_group : Option String) (now : ℚ) :
    custom_cap_check caps wm { state with fair_cycle := X } model quota_group now
      = custom_cap_check caps wm state model quota_group now := by
  unfold custom_cap_check
  split
  · rfl
  · cases wm.get_primary_definition with
    | none => rfl
    | some d =>
      dsimp only
      split
      · rfl
      · exact caps_scan_set_fc wm state X now _

theorem get_quota_limit_set_fc (wm : WindowManager) (state : CredentialState)
    (X : Dict String FairCycleState) (model : String) (quota_group : Option String)
    (now : ℚ) :
    get_quota_limit wm { state with fair_cycle := X } model quota_group now
      = get_quota_limit wm state model quota_group now := rfl

theorem fair_cycle_check_ok_cleared (cfg : FairCycleConfig) (wm : WindowManager)
    (state : CredentialState) (model : String) (quota_group : Option String)
    (gs : FCGlobal) (now : ℚ) (fc : FairCycleState)
    (hfc : dget state.fair_cycle (resolve_tracking_key cfg model quota_group) = some fc)
    (hx : fc.exhausted = false)
    (hnp : ∀ L, get_quota_limit wm state model quota_group now = some L →
      ¬ (py_int_of_float ((L : ℚ) * cfg.quota_threshold) ≤ fc.cycle_request_count)) :
    fair_cycle_check cfg wm state model quota_group gs now
      = (LimitCheckResult.ok, state, gs) := by
  unfold fair_cycle_check
  split
  · rfl
  · dsimp only
    have hpr : fair_cycle_promote cfg wm state model quota_group
        (resolve_tracking_key cfg model quota_group) now = state := by
      unfold fair_cycle_promote
      rw [hfc]
      dsimp only
      rw [if_neg (by simp [hx])]
      cases hq : get_quota_limit wm state model quota_group now with
      | none => rfl
      | some L =>
        dsimp only
        rw [if_neg (hnp L hq)]
    rw [hpr, hfc]
    dsimp only
    unfold fair_cycle_decide
    rw [if_pos hx]


/-- The per-credential clearing step of `FairCycleChecker.reset_cycle`. -/
def fc_clear_step (gk : String) (sd : Dict String CredentialState) (sid : String) :
    Dict String CredentialState :=
  match dget sd sid with
  | some st =>
    match dget st.fair_cycle gk with
    | some fc =>
      let fc' := { fc with exhausted := false, exhausted_at := none
                           exhausted_reason := none, cycle_request_count := 0 }
      dinsert sd sid ({ st with fair_cycle := dinsert st.fair_cycle gk fc' })
    | none => sd
  | none => sd

theorem reset_cycle_eq (sd : Dict String CredentialState) (gs : FCGlobal)
    (provider gk : String) (ids : List String) (now : ℚ) :
    reset_cycle sd gs provider gk ids now
      = (ids.foldl (fc_clear_step gk) sd,
         dinsert (get_global_state gs provider gk now).2 provider
           (dinsert ((dget (get_global_state gs provider gk now).2 provider).getD []) gk
             { (get_global_state gs provider gk now).1 with
                 cycle_start := now, all_exhausted_at := none,
                 cycle_count := (get_global_state gs provider gk now).1.cycle_count + 1 })) :=
  rfl

theorem fc_clear_step_ne (gk : String) (sd : Dict String CredentialState)
    (x sid : String) (h : sid ≠ x) :
    dget (fc_clear_step gk sd x) sid = dget sd sid := by
  unfold fc_clear_step
  cases dget sd x with
  | none => rfl
  | some st =>
    dsimp only
    cases dget st.fair_cycle gk with
    | none => rfl
    | some fc => exact dget_dinsert_ne sd x sid _ h

theorem fc_fold_not_mem (gk : String) (ids : List String)
    (sd : Dict String CredentialState) (sid : String) (h : sid ∉ ids) :
    dget (ids.foldl (fc_clear_step gk) sd) sid = dget sd sid := by
  induction ids generalizing sd with
  | nil => rfl
  | cons x rest ih =>
    rw [List.foldl_cons]
    have hne : sid ≠ x := fun he => h (he ▸ List.mem_cons_self x rest)
    rw [ih _ (fun hm => h (List.mem_cons_of_mem _ hm))]
    exact fc_clear_step_ne gk sd x sid hne

theorem fc_fold_get (gk : String) (ids : List String)
    (sd : Dict String CredentialState) (sid : String) (st0 : CredentialState)
    (fc : FairCycleState) (hnd : ids.Nodup) (hmem : sid ∈ ids)
    (hget : dget sd sid = some st0) (hfc : dget st0.fair_cycle gk = some fc) :
    dget (ids.foldl (fc_clear_step gk) sd) sid
      = some { st0 with fair_cycle := dinsert st0.fair_cycle gk
                            { fc with exhausted := false, exhausted_at := none,
                                      exhausted_reason := none, cycle_request_count := 0 } } := by
  induction ids generalizing sd with
  | nil => exact absurd hmem (by simp)
  | cons x rest ih =>
    rw [List.foldl_cons]
    rcases List.nodup_cons.mp hnd with ⟨hxr, hndr⟩
    by_cases hsx : sid = x
    · subst hsx
      have hstep : fc_clear_step gk sd sid = dinsert sd sid ({ st0 with fair_cycle := dinsert st0.fair_cycle gk { fc with exhausted := false, exhausted_at := none, exhausted_reason := none, cycle_request_count := 0 } }) := by
        unfold fc_clear_step
        rw [hget]
        dsimp only
        rw [hfc]
      rw [hstep, fc_fold_not_mem gk rest _ sid hxr]
      exact dget_dinsert_self _ _ _
    · have hmr : sid ∈ rest := by
        rcases List.mem_cons.mp hmem with h | h
        · exact absurd h hsx
        · exact h
      have hpres : dget (fc_clear_step gk sd x) sid = some st0 := by
        rw [fc_clear_step_ne gk sd x sid hsx]
        exact hget
      exact ih _ hndr hmr hpres

theorem fc_fold_keys (gk : String) (ids : List String)
    (sd : Dict String CredentialState) :
    dkeys (ids.foldl (fc_clear_step gk) sd) = dkeys sd := by
  induction ids generalizing sd with
  | nil => rfl
  | cons x rest ih =>
    rw [List.foldl_cons, ih]
    unfold fc_clear_step
    cases hx : dget sd x with
    | none => rfl
    | some st =>
      dsimp only
      cases dget st.fair_cycle gk with
      | none => rfl
      | some fc => exact dkeys_dinsert_of_mem sd x _ st hx


theorem try_fair_cycle_reset_resets (cfg : ProviderUsageConfig) (wm : WindowManager)
    (provider model : String) (quota_group : Option String)
    (sd : Dict String CredentialState) (gs : FCGlobal)
    (cands : List String) (priorities : Option (Dict String Int)) (now : ℚ)
    (p : Int) (g0 : GlobalFairCycleState)
    (hen : cfg.fair_cycle.isEnabled = true)
    (hct : cfg.fair_cycle.cross_tier = false)
    (hsid : ∀ sid v, dget sd sid = some v → v.stable_id = sid)
    (hprov : ∀ sid v, dget sd sid = some v → v.provider = provider)
    (hprio : ∀ sid v, dget sd sid = some v → v.priority = p)
    (hexh : ∀ sid v, dget sd sid = some v → ∃ fc,
      dget v.fair_cycle (resolve_tracking_key cfg.fair_cycle model quota_group) = some fc
      ∧ fc.exhausted = true)
    (hmem : ∀ sid ∈ cands, ∃ v, dget sd sid = some v)
    (hrec : dget ((dget gs provider).getD [])
      (resolve_tracking_key cfg.fair_cycle model quota_group) = some g0)
    (hact : now < g0.cycle_start + (cfg.fair_cycle.duration : ℚ))
    (hwit : ∃ sidw ∈ cands, ∃ statew, dget sd sidw = some statew
      ∧ (concurrent_check statew).allowed = true
      ∧ (cooldown_check statew model quota_group now).allowed = true
      ∧ (cfg.window_limits_enabled = true →
          (window_limit_check wm statew model quota_group now).allowed = true)
      ∧ (custom_cap_check cfg.custom_caps wm statew model quota_group now).allowed = true)
    (hlong : ∀ sid v, dget sd sid = some v → ∀ k,
      (k = quota_group.getD model ∨ k = "_global_") → ∀ cd,
      dget v.cooldowns k = some cd → now < cd.«until» →
        (cfg.fair_cycle.reset_cooldown_threshold : ℚ) ≤ cd.«until» - now) :
    try_fair_cycle_reset cfg wm provider model quota_group sd gs cands priorities now
      = (true,
         (reset_cycle sd gs provider
           (resolve_tracking_key cfg.fair_cycle model quota_group) cands now).1,
         (reset_cycle sd gs provider
           (resolve_tracking_key cfg.fair_cycle model quota_group) cands now).2) := by
  have hall : ∀ sid ∈ cands, ∀ state, dget sd sid = some state →
      ∃ r, check_all cfg wm state model quota_group gs now = (r, state, gs)
        ∧ r.allowed = false := by
    intro sid hs state hget
    obtain ⟨fc, hfc, hex⟩ := hexh sid state hget
    exact check_all_blocked_of_exhausted cfg wm state model quota_group gs now fc g0
      hen hfc hex (by rw [hprov sid state hget]; exact hrec) hact
  obtain ⟨sidw, hwmem, statew, hgw, hcc, hcd, hwlc, hcap⟩ := hwit
  obtain ⟨fcw, hfcw, hexw⟩ := hexh sidw statew hgw
  have hfcb := check_all_fcb cfg wm statew model quota_group gs now fcw g0
    hen hfcw hexw (by rw [hprov sidw statew hgw]; exact hrec) hact hcc hcd hwlc hcap
  rcases tfcr_scan_fc_pos cfg wm model quota_group now cands sd gs 0 sidw statew hall
    hwmem hgw (by rw [hfcb]; rfl) with ⟨n, hscan, hn⟩
  unfold try_fair_cycle_reset
  rw [hscan]
  dsimp only
  rw [if_neg (by omega : ¬ n = 0), if_neg (by simp [hct])]
  have hcs_prio : ∀ s ∈ cands.filterMap (dget sd), CredentialState.priority s = p := by
    intro s hs
    rcases List.mem_filterMap.mp hs with ⟨sid, hsid', hget⟩
    exact hprio sid s hget
  have hcs_ne : cands.filterMap (dget sd) ≠ [] := by
    intro hnil
    have hmw : statew ∈ cands.filterMap (dget sd) :=
      List.mem_filterMap.mpr ⟨sidw, hwmem, hgw⟩
    rw [hnil] at hmw
    exact absurd hmw (by simp)
  rw [tier_fold_single p _ hcs_prio hcs_ne,
    filterMap_dget_ids sd cands hmem hsid, List.foldl_cons]
  have hexh_all : ((cands.filterMap (dget sd)).all
      (fun s => s.is_fair_cycle_exhausted
        (resolve_tracking_key cfg.fair_cycle model quota_group))) = true := by
    rw [List.all_eq_true]
    intro s hs
    rcases List.mem_filterMap.mp hs with ⟨sid, hsid', hget⟩
    obtain ⟨fc, hfc, hex⟩ := hexh sid s hget
    simp [CredentialState.is_fair_cycle_exhausted, hfc, hex]
  have hsclong : (get_shortest_cooldown cfg.fair_cycle (cands.filterMap (dget sd))
      (quota_group.getD model) now).1 = false := by
    apply get_shortest_cooldown_long
    intro s hs k hk cd hcdk hcact
    rcases List.mem_filterMap.mp hs with ⟨sid, hsid', hget⟩
    exact hlong sid s hget k hk cd hcdk hcact
  dsimp only
  rw [if_pos hexh_all, if_neg (by simp [hsclong])]
  rfl

theorem check_all_preserved_cleared (cfg : ProviderUsageConfig) (wm : WindowManager)
    (st0 : CredentialState) (F : Dict String FairCycleState) (model : String)
    (quota_group : Option String) (gs : FCGlobal) (now : ℚ) (fc' : FairCycleState)
    (hfc : dget F (resolve_tracking_key cfg.fair_cycle model quota_group) = some fc')
    (hx : fc'.exhausted = false)
    (hnp : ∀ L, get_quota_limit wm st0 model quota_group now = some L →
      ¬ (py_int_of_float ((L : ℚ) * cfg.fair_cycle.quota_threshold)
          ≤ fc'.cycle_request_count)) :
    ∃ r, check_all cfg wm { st0 with fair_cycle := F } model quota_group gs now
      = (r, { st0 with fair_cycle := F }, gs) := by
  have hnp' : ∀ L, get_quota_limit wm { st0 with fair_cycle := F } model quota_group now
      = some L →
      ¬ (py_int_of_float ((L : ℚ) * cfg.fair_cycle.quota_threshold)
          ≤ fc'.cycle_request_count) := by
    intro L hL
    rw [get_quota_limit_set_fc] at hL
    exact hnp L hL
  have hfcok := fair_cycle_check_ok_cleared cfg.fair_cycle wm
    { st0 with fair_cycle := F } model quota_group gs now fc' hfc hx hnp'
  have htail : ∃ r,
      (if ¬ (custom_cap_check cfg.custom_caps wm { st0 with fair_cycle := F }
          model quota_group now).allowed = true
        then (custom_cap_check cfg.custom_caps wm { st0 with fair_cycle := F }
          model quota_group now, { st0 with fair_cycle := F }, gs)
        else fair_cycle_check cfg.fair_cycle wm { st0 with fair_cycle := F }
          model quota_group gs now)
        = (r, { st0 with fair_cycle := F }, gs) := by
    by_cases h4 : (custom_cap_check cfg.custom_caps wm { st0 with fair_cycle := F }
        model quota_group now).allowed = true
    · rw [if_neg (by simp [h4]), hfcok]
      exact ⟨_, rfl⟩
    · rw [if_pos (by simpa using h4)]
      exact ⟨_, rfl⟩
  unfold check_all
  try dsimp only
  by_cases h1 : (concurrent_check { st0 with fair_cycle := F }).allowed = true
  · rw [if_neg (by simp [h1])]
    by_cases h2 : (cooldown_check { st0 with fair_cycle := F } model quota_group now).allowed = true
    · rw [if_neg (by simp [h2])]
      by_cases hwle : cfg.window_limits_enabled = true
      · rw [if_pos hwle]
        by_cases h3 : (window_limit_check wm { st0 with fair_cycle := F }
            model quota_group now).allowed = true
        · rw [if_neg (by simp [h3])]
          try dsimp only
          exact htail
        · rw [if_pos (by simpa using h3)]
          exact ⟨_, rfl⟩
      · rw [if_neg hwle]
        try dsimp only
        exact htail
    · rw [if_pos (by simpa using h2)]
      exact ⟨_, rfl⟩
  · rw [if_pos (by simpa using h1)]
    exact ⟨_, rfl⟩

theorem check_all_ok_cleared (cfg : ProviderUsageConfig) (wm : WindowManager)
    (st0 : CredentialState) (F : Dict String FairCycleState) (model : String)
    (quota_group : Option String) (gs : FCGlobal) (now : ℚ) (fc' : FairCycleState)
    (hfc : dget F (resolve_tracking_key cfg.fair_cycle model quota_group) = some fc')
    (hx : fc'.exhausted = false)
    (hnp : ∀ L, get_quota_limit wm st0 model quota_group now = some L →
      ¬ (py_int_of_float ((L : ℚ) * cfg.fair_cycle.quota_threshold)
          ≤ fc'.cycle_request_count))
    (hcc : (concurrent_check st0).allowed = true)
    (hcd : (cooldown_check st0 model quota_group now).allowed = true)
    (hwlc : cfg.window_limits_enabled = true →
      (window_limit_check wm st0 model quota_group now).allowed = true)
    (hcap : (custom_cap_check cfg.custom_caps wm st0 model quota_group now).allowed = true) :
    check_all cfg wm { st0 with fair_cycle := F } model quota_group gs now
      = (LimitCheckResult.ok, { st0 with fair_cycle := F }, gs) := by
  have hnp' : ∀ L, get_quota_limit wm { st0 with fair_cycle := F } model quota_group now
      = some L →
      ¬ (py_int_of_float ((L : ℚ) * cfg.fair_cycle.quota_threshold)
          ≤ fc'.cycle_request_count) := by
    intro L hL
    rw [get_quota_limit_set_fc] at hL
    exact hnp L hL
  have hfcok := fair_cycle_check_ok_cleared cfg.fair_cycle wm
    { st0 with fair_cycle := F } model quota_group gs now fc' hfc hx hnp'
  unfold check_all
  try dsimp only
  rw [if_neg (by simp [concurrent_check_set_fc, hcc]),
    if_neg (by simp [cooldown_check_set_fc, hcd])]
  by_cases hwle : cfg.window_limits_enabled = true
  · rw [if_pos hwle, if_neg (by simp [window_limit_check_set_fc, hwlc hwle])]
    try dsimp only
    rw [if_neg (by simp [custom_cap_check_set_fc, hcap]), hfcok]
  · rw [if_neg hwle]
    try dsimp only
    rw [if_neg (by simp [custom_cap_check_set_fc, hcap]), hfcok]

theorem select_filter_avail_mono (cfg : ProviderUsageConfig) (wm : WindowManager)
    (model : String) (quota_group : Option String) (now : ℚ)
    (cands : List String) (sd : Dict String CredentialState) (gs : FCGlobal)
    (acc : List String) (x : String) (h : x ∈ acc) :
    x ∈ (select_filter cfg wm model quota_group now cands sd gs acc).1 := by
  induction cands generalizing sd gs acc with
  | nil => exact h
  | cons sid rest ih =>
    unfold select_filter
    cases hg : dget sd sid with
    | none => exact ih _ _ _ h
    | some state =>
      dsimp only
      refine ih _ _ _ ?_
      split
      · exact List.mem_append_left _ h
      · exact h

theorem select_filter_preserve (cfg : ProviderUsageConfig) (wm : WindowManager)
    (model : String) (quota_group : Option String) (now : ℚ)
    (cands : List String) (sd : Dict String CredentialState) (gs : FCGlobal)
    (acc : List String)
    (hall : ∀ sid ∈ cands, ∀ state, dget sd sid = some state →
      ∃ r, check_all cfg wm state model quota_group gs now = (r, state, gs)) :
    (select_filter cfg wm model quota_group now cands sd gs acc).2 = (sd, gs) := by
  induction cands generalizing acc with
  | nil => rfl
  | cons sid rest ih =>
    unfold select_filter
    cases hg : dget sd sid with
    | none =>
      exact ih acc (fun s hs state hget => hall s (List.mem_cons_of_mem _ hs) state hget)
    | some state =>
      obtain ⟨r, hr⟩ := hall sid (List.mem_cons_self _ _) state hg
      dsimp only
      rw [hr]
      dsimp only
      rw [dinsert_self sd sid state hg]
      exact ih _ (fun s hs state' hget => hall s (List.mem_cons_of_mem _ hs) state' hget)

theorem select_filter_avail_of_ok (cfg : ProviderUsageConfig) (wm : WindowManager)
    (model : String) (quota_group : Option String) (now : ℚ)
    (cands : List String) (sd : Dict String CredentialState) (gs : FCGlobal)
    (acc : List String) (sidw : String) (statew : CredentialState)
    (hall : ∀ sid ∈ cands, ∀ state, dget sd sid = some state →
      ∃ r, check_all cfg wm state model quota_group gs now = (r, state, gs))
    (hw : sidw ∈ cands) (hgw : dget sd sidw = some statew)
    (hok : (check_all cfg wm statew model quota_group gs now).1.allowed = true) :
    sidw ∈ (select_filter cfg wm model quota_group now cands sd gs acc).1 := by
  induction cands generalizing acc with
  | nil => exact absurd hw (by simp)
  | cons sid rest ih =>
    unfold select_filter
    cases hg : dget sd sid with
    | none =>
      rcases List.mem_cons.mp hw with rfl | hw'
      · rw [hg] at hgw
        exact absurd hgw (by simp)
      · exact ih acc (fun s hs state hget => hall s (List.mem_cons_of_mem _ hs) state hget) hw'
    | some state =>
      obtain ⟨r, hr⟩ := hall sid (List.mem_cons_self _ _) state hg
      dsimp only
      rw [hr]
      dsimp only
      rw [dinsert_self sd sid state hg]
      by_cases hsw : sidw = sid
      · subst hsw
        rw [hg] at hgw
        injection hgw with hgw'
        subst hgw'
        have hra : r.allowed = true := by
          rw [hr] at hok
          exact hok
        rw [if_pos hra]
        exact select_filter_avail_mono cfg wm model quota_group now rest sd gs _ sidw
          (List.mem_append_right _ (List.mem_singleton.mpr rfl))
      · have hw' : sidw ∈ rest := by
          rcases List.mem_cons.mp hw with h | h
          · exact absurd h hsw
          · exact h
        exact ih _ (fun s hs state' hget => hall s (List.mem_cons_of_mem _ hs) state' hget) hw'

theorem balanced_select_total (tolerance : ℚ) (draw : RandomDraw)
    (context : SelectionContext) (hne : context.candidates ≠ []) :
    ∃ c, balanced_select tolerance draw context = some c := by
  unfold balanced_select
  cases hc : context.candidates with
  | nil => exact absurd hc hne
  | cons a t =>
    cases t with
    | nil => exact ⟨a, rfl⟩
    | cons b t2 =>
      dsimp only
      cases hloop : balanced_loop tolerance draw
          (group_by_priority (a :: b :: t2) context.priorities) context.usage_counts
          (sort_ints (dkeys (group_by_priority (a :: b :: t2) context.priorities))) with
      | some s => exact ⟨s, rfl⟩
      | none => exact ⟨a, rfl⟩

theorem sequential_select_total (current : Dict (String × String) String)
    (context : SelectionContext) (states : Dict String CredentialState)
    (hne : context.candidates ≠ []) :
    ∃ c, (sequential_select current context states).1 = some c := by
  unfold sequential_select
  cases hc : context.candidates with
  | nil => exact absurd hc hne
  | cons a t =>
    cases t with
    | nil => exact ⟨a, rfl⟩
    | cons b t2 =>
      dsimp only
      cases hcur : dget current (context.provider, context.quota_group.getD context.model) with
      | none =>
        dsimp only
        unfold select_by_priority
        exact ⟨_, rfl⟩
      | some cur =>
        dsimp only
        by_cases hcond : cur ≠ "" ∧ (a :: b :: t2).contains cur
        · rw [if_pos hcond]
          exact ⟨cur, rfl⟩
        · rw [if_neg hcond]
          dsimp only
          unfold select_by_priority
          exact ⟨_, rfl⟩


theorem select_one_pass_success (cfg : ProviderUsageConfig) (wm : WindowManager)
    (fuel : Nat) (provider model : String) (st2 : SelectionState)
    (quota_group : Option String) (exclude : List String)
    (priorities : Option (Dict String Int)) (deadline : ℚ) (draw : RandomDraw) (now : ℚ)
    (hall2 : ∀ sid ∈ (dkeys st2.states).filter (fun sid => ¬ exclude.contains sid),
      ∀ state, dget st2.states sid = some state →
      ∃ r, check_all cfg wm state model quota_group st2.fc_global now
        = (r, state, st2.fc_global))
    (hwit2 : ∃ sid ∈ (dkeys st2.states).filter (fun sid => ¬ exclude.contains sid),
      ∃ state, dget st2.states sid = some state
      ∧ (check_all cfg wm state model quota_group st2.fc_global now).1.allowed = true) :
    ∃ c, (select cfg wm (fuel + 1) provider model st2 quota_group exclude priorities
        deadline draw now).1 = some c
      ∧ c ∈ (dkeys st2.states).filter (fun sid => ¬ exclude.contains sid)
      ∧ (select cfg wm (fuel + 1) provider model st2 quota_group exclude priorities
          deadline draw now).2.states = st2.states
      ∧ (select cfg wm (fuel + 1) provider model st2 quota_group exclude priorities
          deadline draw now).2.fc_global = st2.fc_global := by
  obtain ⟨sidw, hwk, statew, hgw, hok⟩ := hwit2
  have hne2 : (dkeys st2.states).filter (fun sid => ¬ exclude.contains sid) ≠ [] :=
    List.ne_nil_of_mem hwk
  have hF2 := select_filter_preserve cfg wm model quota_group now
    ((dkeys st2.states).filter (fun sid => ¬ exclude.contains sid))
    st2.states st2.fc_global [] hall2
  have hFmem := select_filter_avail_of_ok cfg wm model quota_group now
    ((dkeys st2.states).filter (fun sid => ¬ exclude.contains sid))
    st2.states st2.fc_global [] sidw statew hall2 hwk hgw hok
  have e1 : (select_filter cfg wm model quota_group now
      ((dkeys st2.states).filter (fun sid => ¬ exclude.contains sid))
      st2.states st2.fc_global []).2.1 = st2.states := by rw [hF2]
  have e2 : (select_filter cfg wm model quota_group now
      ((dkeys st2.states).filter (fun sid => ¬ exclude.contains sid))
      st2.states st2.fc_global []).2.2 = st2.fc_global := by rw [hF2]
  unfold select
  dsimp only
  rw [if_neg (by simpa [List.isEmpty_iff] using hne2)]
  rw [if_neg (by simpa [List.isEmpty_iff] using List.ne_nil_of_mem hFmem)]
  rw [e1, e2]
  have hcofmem : ∀ c, c ∈ (select_filter cfg wm model quota_group now
      ((dkeys st2.states).filter (fun sid => ¬ exclude.contains sid))
      st2.states st2.fc_global []).1 →
      c ∈ (dkeys st2.states).filter (fun sid => ¬ exclude.contains sid) := by
    intro c hc
    rcases select_filter_mem cfg wm model quota_group now _ st2.states st2.fc_global [] c hc
      with h | h
    · exact absurd h (by simp)
    · exact h
  by_cases hrot : cfg.rotation_mode = RotationMode.SEQUENTIAL
  · rw [if_pos hrot]
    dsimp only
    obtain ⟨c, hcseq⟩ := sequential_select_total st2.seq_current
      { provider := provider, model := model, quota_group := quota_group
        candidates := (select_filter cfg wm model quota_group now
          ((dkeys st2.states).filter (fun sid => ¬ exclude.contains sid))
          st2.states st2.fc_global []).1
        priorities := match priorities with
          | some p => p
          | none => (select_filter cfg wm model quota_group now
              ((dkeys st2.states).filter (fun sid => ¬ exclude.contains sid))
              st2.states st2.fc_global []).1.foldl
                (fun pm sid => match dget st2.states sid with
                  | some s => dinsert pm sid s.priority
                  | none => pm) []
        usage_counts := (select_filter cfg wm model quota_group now
          ((dkeys st2.states).filter (fun sid => ¬ exclude.contains sid))
          st2.states st2.fc_global []).1.foldl
            (fun uc sid => match dget st2.states sid with
              | some s => dinsert uc sid (get_usage_count wm s model quota_group now)
              | none => uc) []
        rotation_mode := cfg.rotation_mode
        rotation_tolerance := cfg.rotation_tolerance
        deadline := py_or_rat (some deadline) (now + 120) }
      st2.states (List.ne_nil_of_mem hFmem)
    refine ⟨c, hcseq, ?_, rfl, rfl⟩
    exact hcofmem c (sequential_select_mem _ _ _ _ hcseq)
  · rw [if_neg hrot]
    dsimp only
    obtain ⟨c, hcbal⟩ := balanced_select_total cfg.rotation_tolerance draw
      { provider := provider, model := model, quota_group := quota_group
        candidates := (select_filter cfg wm model quota_group now
          ((dkeys st2.states).filter (fun sid => ¬ exclude.contains sid))
          st2.states st2.fc_global []).1
        priorities := match priorities with
          | some p => p
          | none => (select_filter cfg wm model quota_group now
              ((dkeys st2.states).filter (fun sid => ¬ exclude.contains sid))
              st2.states st2.fc_global []).1.foldl
                (fun pm sid => match dget st2.states sid with
                  | some s => dinsert pm sid s.priority
                  | none => pm) []
        usage_counts := (select_filter cfg wm model quota_group now
          ((dkeys st2.states).filter (fun sid => ¬ exclude.contains sid))
          st2.states st2.fc_global []).1.foldl
            (fun uc sid => match dget st2.states sid with
              | some s => dinsert uc sid (get_usage_count wm s model quota_group now)
              | none => uc) []
        rotation_mode := cfg.rotation_mode
        rotation_tolerance := cfg.rotation_tolerance
        deadline := py_or_rat (some deadline) (now + 120) }
      (List.ne_nil_of_mem hFmem)
    refine ⟨c, hcbal, ?_, rfl, rfl⟩
    exact hcofmem c (balanced_select_mem _ _ _ _ hcbal)


/-- **C3 (amended).** If every candidate credential in the (single) priority
tier is fair-cycle-exhausted for the request's tracking key, the global cycle
record is still inside its duration, at least one candidate passes the
concurrent, cooldown, window-limit (when enabled) and custom-cap checkers (so
it is blocked precisely by the fair-cycle checker), every quota limit known
for a candidate yields a positive promotion threshold
(`int(limit * quota_threshold) > 0`, e.g. an API-learned limit of 200), and
every active cooldown at the group/model key or the global key has at least
`reset_cooldown_threshold` seconds remaining, then the next `select` call
resets the fair cycle — every candidate's exhaustion record is cleared and the
global `cycle_count` is incremented — and returns some candidate credential
rather than `none`. -/
theorem C3_fair_cycle_reset_liveness (cfg : ProviderUsageConfig) (wm : WindowManager)
    (fuel : Nat) (provider model : String) (st : SelectionState)
    (quota_group : Option String) (exclude : List String)
    (priorities : Option (Dict String Int)) (deadline : ℚ) (draw : RandomDraw)
    (now : ℚ) (p : Int) (g0 : GlobalFairCycleState)
    (hen : cfg.fair_cycle.isEnabled = true)
    (hct : cfg.fair_cycle.cross_tier = false)
    (hnd : (dkeys st.states).Nodup)
    (hsid : ∀ e ∈ st.states, (e.2 : CredentialState).stable_id = e.1)
    (hprov : ∀ e ∈ st.states, (e.2 : CredentialState).provider = provider)
    (hprio : ∀ e ∈ st.states, (e.2 : CredentialState).priority = p)
    (hexh : ∀ e ∈ st.states, ∃ fc,
      dget (e.2 : CredentialState).fair_cycle
        (resolve_tracking_key cfg.fair_cycle model quota_group) = some fc
      ∧ fc.exhausted = true)
    (hrec : dget ((dget st.fc_global provider).getD [])
      (resolve_tracking_key cfg.fair_cycle model quota_group) = some g0)
    (hact : now < g0.cycle_start + (cfg.fair_cycle.duration : ℚ))
    (hthr : ∀ e ∈ st.states,
      match get_quota_limit wm (e.2 : CredentialState) model quota_group now with
      | some L => 0 < py_int_of_float ((L : ℚ) * cfg.fair_cycle.quota_threshold)
      | none => True)
    (hwit : ∃ e ∈ st.states, exclude.contains e.1 = false
      ∧ (concurrent_check (e.2 : CredentialState)).allowed = true
      ∧ (cooldown_check e.2 model quota_group now).allowed = true
      ∧ (cfg.window_limits_enabled = true →
          (window_limit_check wm e.2 model quota_group now).allowed = true)
      ∧ (custom_cap_check cfg.custom_caps wm e.2 model quota_group now).allowed = true)
    (hlong : ∀ e ∈ st.states, ∀ kcd ∈ (e.2 : CredentialState).cooldowns,
      ((kcd.1 : String) = quota_group.getD model ∨ kcd.1 = "_global_") →
      now < (kcd.2 : CooldownInfo).«until» →
      (cfg.fair_cycle.reset_cooldown_threshold : ℚ) ≤ kcd.2.«until» - now) :
    ∃ sid, (select cfg wm (fuel + 2) provider model st quota_group exclude priorities
        deadline draw now).1 = some sid
      ∧ sid ∈ (dkeys st.states).filter (fun sid => ¬ exclude.contains sid)
      ∧ (∃ g', dget ((dget (select cfg wm (fuel + 2) provider model st quota_group
            exclude priorities deadline draw now).2.fc_global provider).getD [])
            (resolve_tracking_key cfg.fair_cycle model quota_group) = some g'
          ∧ g'.cycle_count = g0.cycle_count + 1)
      ∧ ∀ sid' ∈ (dkeys st.states).filter (fun sid => ¬ exclude.contains sid),
          ∃ state' fc', dget (select cfg wm (fuel + 2) provider model st quota_group
              exclude priorities deadline draw now).2.states sid' = some state'
            ∧ dget state'.fair_cycle
                (resolve_tracking_key cfg.fair_cycle model quota_group) = some fc'
            ∧ fc'.exhausted = false := by
  have hsid' : ∀ sid v, dget st.states sid = some v → v.stable_id = sid :=
    fun sid v h => hsid (sid, v) (dget_mem _ _ _ h)
  have hprov' : ∀ sid v, dget st.states sid = some v → v.provider = provider :=
    fun sid v h => hprov (sid, v) (dget_mem _ _ _ h)
  have hprio' : ∀ sid v, dget st.states sid = some v → v.priority = p :=
    fun sid v h => hprio (sid, v) (dget_mem _ _ _ h)
  have hexh' : ∀ sid v, dget st.states sid = some v → ∃ fc,
      dget v.fair_cycle (resolve_tracking_key cfg.fair_cycle model quota_group) = some fc
      ∧ fc.exhausted = true :=
    fun sid v h => hexh (sid, v) (dget_mem _ _ _ h)
  have hthr' : ∀ sid v, dget st.states sid = some v → ∀ L,
      get_quota_limit wm v model quota_group now = some L →
      0 < py_int_of_float ((L : ℚ) * cfg.fair_cycle.quota_threshold) := by
    intro sid v h L hL
    have hm := hthr (sid, v) (dget_mem _ _ _ h)
    rw [hL] at hm
    exact hm
  have hlong' : ∀ sid v, dget st.states sid = some v → ∀ k,
      (k = quota_group.getD model ∨ k = "_global_") → ∀ cd,
      dget v.cooldowns k = some cd → now < cd.«until» →
        (cfg.fair_cycle.reset_cooldown_threshold : ℚ) ≤ cd.«until» - now :=
    fun sid v h k hk cd hcd hcact =>
      hlong (sid, v) (dget_mem _ _ _ h) (k, cd) (dget_mem _ _ _ hcd) hk hcact
  have hall : ∀ sid ∈ (dkeys st.states).filter (fun sid => ¬ exclude.contains sid),
      ∀ state, dget st.states sid = some state →
      ∃ r, check_all cfg wm state model quota_group st.fc_global now
        = (r, state, st.fc_global) ∧ r.allowed = false := by
    intro sid _ state hget
    obtain ⟨fc, hfc, hex⟩ := hexh' sid state hget
    exact check_all_blocked_of_exhausted cfg wm state model quota_group st.fc_global now
      fc g0 hen hfc hex (by rw [hprov' sid state hget]; exact hrec) hact
  obtain ⟨ew, hewmem, hewexc, hewcc, hewcd, hewwl, hewcap⟩ := hwit
  have hewget : dget st.states ew.1 = some ew.2 := dget_of_mem_nodup _ hnd _ _ hewmem
  have hewkey : ew.1 ∈ (dkeys st.states).filter (fun sid => ¬ exclude.contains sid) :=
    List.mem_filter.mpr ⟨List.mem_map_of_mem Prod.fst hewmem, by simp; simpa using hewexc⟩
  have hmem : ∀ sid ∈ (dkeys st.states).filter (fun sid => ¬ exclude.contains sid),
      ∃ v, dget st.states sid = some v := by
    intro sid hs
    exact mem_dkeys_dget _ _ (List.mem_filter.mp hs).1
  have hne : ((dkeys st.states).filter (fun sid => ¬ exclude.contains sid)) ≠ [] :=
    List.ne_nil_of_mem hewkey
  have hcnd : ((dkeys st.states).filter (fun sid => ¬ exclude.contains sid)).Nodup :=
    hnd.filter _
  have htry := try_fair_cycle_reset_resets cfg wm provider model quota_group st.states
    st.fc_global ((dkeys st.states).filter (fun sid => ¬ exclude.contains sid))
    priorities now p g0 hen hct hsid' hprov' hprio' hexh' hmem hrec hact
    ⟨ew.1, hewkey, ew.2, hewget, hewcc, hewcd, hewwl, hewcap⟩ hlong'
  have hggs : get_global_state st.fc_global provider
      (resolve_tracking_key cfg.fair_cycle model quota_group) now = (g0, st.fc_global) := by
    simp only [get_global_state, hrec]
  rw [reset_cycle_eq, hggs] at htry
  dsimp only at htry
  have hclear : ∀ sid ∈ (dkeys st.states).filter (fun sid => ¬ exclude.contains sid),
      ∀ st0, dget st.states sid = some st0 → ∀ fc0,
      dget st0.fair_cycle (resolve_tracking_key cfg.fair_cycle model quota_group)
        = some fc0 →
      dget (((dkeys st.states).filter (fun sid => ¬ exclude.contains sid)).foldl
          (fc_clear_step (resolve_tracking_key cfg.fair_cycle model quota_group))
          st.states) sid
        = some { st0 with fair_cycle := dinsert st0.fair_cycle (resolve_tracking_key cfg.fair_cycle model quota_group) { fc0 with exhausted := false, exhausted_at := none, exhausted_reason := none, cycle_request_count := 0 } } :=
    fun sid hs st0 hget fc0 hfc0 => fc_fold_get _ _ _ sid st0 fc0 hcnd hs hget hfc0
  have hred : select cfg wm (fuel + 2) provider model st quota_group exclude priorities
      deadline draw now
      = select cfg wm (fuel + 1) provider model
          { st with
            states := ((dkeys st.states).filter (fun sid => ¬ exclude.contains sid)).foldl
              (fc_clear_step (resolve_tracking_key cfg.fair_cycle model quota_group))
              st.states
            fc_global := dinsert st.fc_global provider
              (dinsert ((dget st.fc_global provider).getD [])
                (resolve_tracking_key cfg.fair_cycle model quota_group)
                { g0 with cycle_start := now, all_exhausted_at := none,
                          cycle_count := g0.cycle_count + 1 }) }
          quota_group exclude priorities deadline draw now := by
    have hf2 : fuel + 2 = (fuel + 1) + 1 := rfl
    rw [hf2]
    unfold select
    dsimp only
    rw [if_neg (by simpa [List.isEmpty_iff] using hne)]
    rw [select_filter_all_blocked cfg wm model quota_group now _ _ _ _ hall]
    dsimp only
    rw [if_pos (show ([] : List String).isEmpty = true from rfl), if_pos hen, htry]
    dsimp only
    rw [if_pos rfl]
    rfl
  rw [hred]
  have hall2 : ∀ sid ∈ (dkeys ({ st with
        states := ((dkeys st.states).filter (fun sid => ¬ exclude.contains sid)).foldl
          (fc_clear_step (resolve_tracking_key cfg.fair_cycle model quota_group))
          st.states
        fc_global := dinsert st.fc_global provider
          (dinsert ((dget st.fc_global provider).getD [])
            (resolve_tracking_key cfg.fair_cycle model quota_group)
            { g0 with cycle_start := now, all_exhausted_at := none,
                      cycle_count := g0.cycle_count + 1 }) } : SelectionState).states).filter
        (fun sid => ¬ exclude.contains sid),
      ∀ state, dget ({ st with
        states := ((dkeys st.states).filter (fun sid => ¬ exclude.contains sid)).foldl
          (fc_clear_step (resolve_tracking_key cfg.fair_cycle model quota_group))
          st.states
        fc_global := dinsert st.fc_global provider
          (dinsert ((dget st.fc_global provider).getD [])
            (resolve_tracking_key cfg.fair_cycle model quota_group)
            { g0 with cycle_start := now, all_exhausted_at := none,
                      cycle_count := g0.cycle_count + 1 }) } : SelectionState).states sid
          = some state →
      ∃ r, check_all cfg wm state model quota_group
        ({ st with
          states := ((dkeys st.states).filter (fun sid => ¬ exclude.contains sid)).foldl
            (fc_clear_step (resolve_tracking_key cfg.fair_cycle model quota_group))
            st.states
          fc_global := dinsert st.fc_global provider
            (dinsert ((dget st.fc_global provider).getD [])
              (resolve_tracking_key cfg.fair_cycle model quota_group)
              { g0 with cycle_start := now, all_exhausted_at := none,
                        cycle_count := g0.cycle_count + 1 }) } : SelectionState).fc_global now
        = (r, state,
           ({ st with
            states := ((dkeys st.states).filter (fun sid => ¬ exclude.contains sid)).foldl
              (fc_clear_step (resolve_tracking_key cfg.fair_cycle model quota_group))
              st.states
            fc_global := dinsert st.fc_global provider
              (dinsert ((dget st.fc_global provider).getD [])
                (resolve_tracking_key cfg.fair_cycle model quota_group)
                { g0 with cycle_start := now, all_exhausted_at := none,
                          cycle_count := g0.cycle_count + 1 }) } : SelectionState).fc_global) := by
    intro sid hs state hget
    dsimp only at hs hget
    rw [fc_fold_keys] at hs
    obtain ⟨st0, hst0⟩ := hmem sid hs
    obtain ⟨fc0, hfc0, hex0⟩ := hexh' sid st0 hst0
    rw [hclear sid hs st0 hst0 fc0 hfc0] at hget
    injection hget with hget'
    subst hget'
    exact check_all_preserved_cleared cfg wm st0 _ model quota_group _ now _
      (dget_dinsert_self _ _ _) rfl
      (by
        intro L hL hle
        have hpos := hthr' sid st0 hst0 L hL
        dsimp only at hle
        omega)
  obtain ⟨fcew, hfcew, hexew⟩ := hexh' ew.1 ew.2 hewget
  have hwit2 : ∃ sid ∈ (dkeys ({ st with
        states := ((dkeys st.states).filter (fun sid => ¬ exclude.contains sid)).foldl
          (fc_clear_step (resolve_tracking_key cfg.fair_cycle model quota_group))
          st.states
        fc_global := dinsert st.fc_global provider
          (dinsert ((dget st.fc_global provider).getD [])
            (resolve_tracking_key cfg.fair_cycle model quota_group)
            { g0 with cycle_start := now, all_exhausted_at := none,
                      cycle_count := g0.cycle_count + 1 }) } : SelectionState).states).filter
        (fun sid => ¬ exclude.contains sid),
      ∃ state, dget ({ st with
        states := ((dkeys st.states).filter (fun sid => ¬ exclude.contains sid)).foldl
          (fc_clear_step (resolve_tracking_key cfg.fair_cycle model quota_group))
          st.states
        fc_global := dinsert st.fc_global provider
          (dinsert ((dget st.fc_global provider).getD [])
            (resolve_tracking_key cfg.fair_cycle model quota_group)
            { g0 with cycle_start := now, all_exhausted_at := none,
                      cycle_count := g0.cycle_count + 1 }) } : SelectionState).states sid
          = some state
      ∧ (check_all cfg wm state model quota_group
          ({ st with
            states := ((dkeys st.states).filter (fun sid => ¬ exclude.contains sid)).foldl
              (fc_clear_step (resolve_tracking_key cfg.fair_cycle model quota_group))
              st.states
            fc_global := dinsert st.fc_global provider
              (dinsert ((dget st.fc_global provider).getD [])
                (resolve_tracking_key cfg.fair_cycle model quota_group)
                { g0 with cycle_start := now, all_exhausted_at := none,
                          cycle_count := g0.cycle_count + 1 }) } : SelectionState).fc_global
          now).1.allowed = true := by
    refine ⟨ew.1, ?_, { ew.2 with fair_cycle := dinsert ew.2.fair_cycle (resolve_tracking_key cfg.fair_cycle model quota_group) { fcew with exhausted := false, exhausted_at := none, exhausted_reason := none, cycle_request_count := 0 } }, ?_, ?_⟩
    · show ew.1 ∈ (dkeys (((dkeys st.states).filter (fun sid => ¬ exclude.contains sid)).foldl
        (fc_clear_step (resolve_tracking_key cfg.fair_cycle model quota_group))
        st.states)).filter (fun sid => ¬ exclude.contains sid)
      rw [fc_fold_keys]
      exact hewkey
    · exact hclear ew.1 hewkey ew.2 hewget fcew hfcew
    · rw [check_all_ok_cleared cfg wm ew.2 _ model quota_group _ now _
        (dget_dinsert_self _ _ _) rfl
        (by
          intro L hL hle
          have hpos := hthr' ew.1 ew.2 hewget L hL
          dsimp only at hle
          omega)
        hewcc hewcd hewwl hewcap]
      rfl
  obtain ⟨c, hc1, hcmem, hcst, hcgs⟩ := select_one_pass_success cfg wm fuel provider model
    _ quota_group exclude priorities deadline draw now hall2 hwit2
  refine ⟨c, hc1, ?_, ⟨{ g0 with cycle_start := now, all_exhausted_at := none, cycle_count := g0.cycle_count + 1 }, ?_, rfl⟩, ?_⟩
  · dsimp only at hcmem
    rw [fc_fold_keys] at hcmem
    exact hcmem
  · rw [hcgs]
    dsimp only
    rw [dget_dinsert_self]
    simp only [Option.getD_some]
    rw [dget_dinsert_self]
  · intro sid' hs'
    obtain ⟨st0, hst0⟩ := hmem sid' hs'
    obtain ⟨fc0, hfc0, hex0⟩ := hexh' sid' st0 hst0
    refine ⟨{ st0 with fair_cycle := dinsert st0.fair_cycle (resolve_tracking_key cfg.fair_cycle model quota_group) { fc0 with exhausted := false, exhausted_at := none, exhausted_reason := none, cycle_request_count := 0 } },
      { fc0 with exhausted := false, exhausted_at := none, exhausted_reason := none, cycle_request_count := 0 },
      ?_, dget_dinsert_self _ _ _, rfl⟩
    rw [hcst]
    dsimp only
    exact hclear sid' hs' st0 hst0 fc0 hfc0


/-- The active primary window on credential A in the C3 witness: an
API-learned limit of 200 with 50 requests used. -/
def wA5 : WindowStats :=
  { name := "5h", request_count := 50, limit := some 200
    started_at := some 0, reset_at := some 18000 }

/-- Credential A for the C3 witness: fair-cycle exhausted for model `m`, no
cooldowns, and a known quota limit of 200 on its primary window. -/
def stA5L : CredentialState :=
  { stable_id := "A", provider := "prov", accessor := "A", priority := 1
    fair_cycle := [("m", fcExh)]
    model_usage := [("m", { windows := [("5h", wA5)] })] }

/-- Credential B for the C3 witness: fair-cycle exhausted with the long
cooldown `cdLong` (1000 s remaining, above the 120 s threshold). -/
def stB5 : CredentialState :=
  { stable_id := "B", provider := "prov", accessor := "B", priority := 1
    fair_cycle := [("m", fcExh)], cooldowns := [("m", cdLong)] }

/-- Selection state for the C3 witness scenario. -/
def st5 : SelectionState :=
  { states := [("A", stA5L), ("B", stB5)]
    fc_global := [("prov", [("m", { cycle_start := 0 })])] }

/-- Witness for the amended C3 at a concrete two-credential tier: A passes
everything but the fair-cycle checker and carries an API-learned quota limit
of 200 (promotion threshold `int(200 * 1) = 200 > 0`), B's only cooldown has
1000 s ≥ 120 s remaining, so selection resets the cycle, bumps `cycle_count`
and returns a candidate. -/
theorem C3_fair_cycle_reset_liveness_witness :
    ∃ sid, (select cfgC34 wm5h 2 "prov" "m" st5 none [] none 0 {} 0).1 = some sid
      ∧ sid ∈ (dkeys st5.states).filter (fun sid => ¬ ([] : List String).contains sid)
      ∧ (∃ g', dget ((dget (select cfgC34 wm5h 2 "prov" "m" st5 none [] none 0 {}
            0).2.fc_global "prov").getD [])
            (resolve_tracking_key cfgC34.fair_cycle "m" none) = some g'
          ∧ g'.cycle_count = ({ cycle_start := 0 } : GlobalFairCycleState).cycle_count + 1)
      ∧ ∀ sid' ∈ (dkeys st5.states).filter (fun sid => ¬ ([] : List String).contains sid),
          ∃ state' fc', dget (select cfgC34 wm5h 2 "prov" "m" st5 none [] none 0 {}
              0).2.states sid' = some state'
            ∧ dget state'.fair_cycle
                (resolve_tracking_key cfgC34.fair_cycle "m" none) = some fc'
            ∧ fc'.exhausted = false :=
  C3_fair_cycle_reset_liveness cfgC34 wm5h 0 "prov" "m" st5 none [] none 0 {} 0
    1 { cycle_start := 0 }
    (by decide) (by decide) (by decide) (by decide) (by decide) (by decide)
    (by
      intro e he
      rcases List.mem_cons.mp he with rfl | he
      · exact ⟨fcExh, by decide, by decide⟩
      rcases List.mem_cons.mp he with rfl | he
      · exact ⟨fcExh, by decide, by decide⟩
      · exact absurd he (by simp))
    (by decide) (by decide)
    (by
      intro e he
      rcases List.mem_cons.mp he with rfl | he
      · exact (by decide :
          0 < py_int_of_float ((200 : ℚ) * cfgC34.fair_cycle.quota_threshold))
      rcases List.mem_cons.mp he with rfl | he
      · exact trivial
      · exact absurd he (by simp))
    ⟨("A", stA5L), by decide, by decide, by decide, by decide, by decide, by decide⟩
    (by decide)


end Rotator
